import Mathlib

/-!
# Verification of the jet-lag timetable generator

Shallow embedding of `src/frontend/app/lib/jetlag.ts` (the file all claims
cite).  JavaScript `number`s are modelled as `ℚ` (all arithmetic the
algorithm performs on the inputs we consider is exact, so `ℚ` is a faithful
model); `Date` values are rationals counting milliseconds since the Unix
epoch; clock times are rationals counting minutes since UTC midnight.
Functions that `throw` are modelled with `Except String`; the two `while`
loops are modelled with explicit fuel, and the fuel values used by
`createJetLagTimetable` are proved sufficient for valid inputs.
-/

namespace JetLag

/-- `MS_MINUTE` from the source: milliseconds per minute. -/
def MS_MINUTE : ℚ := 60 * 1000

/-- `MS_HOUR` from the source: milliseconds per hour. -/
def MS_HOUR : ℚ := 60 * MS_MINUTE

/-- `MS_DAY` from the source: milliseconds per day. -/
def MS_DAY : ℚ := 24 * MS_HOUR

/-- `EPSILON = 1e-6` from the source. -/
def EPSILON : ℚ := 1 / 1000000

/-- Truncation toward zero, the rounding of JavaScript's `%` operator. -/
def qtrunc (q : ℚ) : ℤ := if 0 ≤ q then ⌊q⌋ else -⌊-q⌋

/-- JavaScript's remainder operator `a % b` (sign follows the dividend). -/
def jsRem (a b : ℚ) : ℚ := a - b * (qtrunc (a / b) : ℚ)

/-- `mod(value, modulus) = ((value % modulus) + modulus) % modulus` from the source. -/
def mod (value modulus : ℚ) : ℚ := jsRem (jsRem value modulus + modulus) modulus

/-- `normalizeMinutes`: reduce a minute count modulo `24 * 60`. -/
def normalizeMinutes (minutes : ℚ) : ℚ := mod minutes (24 * 60)

/-- `sumTimeDelta(timeMinutes, deltaHours)` from the source. -/
def sumTimeDelta (timeMinutes deltaHours : ℚ) : ℚ :=
  normalizeMinutes (timeMinutes + deltaHours * 60)

/-- `subtractTimes` from the source. -/
def subtractTimes (timeMinutes1 timeMinutes2 : ℚ) : ℚ := timeMinutes1 - timeMinutes2

/-- `hoursFromMinutes` from the source. -/
def hoursFromMinutes (minutes : ℚ) : ℚ := minutes / 60

/-- A half-open UTC interval `[start, end)` in epoch milliseconds. -/
abbrev Interval := ℚ × ℚ

/-- `intersectionHours` from the source: overlap length of two intervals in hours. -/
def intersectionHours (interval1 interval2 : Interval) : ℚ :=
  let latestStart := max interval1.1 interval2.1
  let earliestEnd := min interval1.2 interval2.2
  if earliestEnd ≤ latestStart then 0 else (earliestEnd - latestStart) / MS_HOUR

/-- `isInsideInterval` from the source. -/
def isInsideInterval (ts : ℚ) (interval : Interval) : Prop :=
  interval.1 ≤ ts ∧ ts < interval.2

instance (ts : ℚ) (interval : Interval) : Decidable (isInsideInterval ts interval) := by
  unfold isInsideInterval; infer_instance

/-- `addHours` from the source. -/
def addHours (date hours : ℚ) : ℚ := date + hours * MS_HOUR

/-- `addDays` from the source. -/
def addDays (date days : ℚ) : ℚ := date + days * MS_DAY

/-- `midnightForDatetime` from the source.  The source recombines
`Date.UTC(getUTCFullYear(), getUTCMonth(), getUTCDate())`, which for any
JavaScript date equals the enclosing UTC-day boundary, i.e. flooring the
epoch-millisecond count to a multiple of `MS_DAY`. -/
def midnightForDatetime (dt : ℚ) : ℚ := MS_DAY * (⌊dt / MS_DAY⌋ : ℚ)

/-- `combineDateMinutes` from the source: UTC midnight of the day of `date`
plus `minutesFromMidnight` minutes. -/
def combineDateMinutes (date minutesFromMidnight : ℚ) : ℚ :=
  midnightForDatetime date + minutesFromMidnight * MS_MINUTE

/-- `nextInterval` from the source (`jetlag.ts` version): the next occurrence
of the daily window `interval` (clock minutes) at or after `time`, started at
`time` if `time` lies inside the current occurrence; returns `none` (the
source's `[null, null]`) when a filter window overlaps the result. -/
def nextInterval (time : ℚ) (interval : ℚ × ℚ) (filterWindow : Option Interval) :
    Option Interval :=
  let startDt0 := combineDateMinutes time interval.1
  let endDt0 := combineDateMinutes time interval.2
  let endDt1 := if endDt0 ≤ startDt0 then addDays endDt0 1 else endDt0
  let se : Interval :=
    if startDt0 ≤ time then
      if time < endDt1 then (time, endDt1)
      else (addDays startDt0 1, addDays endDt1 1)
    else (startDt0, endDt1)
  match filterWindow with
  | some w => if 0 < intersectionHours se w then none else some se
  | none => some se

/-- The `phase_direction` strings of the source as a sum type. -/
inductive PhaseDirection where
  | delay
  | advance
  | aligned
deriving DecidableEq

/-- The `PRESETS.default` record of `jetlag.ts`. -/
structure Presets where
  melatonin_advance : ℚ
  melatonin_delay : ℚ
  exercise_advance : ℚ × ℚ
  exercise_delay : ℚ × ℚ
  light_advance : ℚ × ℚ
  light_delay : ℚ × ℚ
  dark_advance : ℚ × ℚ
  dark_delay : ℚ × ℚ
deriving DecidableEq

/-- `PRESETS.default` from `jetlag.ts` (note: this file's light/dark windows
are `[0,3]`/`[-3,0]`, unlike the sibling implementation). -/
def PRESETS_default : Presets where
  melatonin_advance := -11.5
  melatonin_delay := 4
  exercise_advance := (0, 3)
  exercise_delay := (-3, 0)
  light_advance := (0, 3)
  light_delay := (-3, 0)
  dark_advance := (-3, 0)
  dark_delay := (0, 3)

/-- The `InterventionTuple` of the source: melatonin instant and
exercise/light/dark windows, each with an enabled flag. -/
structure InterventionTuple where
  melatonin : Bool × ℚ
  exercise : Bool × Interval
  light : Bool × Interval
  dark : Bool × Interval
deriving DecidableEq

/-- A `CBTEntry` of the source: the CBTmin instant and the day's interventions. -/
structure CBTEntry where
  time : ℚ
  interventions : InterventionTuple
deriving DecidableEq

/-- The mutable state of the source's `CBTmin` class. -/
structure CBTmin where
  originCbtmin : ℚ
  destCbtmin : ℚ
  presets : Presets
  cbtmin : ℚ
  phase_direction : PhaseDirection
deriving DecidableEq

namespace CBTmin

/-- `CBTmin.signedDifference` from the source. -/
def signedDifference (s : CBTmin) : ℚ :=
  let diff := hoursFromMinutes (subtractTimes s.destCbtmin s.cbtmin)
  let norm := mod (diff + 12) 24 - 12
  if norm = -12 then 12 else norm

/-- The `CBTmin` constructor: `cbtmin` starts at `originCbtmin` and
`phase_direction` is derived from the initial signed difference.  The preset
lookup always resolves to `PRESETS.default` (the only preset). -/
def make (originCbtmin destCbtmin : ℚ) : CBTmin :=
  let base : CBTmin :=
    { originCbtmin := originCbtmin, destCbtmin := destCbtmin,
      presets := PRESETS_default, cbtmin := originCbtmin,
      phase_direction := .aligned }
  let diff := base.signedDifference
  { base with
    phase_direction :=
      if 0 < diff then .delay else if diff < 0 then .advance else .aligned }

/-- `CBTmin.deltaCbtmin` from the source (both branches of each inner `if`
are identical in the source; the redundant test is kept). -/
def deltaCbtmin (s : CBTmin) (melatonin exercise lightDark precondition : Bool) : ℚ :=
  if melatonin || exercise || lightDark then
    if 3 < |s.signedDifference| then (if precondition then 1 else 1.5)
    else (if precondition then 1 else 1.5)
  else
    if 3 < |s.signedDifference| then (if precondition then 0 else 1)
    else (if precondition then 0 else 1)

/-- `CBTmin.fromSleep` from the source: CBTmin is 3 hours before sleep end. -/
def fromSleep (originSleepStart originSleepEnd destSleepStart destSleepEnd : ℚ) : CBTmin :=
  let _ := originSleepStart
  let _ := destSleepStart
  make (sumTimeDelta originSleepEnd (-3)) (sumTimeDelta destSleepEnd (-3))

/-- `CBTmin.optimalMelatoninTime` from the source. -/
def optimalMelatoninTime (s : CBTmin) : ℚ :=
  if s.phase_direction = .advance then s.presets.melatonin_advance
  else s.presets.melatonin_delay

/-- `CBTmin.optimalExerciseWindow` from the source. -/
def optimalExerciseWindow (s : CBTmin) : ℚ × ℚ :=
  if s.phase_direction = .advance then s.presets.exercise_advance
  else s.presets.exercise_delay

/-- `CBTmin.optimalLightWindow` from the source. -/
def optimalLightWindow (s : CBTmin) : ℚ × ℚ :=
  if s.phase_direction = .advance then s.presets.light_advance
  else s.presets.light_delay

/-- `CBTmin.optimalDarkWindow` from the source. -/
def optimalDarkWindow (s : CBTmin) : ℚ × ℚ :=
  if s.phase_direction = .advance then s.presets.dark_advance
  else s.presets.dark_delay

/-- The options record of `CBTmin.nextCbtmin`. -/
structure NextOptions where
  noInterventionWindow : Option Interval := none
  melatonin : Bool := true
  exercise : Bool := true
  light : Bool := true
  dark : Bool := true
  precondition : Bool := true
  skipShift : Bool := false

/-- The naive next CBTmin instant: the next occurrence of the `cbtmin` clock
time strictly after `time` (source: `combineDateMinutes`, advanced one day if
already passed). -/
def naiveNext (s : CBTmin) (time : ℚ) : ℚ :=
  let c := combineDateMinutes time s.cbtmin
  if c ≤ time then addDays c 1 else c

/-- The day's optimal melatonin instant and exercise/light/dark windows,
relative to the previous day's CBTmin (`lastCbtmin`), as computed inside
`CBTmin.nextCbtmin`. -/
def optimalSchedule (s : CBTmin) (time : ℚ) : ℚ × Interval × Interval × Interval :=
  let lastCbtmin := addDays (s.naiveNext time) (-1)
  let optimalMelatonin :=
    addHours lastCbtmin
      (s.optimalMelatoninTime + (if s.phase_direction = .advance then 24 else 0))
  let ew := s.optimalExerciseWindow
  let lw := s.optimalLightWindow
  let dw := s.optimalDarkWindow
  (optimalMelatonin,
   (addHours lastCbtmin ew.1, addHours lastCbtmin ew.2),
   (addHours lastCbtmin lw.1, addHours lastCbtmin lw.2),
   (addHours lastCbtmin dw.1, addHours lastCbtmin dw.2))

/-- The four `effective*` flags of `CBTmin.nextCbtmin`: the option flags
after the travel-window suppression (`used*`) and the small-difference
suppression. -/
def suppressedFlags (s : CBTmin) (time : ℚ) (o : NextOptions) :
    Bool × Bool × Bool × Bool :=
  let sch := s.optimalSchedule time
  let usedMelatonin :=
    match o.noInterventionWindow with
    | some w => if isInsideInterval sch.1 w then false else o.melatonin
    | none => o.melatonin
  let usedExercise :=
    match o.noInterventionWindow with
    | some w => if 0 < intersectionHours sch.2.1 w then false else o.exercise
    | none => o.exercise
  let usedLight :=
    match o.noInterventionWindow with
    | some w => if 0 < intersectionHours sch.2.2.1 w then false else o.light
    | none => o.light
  let usedDark :=
    match o.noInterventionWindow with
    | some w => if 0 < intersectionHours sch.2.2.2 w then false else o.dark
    | none => o.dark
  let smallDiff := |s.signedDifference| < 3
  (if smallDiff then false else usedMelatonin,
   if smallDiff then false else usedExercise,
   if smallDiff then false else usedLight,
   if smallDiff then false else usedDark)

/-- The day's shift (`cbtminDelta` after all its reassignments in
`CBTmin.nextCbtmin`): `max(deltaCbtmin, 0)`, capped at the remaining absolute
difference, then zeroed when the 8-hour window before the naive next CBTmin
intersects the no-intervention window. -/
def loopDelta (s : CBTmin) (time : ℚ) (o : NextOptions) : ℚ :=
  let f := s.suppressedFlags time o
  let nextCbtmin := s.naiveNext time
  let d0 := max (s.deltaCbtmin f.1 f.2.1 (f.2.2.1 || f.2.2.2) o.precondition) 0
  let d1 := if |s.signedDifference| < d0 then |s.signedDifference| else d0
  match o.noInterventionWindow with
  | some w =>
      if 0 < intersectionHours (addHours nextCbtmin (-8), nextCbtmin) w then 0 else d1
  | none => d1

/-- `CBTmin.nextCbtmin` from the source.  The mutation of `this.cbtmin` is
modelled by returning the updated state together with the produced entry. -/
def nextCbtmin (s : CBTmin) (time : ℚ) (o : NextOptions) : CBTmin × CBTEntry :=
  let nextCbtmin := s.naiveNext time
  let sch := s.optimalSchedule time
  let f := s.suppressedFlags time o
  let cbtminDelta := s.loopDelta time o
  if cbtminDelta = 0 ∨ s.phase_direction = .aligned ∨ o.skipShift then
    (s,
     { time := nextCbtmin,
       interventions :=
         { melatonin := (false, sch.1)
           exercise := (false, sch.2.1)
           light := (false, sch.2.2.1)
           dark := (false, sch.2.2.2) } })
  else
    let directionSign : ℚ := if s.phase_direction = .delay then 1 else -1
    let s2 := { s with cbtmin := sumTimeDelta s.cbtmin (cbtminDelta * directionSign) }
    (s2,
     { time := addHours nextCbtmin (cbtminDelta * directionSign),
       interventions :=
         { melatonin := (f.1, sch.1)
           exercise := (f.2.1, sch.2.1)
           light := (f.2.2.1, sch.2.2.1)
           dark := (f.2.2.2, sch.2.2.2) } })

end CBTmin

end JetLag

namespace JetLag

/-! ## Proleptic Gregorian calendar (the calendar of JavaScript `Date`)

`Date.UTC` and `Date.prototype.toISOString` convert between epoch days and
civil `(year, month, day)` triples of the proleptic Gregorian calendar.
`daysFromCivil` is the standard closed-form conversion; `civilFromDays` is
its inverse, computed with a clamped linear search for the year-of-era so
that its correctness can be established by elementary arithmetic. -/

/-- Day-of-era (0-based, era = 400 Gregorian years = 146097 days) of March 1
of year-of-era `y` in the shifted (March-first) calendar. -/
def yoeStart (y : ℕ) : ℕ := 365 * y + y / 4 - y / 100

/-- Epoch day number (1970-01-01 = 0) of a civil Gregorian date, `m ∈ [1,12]`;
`d` may exceed the month length (days roll over, as in `Date.UTC`). -/
def daysFromCivil (y m d : ℤ) : ℤ :=
  let y' := if m ≤ 2 then y - 1 else y
  let era := y'.fdiv 400
  let yoe := y' - 400 * era
  let mp := if 2 < m then m - 3 else m + 9
  let doy := (153 * mp + 2).fdiv 5 + d - 1
  let doe := 365 * yoe + yoe.fdiv 4 - yoe.fdiv 100 + doy
  era * 146097 + doe - 719468

/-- Year-of-era containing day-of-era `doe`: a divisor estimate followed by
at most three corrections, clamped to 399 for the era's final day. -/
def yoeOf (doe : ℕ) : ℕ :=
  let y0 := doe / 366
  let y1 := if yoeStart (y0 + 1) ≤ doe then y0 + 1 else y0
  let y2 := if yoeStart (y1 + 1) ≤ doe then y1 + 1 else y1
  let y3 := if yoeStart (y2 + 1) ≤ doe then y2 + 1 else y2
  min y3 399

/-- Civil date `(y, m, d)` of an epoch day number. -/
def civilFromDays (z : ℤ) : ℤ × ℕ × ℕ :=
  let z' := z + 719468
  let era := z'.fdiv 146097
  let doe := (z' - 146097 * era).toNat
  let yoe := yoeOf doe
  let doy := doe - yoeStart yoe
  let mp := (5 * doy + 2) / 153
  let d := doy - (153 * mp + 2) / 5 + 1
  let m := if mp < 10 then mp + 3 else mp - 9
  (400 * era + yoe + (if m ≤ 2 then 1 else 0), m, d)

/-- `Date.UTC(y, monthIndex, d, h, mi)` in epoch milliseconds, with the
month-index overflow normalization ECMAScript's `MakeDay` performs. -/
def dateUTC (y monthIndex d h mi : ℤ) : ℤ :=
  let ym := y + monthIndex.fdiv 12
  let mn := monthIndex.emod 12
  (daysFromCivil ym (mn + 1) 1 + (d - 1)) * 86400000 + h * 3600000 + mi * 60000

/-! ## ISO-8601 formatting (`toIso`) and lexicographic comparison

`toIso` models `dt.toISOString().replace('.000Z', 'Z')` as a list of
characters.  `localeCompare` on the produced strings is modelled by
lexicographic comparison of character code points: the produced strings are
ASCII digits and fixed punctuation, on which the default collation agrees
with code-point order position by position. -/

/-- Fixed-width decimal numeral (left zero-padded, truncated to `w` digits). -/
def padNat : ℕ → ℕ → List Char
  | 0, _ => []
  | w + 1, n => padNat w (n / 10) ++ [Char.ofNat (48 + n % 10)]

/-- The date-time body `YYYY-MM-DDTHH:MM:SS` of an ISO string; years outside
`[0, 9999]` use the expanded `±YYYYYY` form `toISOString` produces. -/
def isoBody (y : ℤ) (mo d hh mi ss : ℕ) : List Char :=
  let year : List Char :=
    if 0 ≤ y ∧ y ≤ 9999 then padNat 4 y.toNat
    else if y < 0 then '-' :: padNat 6 (-y).toNat
    else '+' :: padNat 6 y.toNat
  year ++ '-' :: padNat 2 mo ++ '-' :: padNat 2 d ++
    'T' :: padNat 2 hh ++ ':' :: padNat 2 mi ++ ':' :: padNat 2 ss

/-- `toIso` from the source: `toISOString()` with a trailing `.000Z`
collapsed to `Z`.  JavaScript dates hold integral millisecond counts (the
instants this development manipulates are integral), hence the `⌊·⌋`. -/
def toIso (t : ℚ) : List Char :=
  let ms : ℤ := ⌊t⌋
  let day := ms.fdiv 86400000
  let rem := (ms - 86400000 * day).toNat
  let c := civilFromDays day
  let body := isoBody c.1 c.2.1 c.2.2 (rem / 3600000) (rem % 3600000 / 60000)
    (rem % 60000 / 1000)
  if rem % 1000 = 0 then body ++ ['Z']
  else body ++ '.' :: padNat 3 (rem % 1000) ++ ['Z']

/-- Strict lexicographic order on character lists by code point. -/
def lexLt : List Char → List Char → Bool
  | [], [] => false
  | [], _ :: _ => true
  | _ :: _, [] => false
  | a :: as, b :: bs =>
    if a.toNat < b.toNat then true
    else if b.toNat < a.toNat then false
    else lexLt as bs

/-- Lexicographic `≤` on character lists, the order `localeCompare`-based
ascending sorting realizes on the ISO strings. -/
def lexLe (a b : List Char) : Bool := !lexLt b a

/-! ## Input parsing -/

/-- ASCII decimal digit test (the regexes' `\d`). -/
def isDigit (c : Char) : Prop := 48 ≤ c.toNat ∧ c.toNat ≤ 57

instance (c : Char) : Decidable (isDigit c) := by unfold isDigit; infer_instance

/-- Value of an ASCII digit. -/
def digitVal (c : Char) : ℕ := c.toNat - 48

/-- `parseHHMM` from the source: the regex `^([01]\d|2[0-3]):([0-5]\d)$`,
then `hours * 60 + minutes`. -/
def parseHHMM (value : String) : Except String ℚ :=
  match value.data with
  | [h1, h2, c, m1, m2] =>
    if c = ':' ∧
        (((h1 = '0' ∨ h1 = '1') ∧ isDigit h2) ∨
          (h1 = '2' ∧ 48 ≤ h2.toNat ∧ h2.toNat ≤ 51)) ∧
        (48 ≤ m1.toNat ∧ m1.toNat ≤ 53) ∧ isDigit m2 then
      .ok (((digitVal h1 * 10 + digitVal h2) * 60 + (digitVal m1 * 10 + digitVal m2) : ℕ))
    else .error ("invalid HH:MM time: " ++ value)
  | _ => .error ("invalid HH:MM time: " ++ value)

/-- `parseLocalDateTime` from the source: the regex
`^(\d{4})-(\d{2})-(\d{2})T(\d{2}):(\d{2})$`, then
`Date.UTC(year, month - 1, day, hour, minute)` in epoch milliseconds. -/
def parseLocalDateTime (value : String) : Except String ℚ :=
  match value.data with
  | [y1, y2, y3, y4, s1, a1, a2, s2, b1, b2, s3, c1, c2, s4, d1, d2] =>
    if s1 = '-' ∧ s2 = '-' ∧ s3 = 'T' ∧ s4 = ':' ∧
        isDigit y1 ∧ isDigit y2 ∧ isDigit y3 ∧ isDigit y4 ∧
        isDigit a1 ∧ isDigit a2 ∧ isDigit b1 ∧ isDigit b2 ∧
        isDigit c1 ∧ isDigit c2 ∧ isDigit d1 ∧ isDigit d2 then
      let year : ℤ := ((digitVal y1 * 10 + digitVal y2) * 10 + digitVal y3) * 10 + digitVal y4
      let month : ℤ := digitVal a1 * 10 + digitVal a2
      let day : ℤ := digitVal b1 * 10 + digitVal b2
      let hour : ℤ := digitVal c1 * 10 + digitVal c2
      let minute : ℤ := digitVal d1 * 10 + digitVal d2
      .ok ((dateUTC year (month - 1) day hour minute : ℤ) : ℚ)
    else .error ("invalid datetime-local: " ++ value)
  | _ => .error ("invalid datetime-local: " ++ value)

/-- ASCII lowering, the effect of `toLowerCase()` on the ASCII mode names. -/
def lowerChar (c : Char) : Char :=
  if 65 ≤ c.toNat ∧ c.toNat ≤ 90 then Char.ofNat (c.toNat + 32) else c

/-- `adjustmentStart.toLowerCase()` (ASCII model). -/
def jsToLower (s : String) : String := ⟨s.data.map lowerChar⟩

end JetLag

namespace JetLag

instance {e a : Type} [DecidableEq e] [DecidableEq a] : DecidableEq (Except e a) :=
  fun x y =>
    match x, y with
    | .ok u, .ok v => decidable_of_iff (u = v) (by simp)
    | .error u, .error v => decidable_of_iff (u = v) (by simp)
    | .ok _, .error _ => isFalse (by simp)
    | .error _, .ok _ => isFalse (by simp)

/-- `JetLagInputs` from the source. -/
structure JetLagInputs where
  originOffset : ℚ
  destOffset : ℚ
  originSleepStart : String
  originSleepEnd : String
  destSleepStart : String
  destSleepEnd : String
  travelStart : String
  travelEnd : String
  useMelatonin : Bool
  useLightDark : Bool
  useExercise : Bool
  preDays : ℚ
  adjustmentStart : String

/-- `JetLagEvent` from the source.  `start`/`endTime` hold the instants whose
ISO-8601 serializations (`toIso`) the source stores; `endTime` renders the
reserved word `end`. -/
structure JetLagEvent where
  event : String
  start : ℚ
  endTime : Option ℚ
  is_cbtmin : Bool
  is_melatonin : Bool
  is_light : Bool
  is_dark : Bool
  is_exercise : Bool
  is_sleep : Bool
  is_travel : Bool
  day_index : Option ℕ
  phase_direction : PhaseDirection
  signed_initial_diff_hours : ℚ
deriving DecidableEq

/-- The loop-invariant context of the convergence `while` loop. -/
structure LoopCtx where
  useMelatonin : Bool
  useExercise : Bool
  useLightDark : Bool
  noInterventionWindow : Option Interval
  mode : String
  startOfShift : ℚ
  travelStartUtc : ℚ

/-- The `isPrecondition` test of the source's loop body (lines 420–423). -/
def isPreconditionFor (ctx : LoopCtx) (timeCursor : ℚ) : Bool :=
  (ctx.mode == "travel_start" || ctx.mode == "precondition_with_travel") &&
    decide (ctx.startOfShift < timeCursor) && decide (timeCursor < ctx.travelStartUtc)

/-- The options handed to `nextCbtmin` by the loop body. -/
def loopOptions (ctx : LoopCtx) (timeCursor : ℚ) : CBTmin.NextOptions where
  noInterventionWindow := ctx.noInterventionWindow
  melatonin := ctx.useMelatonin
  exercise := ctx.useExercise
  light := ctx.useLightDark
  dark := ctx.useLightDark
  precondition := isPreconditionFor ctx timeCursor
  skipShift := decide (timeCursor < ctx.startOfShift)

/-- The convergence `while` loop (source lines 413–437), with fuel.  Each
produced entry is recorded together with the `CBTmin` state right after the
corresponding `nextCbtmin` call (instrumentation used to state invariants;
the source only keeps the entry). -/
def convergenceLoop (ctx : LoopCtx) :
    ℕ → CBTmin → ℚ → ℕ → Option (CBTmin × List (CBTmin × CBTEntry))
  | 0, _, _, _ => none
  | fuel + 1, cbt, timeCursor, extraDays =>
    if EPSILON < |cbt.signedDifference| ∨ extraDays < 2 then
      let extraDays' := if |cbt.signedDifference| < EPSILON then extraDays + 1 else extraDays
      let r := cbt.nextCbtmin timeCursor (loopOptions ctx timeCursor)
      match convergenceLoop ctx fuel r.1 r.2.time extraDays' with
      | none => none
      | some (c, rest) => some (c, (r.1, r.2) :: rest)
    else some (cbt, [])

/-- One decision of the sleep-window `while` loop body (source lines
541–582): either push a window and move the cursor to its end, or skip one
day; the `Bool` is the updated `sleepDest` flag ( set once the origin
schedule's candidate reaches past the travel start). -/
def sleepStep (originWindow destWindow : ℚ × ℚ) (travel : Interval)
    (sleepTime : ℚ) (sleepDest : Bool) : Option Interval × ℚ × Bool :=
  if sleepDest then
    match nextInterval sleepTime destWindow (some travel) with
    | none => (none, addDays sleepTime 1, sleepDest)
    | some se => (some se, se.2, sleepDest)
  else
    match nextInterval sleepTime originWindow (some travel) with
    | none => (none, addDays sleepTime 1, sleepDest)
    | some se =>
      if travel.1 < se.2 then
        match nextInterval sleepTime destWindow (some travel) with
        | none => (none, addDays sleepTime 1, true)
        | some seD => (some seD, seD.2, true)
      else (some se, se.2, sleepDest)

/-- The sleep-window `while` loop (source lines 537–582), with fuel: while
`sleepTime < midnightEnd`, perform one `sleepStep` and accumulate any pushed
window. -/
def sleepLoop (originWindow destWindow : ℚ × ℚ) (travel : Interval) (midnightEnd : ℚ) :
    ℕ → ℚ → Bool → Option (List Interval)
  | 0, _, _ => none
  | fuel + 1, sleepTime, sleepDest =>
    if sleepTime < midnightEnd then
      match sleepStep originWindow destWindow travel sleepTime sleepDest with
      | (none, t, sd) => sleepLoop originWindow destWindow travel midnightEnd fuel t sd
      | (some w, t, sd) =>
        (sleepLoop originWindow destWindow travel midnightEnd fuel t sd).map (w :: ·)
    else some []

/-- The constant event skeleton: all flags false, `day_index` null. -/
def baseEvent (name : String) (start : ℚ) (endTime : Option ℚ)
    (dir : PhaseDirection) (sd : ℚ) : JetLagEvent where
  event := name
  start := start
  endTime := endTime
  is_cbtmin := false
  is_melatonin := false
  is_light := false
  is_dark := false
  is_exercise := false
  is_sleep := false
  is_travel := false
  day_index := none
  phase_direction := dir
  signed_initial_diff_hours := sd

/-- The per-entry event emission of the source (lines 446–535): one `cbtmin`
event always, one `melatonin`/`exercise`/`light`/`dark` event per enabled
flag, intervals taken verbatim from the entry. -/
def eventsOfEntry (dir : PhaseDirection) (sd : ℚ) (e : CBTEntry) : List JetLagEvent :=
  [{ baseEvent "cbtmin" e.time none dir sd with is_cbtmin := true }] ++
  (if e.interventions.melatonin.1 then
    [{ baseEvent "melatonin" e.interventions.melatonin.2 none dir sd with
        is_melatonin := true }] else []) ++
  (if e.interventions.exercise.1 then
    [{ baseEvent "exercise" e.interventions.exercise.2.1
        (some e.interventions.exercise.2.2) dir sd with is_exercise := true }] else []) ++
  (if e.interventions.light.1 then
    [{ baseEvent "light" e.interventions.light.2.1
        (some e.interventions.light.2.2) dir sd with is_light := true }] else []) ++
  (if e.interventions.dark.1 then
    [{ baseEvent "dark" e.interventions.dark.2.1
        (some e.interventions.dark.2.2) dir sd with is_dark := true }] else [])

/-- Fuel large enough to cover a span of `q` units plus `extra` iterations. -/
def spanFuel (q : ℚ) (extra : ℕ) : ℕ := (⌊q⌋ + 1).toNat + extra

/-- The sort comparator: the source sorts by
`a.start.localeCompare(b.start)` on the ISO serializations. -/
def eventLe (a b : JetLagEvent) : Bool := lexLe (toIso a.start) (toIso b.start)

/-- Everything `createJetLagTimetable` computes before the loops
(source lines 328–391). -/
structure Setup where
  originSleepStartUtc : ℚ
  originSleepEndUtc : ℚ
  destinationSleepStartUtc : ℚ
  destinationSleepEndUtc : ℚ
  travelStartUtc : ℚ
  travelEndUtc : ℚ
  mode : String
  effectivePreDays : ℚ
  startOfShift : ℚ
  cbt : CBTmin
  midnightStartOfCalculations : ℚ
  noInterventionWindow : Option Interval

/-- The adjustment mode string: `(inputs.adjustmentStart || 'after_arrival').toLowerCase()`. -/
def modeOf (inputs : JetLagInputs) : String :=
  jsToLower (if inputs.adjustmentStart = "" then "after_arrival" else inputs.adjustmentStart)

/-- The validation and normalization prefix of `createJetLagTimetable`
(source lines 328–391): parses the four `HH:MM` strings and the two
travel datetimes, converts to UTC, rejects a non-positive travel interval
and an unknown adjustment mode, and assembles the derived quantities. -/
def mkSetup (inputs : JetLagInputs) : Except String Setup :=
  match parseHHMM inputs.originSleepStart with
  | .error e => .error e
  | .ok originSleepStart =>
  match parseHHMM inputs.originSleepEnd with
  | .error e => .error e
  | .ok originSleepEnd =>
  match parseHHMM inputs.destSleepStart with
  | .error e => .error e
  | .ok destinationSleepStart =>
  match parseHHMM inputs.destSleepEnd with
  | .error e => .error e
  | .ok destinationSleepEnd =>
  match parseLocalDateTime inputs.travelStart with
  | .error e => .error e
  | .ok travelStart =>
  match parseLocalDateTime inputs.travelEnd with
  | .error e => .error e
  | .ok travelEnd =>
  let originSleepStartUtc := sumTimeDelta originSleepStart (-inputs.originOffset)
  let originSleepEndUtc := sumTimeDelta originSleepEnd (-inputs.originOffset)
  let destinationSleepStartUtc := sumTimeDelta destinationSleepStart (-inputs.destOffset)
  let destinationSleepEndUtc := sumTimeDelta destinationSleepEnd (-inputs.destOffset)
  let travelStartUtc := addHours travelStart (-inputs.originOffset)
  let travelEndUtc := addHours travelEnd (-inputs.destOffset)
  if travelEndUtc ≤ travelStartUtc then
    .error "Travel end is before start"
  else
  let mode := modeOf inputs
  if ¬(mode = "after_arrival" ∨ mode = "travel_start" ∨ mode = "precondition" ∨
      mode = "precondition_with_travel") then
    .error ("invalid adjustment_start: " ++ inputs.adjustmentStart)
  else
  let preconditionDays := max inputs.preDays 0
  let effectivePreDays :=
    if mode = "precondition" ∨ mode = "precondition_with_travel" then preconditionDays
    else 0
  let startOfShift :=
    if mode = "after_arrival" then travelEndUtc
    else if mode = "travel_start" then travelStartUtc
    else addHours (addDays (midnightForDatetime travelStart) (-effectivePreDays))
      (-inputs.originOffset)
  let cbt := CBTmin.fromSleep originSleepStartUtc originSleepEndUtc
    destinationSleepStartUtc destinationSleepEndUtc
  let midnightStartOfCalculations := midnightForDatetime
    (addDays travelStartUtc (-(effectivePreDays + 2)))
  let noInterventionWindow :=
    if mode = "travel_start" ∨ mode = "precondition_with_travel" then none
    else some (travelStartUtc, travelEndUtc)
  .ok
    { originSleepStartUtc, originSleepEndUtc, destinationSleepStartUtc,
      destinationSleepEndUtc, travelStartUtc, travelEndUtc, mode,
      effectivePreDays, startOfShift, cbt, midnightStartOfCalculations,
      noInterventionWindow }

/-- The seed `nextCbtmin` call (source lines 393–401): shifting disabled. -/
def firstCbtminOf (inputs : JetLagInputs) (st : Setup) : ℚ :=
  (st.cbt.nextCbtmin st.midnightStartOfCalculations
    { noInterventionWindow := st.noInterventionWindow
      melatonin := inputs.useMelatonin, exercise := inputs.useExercise
      light := inputs.useLightDark, dark := inputs.useLightDark
      precondition := false, skipShift := true }).2.time

/-- The hand-written seed entry the source pushes (lines 403–411): all flags
false, degenerate intervals at the first CBTmin. -/
def seedEntry (firstCbtmin : ℚ) : CBTEntry where
  time := firstCbtmin
  interventions :=
    { melatonin := (false, firstCbtmin)
      exercise := (false, (firstCbtmin, firstCbtmin))
      light := (false, (firstCbtmin, firstCbtmin))
      dark := (false, (firstCbtmin, firstCbtmin)) }

/-- The loop context `createJetLagTimetable` uses. -/
def ctxOf (inputs : JetLagInputs) (st : Setup) : LoopCtx where
  useMelatonin := inputs.useMelatonin
  useExercise := inputs.useExercise
  useLightDark := inputs.useLightDark
  noInterventionWindow := st.noInterventionWindow
  mode := st.mode
  startOfShift := st.startOfShift
  travelStartUtc := st.travelStartUtc

/-- The latest instant after which the loop can no longer have its daily
shift zeroed by the travel window, the precondition rule or `skipShift`. -/
def shiftHorizon (st : Setup) : ℚ :=
  max (max st.startOfShift st.travelStartUtc) (addHours st.travelEndUtc 8)

/-- Fuel for the convergence loop: enough iterations to walk the cursor past
`shiftHorizon` (at ≥ 22.5 h each) plus the at most 12+1 shifting iterations
and 2 stabilization iterations (with slack). -/
def loopFuelOf (st : Setup) (firstCbtmin : ℚ) : ℕ :=
  spanFuel ((shiftHorizon st - firstCbtmin) / (45 / 2 * MS_HOUR)) 20

/-- Fuel for the sleep loop: at most two iterations per day of the covered
span (with slack). -/
def sleepFuelOf (st : Setup) (midnightEnd : ℚ) : ℕ :=
  2 * spanFuel ((midnightEnd - st.midnightStartOfCalculations) / MS_DAY) 4

/-- `createJetLagTimetable` from the source (lines 327–624).  The two
`while` loops run on fuel proved sufficient for valid inputs; exhausted fuel
(impossible for valid inputs, theorem `convergence_terminates`) surfaces as
an error. -/
def createJetLagTimetable (inputs : JetLagInputs) : Except String (List JetLagEvent) :=
  match mkSetup inputs with
  | .error e => .error e
  | .ok st =>
  let firstCbtmin := firstCbtminOf inputs st
  let ctx := ctxOf inputs st
  match convergenceLoop ctx (loopFuelOf st firstCbtmin) st.cbt firstCbtmin 0 with
  | none => .error "convergence loop did not terminate"
  | some (cbtFinal, loopEntries) =>
  let cbtEntries := seedEntry firstCbtmin :: loopEntries.map (fun p => p.2)
  let lastTime := (cbtEntries.getLastD (seedEntry firstCbtmin)).time
  let midnightEndOfCalculations := midnightForDatetime (addDays lastTime 1)
  let signedDiff := cbtFinal.signedDifference
  let phaseDirection := cbtFinal.phase_direction
  let interventionEvents := cbtEntries.flatMap (eventsOfEntry phaseDirection signedDiff)
  match sleepLoop (st.originSleepStartUtc, st.originSleepEndUtc)
      (st.destinationSleepStartUtc, st.destinationSleepEndUtc)
      (st.travelStartUtc, st.travelEndUtc) midnightEndOfCalculations
      (sleepFuelOf st midnightEndOfCalculations) st.midnightStartOfCalculations false with
  | none => .error "sleep loop did not terminate"
  | some sleepWindows =>
  let sleepEvents := sleepWindows.map fun w =>
    { baseEvent "sleep" w.1 (some w.2) phaseDirection signedDiff with is_sleep := true }
  let travelEvent :=
    { baseEvent "travel" st.travelStartUtc (some st.travelEndUtc) phaseDirection
        signedDiff with is_travel := true }
  let events := sleepEvents ++ [travelEvent] ++ interventionEvents
  .ok (events.mergeSort eventLe)

end JetLag

namespace JetLag

/-! ## Arithmetic facts about `mod` -/

theorem qtrunc_of_nonneg {q : ℚ} (h : 0 ≤ q) : qtrunc q = ⌊q⌋ := if_pos h

theorem qtrunc_of_neg {q : ℚ} (h : ¬ 0 ≤ q) : qtrunc q = ⌈q⌉ := by
  rw [qtrunc, if_neg h, ← Int.ceil_neg, neg_neg]

/-- `jsRem` is the dividend minus an integer multiple of the divisor. -/
theorem jsRem_sub_int (a b : ℚ) : ∃ k : ℤ, jsRem a b = a - b * k := ⟨qtrunc (a / b), rfl⟩

theorem jsRem_bounds {a b : ℚ} (hb : 0 < b) : -b < jsRem a b ∧ jsRem a b < b := by
  rcases le_or_lt 0 (a / b) with h | h
  · rw [jsRem, qtrunc_of_nonneg h]
    have h1 : (⌊a / b⌋ : ℚ) ≤ a / b := Int.floor_le _
    have h2 : a / b - 1 < ⌊a / b⌋ := Int.sub_one_lt_floor _
    constructor <;> nlinarith [div_mul_cancel₀ a hb.ne']
  · rw [jsRem, qtrunc_of_neg (not_le.mpr h)]
    have h1 : (a / b : ℚ) ≤ ⌈a / b⌉ := Int.le_ceil _
    have h2 : (⌈a / b⌉ : ℚ) < a / b + 1 := Int.ceil_lt_add_one _
    constructor <;> nlinarith [div_mul_cancel₀ a hb.ne']

theorem jsRem_of_nonneg_lt {a b : ℚ} (h0 : 0 ≤ a) (h1 : a < b) : jsRem a b = a := by
  have hb : 0 < b := lt_of_le_of_lt h0 h1
  have : qtrunc (a / b) = ⌊a / b⌋ := qtrunc_of_nonneg (div_nonneg h0 hb.le)
  rw [jsRem, this, Int.floor_eq_zero_iff.mpr ⟨div_nonneg h0 hb.le, (div_lt_one hb).mpr h1⟩]
  push_cast; ring

/-- `mod` differs from the value by an integer multiple of the modulus. -/
theorem mod_sub_int (v m : ℚ) : ∃ k : ℤ, mod v m = v - m * k := by
  obtain ⟨k1, h1⟩ := jsRem_sub_int v m
  obtain ⟨k2, h2⟩ := jsRem_sub_int (jsRem v m + m) m
  exact ⟨k1 - 1 + k2, by rw [mod, h2, h1]; push_cast; ring⟩

theorem mod_bounds {v m : ℚ} (hm : 0 < m) : 0 ≤ mod v m ∧ mod v m < m := by
  obtain ⟨hl, hr⟩ := jsRem_bounds (a := v) hm
  have h0 : 0 ≤ jsRem v m + m := by linarith
  rcases lt_or_le (jsRem v m + m) m with h | h
  · rw [mod, jsRem_of_nonneg_lt h0 h]; exact ⟨h0, h⟩
  · have h2m : jsRem v m + m < 2 * m := by linarith
    have key : jsRem (jsRem v m + m) m = jsRem v m := by
      have hq0 : (0 : ℚ) ≤ (jsRem v m + m) / m := div_nonneg h0 hm.le
      have hq : qtrunc ((jsRem v m + m) / m) = ⌊(jsRem v m + m) / m⌋ := qtrunc_of_nonneg hq0
      have hfl : ⌊(jsRem v m + m) / m⌋ = 1 := by
        rw [Int.floor_eq_iff]
        constructor
        · rw [show ((1 : ℤ) : ℚ) = 1 by norm_num, le_div_iff₀ hm]; linarith
        · rw [div_lt_iff₀ hm]; push_cast; linarith
      rw [jsRem, hq, hfl]; push_cast; ring
    rw [mod, key]
    constructor <;> linarith

/-- For a positive modulus, `mod` is the mathematical (floor) remainder. -/
theorem mod_eq_floor {m : ℚ} (v : ℚ) (hm : 0 < m) : mod v m = v - m * ⌊v / m⌋ := by
  obtain ⟨k, hk⟩ := mod_sub_int v m
  obtain ⟨h0, h1⟩ := mod_bounds (v := v) hm
  have hfl : ⌊v / m⌋ = k := by
    rw [Int.floor_eq_iff]
    constructor
    · rw [le_div_iff₀ hm]; nlinarith
    · rw [div_lt_iff₀ hm]; nlinarith [hk, h1, hm]
  rw [hk, hfl]

theorem mod_add_int_mul {m : ℚ} (v : ℚ) (hm : 0 < m) (k : ℤ) :
    mod (v + m * k) m = mod v m := by
  rw [mod_eq_floor _ hm, mod_eq_floor _ hm]
  have : (v + m * k) / m = v / m + k := by field_simp; ring
  rw [this, Int.floor_add_int]
  push_cast; ring

theorem mod_of_nonneg_lt {v m : ℚ} (h0 : 0 ≤ v) (h1 : v < m) : mod v m = v := by
  rw [mod_eq_floor _ (lt_of_le_of_lt h0 h1),
    Int.floor_eq_zero_iff.mpr ⟨div_nonneg h0 (lt_of_le_of_lt h0 h1).le,
      (div_lt_one (lt_of_le_of_lt h0 h1)).mpr h1⟩]
  push_cast; ring

theorem absQ_ite (q : ℚ) : |q| = if 0 ≤ q then q else -q := by
  rcases le_or_lt 0 q with h | h
  · rw [abs_of_nonneg h, if_pos h]
  · rw [abs_of_neg h, if_neg (not_le.mpr h)]

/-! ## The canonical `(-12, 12]` representative -/

/-- The canonical representative in `(-12, 12]` of an hour count modulo 24:
the arithmetic `signedDifference` performs on `(dest - current) / 60`. -/
def canon (x : ℚ) : ℚ :=
  let norm := mod (x + 12) 24 - 12
  if norm = -12 then 12 else norm

theorem signedDifference_eq_canon (s : CBTmin) :
    s.signedDifference = canon ((s.destCbtmin - s.cbtmin) / 60) := rfl

theorem canon_bounds (x : ℚ) : -12 < canon x ∧ canon x ≤ 12 := by
  obtain ⟨h0, h1⟩ := mod_bounds (v := x + 12) (m := 24) (by norm_num)
  simp only [canon]
  split
  · norm_num
  · rename_i h
    refine ⟨lt_of_le_of_ne (by linarith) (Ne.symm h), by linarith⟩

theorem canon_sub_int (x : ℚ) : ∃ k : ℤ, canon x = x - 24 * k := by
  obtain ⟨k, hk⟩ := mod_sub_int (x + 12) 24
  simp only [canon]
  split
  · rename_i h
    rw [hk] at h
    exact ⟨k - 1, by push_cast; linarith⟩
  · exact ⟨k, by rw [hk]; ring⟩

theorem canon_eq_self {x : ℚ} (h0 : -12 < x) (h1 : x ≤ 12) : canon x = x := by
  simp only [canon]
  rcases lt_or_eq_of_le h1 with h | h
  · rw [mod_of_nonneg_lt (by linarith) (by linarith)]
    split
    · rename_i h2; exfalso; linarith
    · ring
  · have h24 : mod (x + 12) 24 = 0 := by
      have := mod_add_int_mul (m := (24 : ℚ)) 0 (by norm_num) 1
      rw [mod_of_nonneg_lt (le_refl (0 : ℚ)) (by norm_num : (0 : ℚ) < 24)] at this
      rw [h, show (12 : ℚ) + 12 = 0 + 24 * (1 : ℤ) by norm_num, this]
    rw [h24]
    norm_num [h]

theorem canon_add_int_mul (x : ℚ) (k : ℤ) : canon (x + 24 * k) = canon x := by
  simp only [canon]
  rw [show x + 24 * k + 12 = (x + 12) + 24 * k by ring,
    mod_add_int_mul _ (by norm_num) k]

/-! ## Chaining lemmas for the loops -/

theorem convergenceLoop_cons (ctx : LoopCtx) (fuel : ℕ) (cbt : CBTmin) (t : ℚ)
    (extra extra' : ℕ) (s' : CBTmin) (e' : CBTEntry) (res : CBTmin × List (CBTmin × CBTEntry))
    (hcond : EPSILON < |cbt.signedDifference| ∨ extra < 2)
    (hextra : extra' = (if |cbt.signedDifference| < EPSILON then extra + 1 else extra))
    (hstep : cbt.nextCbtmin t (loopOptions ctx t) = (s', e'))
    (hrec : convergenceLoop ctx fuel s' e'.time extra' = some res) :
    convergenceLoop ctx (fuel + 1) cbt t extra = some (res.1, (s', e') :: res.2) := by
  rw [convergenceLoop, if_pos hcond, hstep]
  simp only []
  rw [← hextra, hrec]

theorem convergenceLoop_stop (ctx : LoopCtx) (fuel : ℕ) (cbt : CBTmin) (t : ℚ) (extra : ℕ)
    (hcond : ¬(EPSILON < |cbt.signedDifference| ∨ extra < 2)) :
    convergenceLoop ctx (fuel + 1) cbt t extra = some (cbt, []) := by
  rw [convergenceLoop, if_neg hcond]

end JetLag

namespace JetLag

theorem sleepLoop_stop (ow dw : ℚ × ℚ) (tr : Interval) (mEnd : ℚ) (fuel : ℕ)
    (t : ℚ) (sd : Bool) (h : ¬ t < mEnd) :
    sleepLoop ow dw tr mEnd (fuel + 1) t sd = some [] := by
  rw [sleepLoop.eq_2, if_neg h]

theorem sleepLoop_skip (ow dw : ℚ × ℚ) (tr : Interval) (mEnd : ℚ) (fuel : ℕ)
    (t t' : ℚ) (sd sd' : Bool) (h : t < mEnd)
    (hs : sleepStep ow dw tr t sd = (none, t', sd')) :
    sleepLoop ow dw tr mEnd (fuel + 1) t sd = sleepLoop ow dw tr mEnd fuel t' sd' := by
  rw [sleepLoop.eq_2, if_pos h, hs]


theorem sleepLoop_push (ow dw : ℚ × ℚ) (tr : Interval) (mEnd : ℚ) (fuel : ℕ)
    (t t' : ℚ) (sd sd' : Bool) (w : Interval) (l : List Interval) (h : t < mEnd)
    (hs : sleepStep ow dw tr t sd = (some w, t', sd'))
    (hrec : sleepLoop ow dw tr mEnd fuel t' sd' = some l) :
    sleepLoop ow dw tr mEnd (fuel + 1) t sd = some (w :: l) := by
  rw [sleepLoop.eq_2, if_pos h, hs]
  simp only [hrec, Option.map]

end JetLag

namespace JetLag

/-! ## Two concrete runs evaluated end to end

`inpDelay`: an 8-hour eastbound-equivalent delay case (origin UTC+0,
destination UTC−8), `travel_start` mode, only light/dark enabled.
`inpAligned`: origin and destination share sleep schedule and offset, so the
initial signed difference is zero. -/

def inpDelay : JetLagInputs where
  originOffset := 0
  destOffset := -8
  originSleepStart := "23:00"
  originSleepEnd := "07:00"
  destSleepStart := "23:00"
  destSleepEnd := "07:00"
  travelStart := "2025-09-10T18:00"
  travelEnd := "2025-09-11T08:00"
  useMelatonin := false
  useLightDark := true
  useExercise := false
  preDays := 0
  adjustmentStart := "travel_start"

def inpAligned : JetLagInputs where
  originOffset := 0
  destOffset := 0
  originSleepStart := "23:00"
  originSleepEnd := "07:00"
  destSleepStart := "23:00"
  destSleepEnd := "07:00"
  travelStart := "2025-09-10T18:00"
  travelEnd := "2025-09-11T08:00"
  useMelatonin := true
  useLightDark := true
  useExercise := true
  preDays := 0
  adjustmentStart := "after_arrival"

theorem parseHM2300 : parseHHMM "23:00" = .ok 1380 := by decide
theorem parseHM0700 : parseHHMM "07:00" = .ok 420 := by decide
theorem parseDT0910 : parseLocalDateTime "2025-09-10T18:00" = .ok 1757527200000 := by decide
theorem parseDT0911 : parseLocalDateTime "2025-09-11T08:00" = .ok 1757577600000 := by decide

/-- The `Setup` record `mkSetup` produces for `inpDelay`. -/
def stD : Setup :=
  { originSleepStartUtc := 1380, originSleepEndUtc := 420,
    destinationSleepStartUtc := 420, destinationSleepEndUtc := 900,
    travelStartUtc := 1757527200000, travelEndUtc := 1757606400000,
    mode := "travel_start", effectivePreDays := 0,
    startOfShift := 1757527200000,
    cbt := { originCbtmin := 240, destCbtmin := 720, presets := PRESETS_default,
             cbtmin := 240, phase_direction := .delay },
    midnightStartOfCalculations := 1757289600000,
    noInterventionWindow := none }

/-- The `CBTmin` states of the `inpDelay` run differ only in `cbtmin`. -/
def cbtD (c : ℚ) : CBTmin :=
  { originCbtmin := 240, destCbtmin := 720, presets := PRESETS_default,
    cbtmin := c, phase_direction := .delay }

theorem mkSetup_D : mkSetup inpDelay = .ok stD := by
  rw [mkSetup, inpDelay, parseHM2300, parseHM0700, parseDT0910, parseDT0911]
  norm_num +decide [sumTimeDelta, normalizeMinutes, mod, jsRem, qtrunc, addHours,
    addDays, midnightForDatetime, MS_HOUR, MS_MINUTE, MS_DAY, jsToLower, lowerChar,
    CBTmin.fromSleep, CBTmin.make, CBTmin.signedDifference, hoursFromMinutes,
    subtractTimes, canon, modeOf, stD]

def ctxD : LoopCtx :=
  { useMelatonin := false, useExercise := false, useLightDark := true,
    noInterventionWindow := none, mode := "travel_start",
    startOfShift := 1757527200000, travelStartUtc := 1757527200000 }

theorem ctx_D_eq : ctxOf inpDelay stD = ctxD := by
  norm_num [ctxOf, inpDelay, stD, ctxD]

theorem first_D : firstCbtminOf inpDelay stD = 1757304000000 := by
  norm_num +decide [firstCbtminOf, inpDelay, stD, CBTmin.nextCbtmin, CBTmin.naiveNext, CBTmin.optimalSchedule, CBTmin.suppressedFlags, CBTmin.loopDelta, CBTmin.deltaCbtmin, CBTmin.signedDifference, CBTmin.optimalMelatoninTime, CBTmin.optimalExerciseWindow, CBTmin.optimalLightWindow, CBTmin.optimalDarkWindow, PRESETS_default, hoursFromMinutes, subtractTimes, sumTimeDelta, normalizeMinutes, mod, jsRem, qtrunc, addHours, addDays, midnightForDatetime, combineDateMinutes, intersectionHours, isInsideInterval, EPSILON, MS_HOUR, MS_MINUTE, MS_DAY, loopOptions, isPreconditionFor, absQ_ite]

/-- The entries the convergence loop appends on the `inpDelay` run. -/
def loopOutD : List (CBTmin × CBTEntry) := [
  (cbtD 240, ⟨1757390400000, ⟨(false, 1757318400000), (false, (1757293200000, 1757304000000)), (false, (1757293200000, 1757304000000)), (false, (1757304000000, 1757314800000))⟩⟩),
  (cbtD 240, ⟨1757476800000, ⟨(false, 1757404800000), (false, (1757379600000, 1757390400000)), (false, (1757379600000, 1757390400000)), (false, (1757390400000, 1757401200000))⟩⟩),
  (cbtD 240, ⟨1757563200000, ⟨(false, 1757491200000), (false, (1757466000000, 1757476800000)), (false, (1757466000000, 1757476800000)), (false, (1757476800000, 1757487600000))⟩⟩),
  (cbtD 330, ⟨1757655000000, ⟨(false, 1757577600000), (false, (1757552400000, 1757563200000)), (true, (1757552400000, 1757563200000)), (true, (1757563200000, 1757574000000))⟩⟩),
  (cbtD 420, ⟨1757746800000, ⟨(false, 1757669400000), (false, (1757644200000, 1757655000000)), (true, (1757644200000, 1757655000000)), (true, (1757655000000, 1757665800000))⟩⟩),
  (cbtD 510, ⟨1757838600000, ⟨(false, 1757761200000), (false, (1757736000000, 1757746800000)), (true, (1757736000000, 1757746800000)), (true, (1757746800000, 1757757600000))⟩⟩),
  (cbtD 600, ⟨1757930400000, ⟨(false, 1757853000000), (false, (1757827800000, 1757838600000)), (true, (1757827800000, 1757838600000)), (true, (1757838600000, 1757849400000))⟩⟩),
  (cbtD 660, ⟨1758020400000, ⟨(false, 1757944800000), (false, (1757919600000, 1757930400000)), (false, (1757919600000, 1757930400000)), (false, (1757930400000, 1757941200000))⟩⟩),
  (cbtD 720, ⟨1758110400000, ⟨(false, 1758034800000), (false, (1758009600000, 1758020400000)), (false, (1758009600000, 1758020400000)), (false, (1758020400000, 1758031200000))⟩⟩),
  (cbtD 720, ⟨1758196800000, ⟨(false, 1758124800000), (false, (1758099600000, 1758110400000)), (false, (1758099600000, 1758110400000)), (false, (1758110400000, 1758121200000))⟩⟩),
  (cbtD 720, ⟨1758283200000, ⟨(false, 1758211200000), (false, (1758186000000, 1758196800000)), (false, (1758186000000, 1758196800000)), (false, (1758196800000, 1758207600000))⟩⟩)]

theorem loop_D_11 :
    convergenceLoop ctxD 14 (cbtD 720) 1758283200000 2 =
      some (cbtD 720, loopOutD.drop 11) := by
  refine convergenceLoop_stop _ 13 _ _ _ ?_
  norm_num [cbtD, CBTmin.signedDifference, hoursFromMinutes, subtractTimes,
    mod, jsRem, qtrunc, EPSILON, canon, absQ_ite]

set_option maxHeartbeats 1000000 in
theorem loop_D_10 :
    convergenceLoop ctxD 15 (cbtD 720) 1758196800000 1 =
      some (cbtD 720, loopOutD.drop 10) := by
  refine convergenceLoop_cons _ 14 _ _ _ 2 (cbtD 720)
    ⟨1758283200000, ⟨(false, 1758211200000), (false, (1758186000000, 1758196800000)), (false, (1758186000000, 1758196800000)), (false, (1758196800000, 1758207600000))⟩⟩ (cbtD 720, loopOutD.drop 11) ?_ ?_ ?_ loop_D_11
  · norm_num [cbtD, CBTmin.signedDifference, hoursFromMinutes, subtractTimes,
      mod, jsRem, qtrunc, EPSILON, absQ_ite]
  · norm_num [cbtD, CBTmin.signedDifference, hoursFromMinutes, subtractTimes,
      mod, jsRem, qtrunc, EPSILON, absQ_ite]
  · norm_num +decide [cbtD, ctxD, CBTmin.nextCbtmin, CBTmin.naiveNext, CBTmin.optimalSchedule, CBTmin.suppressedFlags, CBTmin.loopDelta, CBTmin.deltaCbtmin, CBTmin.signedDifference, CBTmin.optimalMelatoninTime, CBTmin.optimalExerciseWindow, CBTmin.optimalLightWindow, CBTmin.optimalDarkWindow, PRESETS_default, hoursFromMinutes, subtractTimes, sumTimeDelta, normalizeMinutes, mod, jsRem, qtrunc, addHours, addDays, midnightForDatetime, combineDateMinutes, intersectionHours, isInsideInterval, EPSILON, MS_HOUR, MS_MINUTE, MS_DAY, loopOptions, isPreconditionFor, absQ_ite]

set_option maxHeartbeats 1000000 in
theorem loop_D_9 :
    convergenceLoop ctxD 16 (cbtD 720) 1758110400000 0 =
      some (cbtD 720, loopOutD.drop 9) := by
  refine convergenceLoop_cons _ 15 _ _ _ 1 (cbtD 720)
    ⟨1758196800000, ⟨(false, 1758124800000), (false, (1758099600000, 1758110400000)), (false, (1758099600000, 1758110400000)), (false, (1758110400000, 1758121200000))⟩⟩ (cbtD 720, loopOutD.drop 10) ?_ ?_ ?_ loop_D_10
  · norm_num [cbtD, CBTmin.signedDifference, hoursFromMinutes, subtractTimes,
      mod, jsRem, qtrunc, EPSILON, absQ_ite]
  · norm_num [cbtD, CBTmin.signedDifference, hoursFromMinutes, subtractTimes,
      mod, jsRem, qtrunc, EPSILON, absQ_ite]
  · norm_num +decide [cbtD, ctxD, CBTmin.nextCbtmin, CBTmin.naiveNext, CBTmin.optimalSchedule, CBTmin.suppressedFlags, CBTmin.loopDelta, CBTmin.deltaCbtmin, CBTmin.signedDifference, CBTmin.optimalMelatoninTime, CBTmin.optimalExerciseWindow, CBTmin.optimalLightWindow, CBTmin.optimalDarkWindow, PRESETS_default, hoursFromMinutes, subtractTimes, sumTimeDelta, normalizeMinutes, mod, jsRem, qtrunc, addHours, addDays, midnightForDatetime, combineDateMinutes, intersectionHours, isInsideInterval, EPSILON, MS_HOUR, MS_MINUTE, MS_DAY, loopOptions, isPreconditionFor, absQ_ite]

set_option maxHeartbeats 1000000 in
theorem loop_D_8 :
    convergenceLoop ctxD 17 (cbtD 660) 1758020400000 0 =
      some (cbtD 720, loopOutD.drop 8) := by
  refine convergenceLoop_cons _ 16 _ _ _ 0 (cbtD 720)
    ⟨1758110400000, ⟨(false, 1758034800000), (false, (1758009600000, 1758020400000)), (false, (1758009600000, 1758020400000)), (false, (1758020400000, 1758031200000))⟩⟩ (cbtD 720, loopOutD.drop 9) ?_ ?_ ?_ loop_D_9
  · norm_num [cbtD, CBTmin.signedDifference, hoursFromMinutes, subtractTimes,
      mod, jsRem, qtrunc, EPSILON, absQ_ite]
  · norm_num [cbtD, CBTmin.signedDifference, hoursFromMinutes, subtractTimes,
      mod, jsRem, qtrunc, EPSILON, absQ_ite]
  · norm_num +decide [cbtD, ctxD, CBTmin.nextCbtmin, CBTmin.naiveNext, CBTmin.optimalSchedule, CBTmin.suppressedFlags, CBTmin.loopDelta, CBTmin.deltaCbtmin, CBTmin.signedDifference, CBTmin.optimalMelatoninTime, CBTmin.optimalExerciseWindow, CBTmin.optimalLightWindow, CBTmin.optimalDarkWindow, PRESETS_default, hoursFromMinutes, subtractTimes, sumTimeDelta, normalizeMinutes, mod, jsRem, qtrunc, addHours, addDays, midnightForDatetime, combineDateMinutes, intersectionHours, isInsideInterval, EPSILON, MS_HOUR, MS_MINUTE, MS_DAY, loopOptions, isPreconditionFor, absQ_ite]

set_option maxHeartbeats 1000000 in
theorem loop_D_7 :
    convergenceLoop ctxD 18 (cbtD 600) 1757930400000 0 =
      some (cbtD 720, loopOutD.drop 7) := by
  refine convergenceLoop_cons _ 17 _ _ _ 0 (cbtD 660)
    ⟨1758020400000, ⟨(false, 1757944800000), (false, (1757919600000, 1757930400000)), (false, (1757919600000, 1757930400000)), (false, (1757930400000, 1757941200000))⟩⟩ (cbtD 720, loopOutD.drop 8) ?_ ?_ ?_ loop_D_8
  · norm_num [cbtD, CBTmin.signedDifference, hoursFromMinutes, subtractTimes,
      mod, jsRem, qtrunc, EPSILON, absQ_ite]
  · norm_num [cbtD, CBTmin.signedDifference, hoursFromMinutes, subtractTimes,
      mod, jsRem, qtrunc, EPSILON, absQ_ite]
  · norm_num +decide [cbtD, ctxD, CBTmin.nextCbtmin, CBTmin.naiveNext, CBTmin.optimalSchedule, CBTmin.suppressedFlags, CBTmin.loopDelta, CBTmin.deltaCbtmin, CBTmin.signedDifference, CBTmin.optimalMelatoninTime, CBTmin.optimalExerciseWindow, CBTmin.optimalLightWindow, CBTmin.optimalDarkWindow, PRESETS_default, hoursFromMinutes, subtractTimes, sumTimeDelta, normalizeMinutes, mod, jsRem, qtrunc, addHours, addDays, midnightForDatetime, combineDateMinutes, intersectionHours, isInsideInterval, EPSILON, MS_HOUR, MS_MINUTE, MS_DAY, loopOptions, isPreconditionFor, absQ_ite]

set_option maxHeartbeats 1000000 in
theorem loop_D_6 :
    convergenceLoop ctxD 19 (cbtD 510) 1757838600000 0 =
      some (cbtD 720, loopOutD.drop 6) := by
  refine convergenceLoop_cons _ 18 _ _ _ 0 (cbtD 600)
    ⟨1757930400000, ⟨(false, 1757853000000), (false, (1757827800000, 1757838600000)), (true, (1757827800000, 1757838600000)), (true, (1757838600000, 1757849400000))⟩⟩ (cbtD 720, loopOutD.drop 7) ?_ ?_ ?_ loop_D_7
  · norm_num [cbtD, CBTmin.signedDifference, hoursFromMinutes, subtractTimes,
      mod, jsRem, qtrunc, EPSILON, absQ_ite]
  · norm_num [cbtD, CBTmin.signedDifference, hoursFromMinutes, subtractTimes,
      mod, jsRem, qtrunc, EPSILON, absQ_ite]
  · norm_num +decide [cbtD, ctxD, CBTmin.nextCbtmin, CBTmin.naiveNext, CBTmin.optimalSchedule, CBTmin.suppressedFlags, CBTmin.loopDelta, CBTmin.deltaCbtmin, CBTmin.signedDifference, CBTmin.optimalMelatoninTime, CBTmin.optimalExerciseWindow, CBTmin.optimalLightWindow, CBTmin.optimalDarkWindow, PRESETS_default, hoursFromMinutes, subtractTimes, sumTimeDelta, normalizeMinutes, mod, jsRem, qtrunc, addHours, addDays, midnightForDatetime, combineDateMinutes, intersectionHours, isInsideInterval, EPSILON, MS_HOUR, MS_MINUTE, MS_DAY, loopOptions, isPreconditionFor, absQ_ite]

set_option maxHeartbeats 1000000 in
theorem loop_D_5 :
    convergenceLoop ctxD 20 (cbtD 420) 1757746800000 0 =
      some (cbtD 720, loopOutD.drop 5) := by
  refine convergenceLoop_cons _ 19 _ _ _ 0 (cbtD 510)
    ⟨1757838600000, ⟨(false, 1757761200000), (false, (1757736000000, 1757746800000)), (true, (1757736000000, 1757746800000)), (true, (1757746800000, 1757757600000))⟩⟩ (cbtD 720, loopOutD.drop 6) ?_ ?_ ?_ loop_D_6
  · norm_num [cbtD, CBTmin.signedDifference, hoursFromMinutes, subtractTimes,
      mod, jsRem, qtrunc, EPSILON, absQ_ite]
  · norm_num [cbtD, CBTmin.signedDifference, hoursFromMinutes, subtractTimes,
      mod, jsRem, qtrunc, EPSILON, absQ_ite]
  · norm_num +decide [cbtD, ctxD, CBTmin.nextCbtmin, CBTmin.naiveNext, CBTmin.optimalSchedule, CBTmin.suppressedFlags, CBTmin.loopDelta, CBTmin.deltaCbtmin, CBTmin.signedDifference, CBTmin.optimalMelatoninTime, CBTmin.optimalExerciseWindow, CBTmin.optimalLightWindow, CBTmin.optimalDarkWindow, PRESETS_default, hoursFromMinutes, subtractTimes, sumTimeDelta, normalizeMinutes, mod, jsRem, qtrunc, addHours, addDays, midnightForDatetime, combineDateMinutes, intersectionHours, isInsideInterval, EPSILON, MS_HOUR, MS_MINUTE, MS_DAY, loopOptions, isPreconditionFor, absQ_ite]

set_option maxHeartbeats 1000000 in
theorem loop_D_4 :
    convergenceLoop ctxD 21 (cbtD 330) 1757655000000 0 =
      some (cbtD 720, loopOutD.drop 4) := by
  refine convergenceLoop_cons _ 20 _ _ _ 0 (cbtD 420)
    ⟨1757746800000, ⟨(false, 1757669400000), (false, (1757644200000, 1757655000000)), (true, (1757644200000, 1757655000000)), (true, (1757655000000, 1757665800000))⟩⟩ (cbtD 720, loopOutD.drop 5) ?_ ?_ ?_ loop_D_5
  · norm_num [cbtD, CBTmin.signedDifference, hoursFromMinutes, subtractTimes,
      mod, jsRem, qtrunc, EPSILON, absQ_ite]
  · norm_num [cbtD, CBTmin.signedDifference, hoursFromMinutes, subtractTimes,
      mod, jsRem, qtrunc, EPSILON, absQ_ite]
  · norm_num +decide [cbtD, ctxD, CBTmin.nextCbtmin, CBTmin.naiveNext, CBTmin.optimalSchedule, CBTmin.suppressedFlags, CBTmin.loopDelta, CBTmin.deltaCbtmin, CBTmin.signedDifference, CBTmin.optimalMelatoninTime, CBTmin.optimalExerciseWindow, CBTmin.optimalLightWindow, CBTmin.optimalDarkWindow, PRESETS_default, hoursFromMinutes, subtractTimes, sumTimeDelta, normalizeMinutes, mod, jsRem, qtrunc, addHours, addDays, midnightForDatetime, combineDateMinutes, intersectionHours, isInsideInterval, EPSILON, MS_HOUR, MS_MINUTE, MS_DAY, loopOptions, isPreconditionFor, absQ_ite]

set_option maxHeartbeats 1000000 in
theorem loop_D_3 :
    convergenceLoop ctxD 22 (cbtD 240) 1757563200000 0 =
      some (cbtD 720, loopOutD.drop 3) := by
  refine convergenceLoop_cons _ 21 _ _ _ 0 (cbtD 330)
    ⟨1757655000000, ⟨(false, 1757577600000), (false, (1757552400000, 1757563200000)), (true, (1757552400000, 1757563200000)), (true, (1757563200000, 1757574000000))⟩⟩ (cbtD 720, loopOutD.drop 4) ?_ ?_ ?_ loop_D_4
  · norm_num [cbtD, CBTmin.signedDifference, hoursFromMinutes, subtractTimes,
      mod, jsRem, qtrunc, EPSILON, absQ_ite]
  · norm_num [cbtD, CBTmin.signedDifference, hoursFromMinutes, subtractTimes,
      mod, jsRem, qtrunc, EPSILON, absQ_ite]
  · norm_num +decide [cbtD, ctxD, CBTmin.nextCbtmin, CBTmin.naiveNext, CBTmin.optimalSchedule, CBTmin.suppressedFlags, CBTmin.loopDelta, CBTmin.deltaCbtmin, CBTmin.signedDifference, CBTmin.optimalMelatoninTime, CBTmin.optimalExerciseWindow, CBTmin.optimalLightWindow, CBTmin.optimalDarkWindow, PRESETS_default, hoursFromMinutes, subtractTimes, sumTimeDelta, normalizeMinutes, mod, jsRem, qtrunc, addHours, addDays, midnightForDatetime, combineDateMinutes, intersectionHours, isInsideInterval, EPSILON, MS_HOUR, MS_MINUTE, MS_DAY, loopOptions, isPreconditionFor, absQ_ite]

set_option maxHeartbeats 1000000 in
theorem loop_D_2 :
    convergenceLoop ctxD 23 (cbtD 240) 1757476800000 0 =
      some (cbtD 720, loopOutD.drop 2) := by
  refine convergenceLoop_cons _ 22 _ _ _ 0 (cbtD 240)
    ⟨1757563200000, ⟨(false, 1757491200000), (false, (1757466000000, 1757476800000)), (false, (1757466000000, 1757476800000)), (false, (1757476800000, 1757487600000))⟩⟩ (cbtD 720, loopOutD.drop 3) ?_ ?_ ?_ loop_D_3
  · norm_num [cbtD, CBTmin.signedDifference, hoursFromMinutes, subtractTimes,
      mod, jsRem, qtrunc, EPSILON, absQ_ite]
  · norm_num [cbtD, CBTmin.signedDifference, hoursFromMinutes, subtractTimes,
      mod, jsRem, qtrunc, EPSILON, absQ_ite]
  · norm_num +decide [cbtD, ctxD, CBTmin.nextCbtmin, CBTmin.naiveNext, CBTmin.optimalSchedule, CBTmin.suppressedFlags, CBTmin.loopDelta, CBTmin.deltaCbtmin, CBTmin.signedDifference, CBTmin.optimalMelatoninTime, CBTmin.optimalExerciseWindow, CBTmin.optimalLightWindow, CBTmin.optimalDarkWindow, PRESETS_default, hoursFromMinutes, subtractTimes, sumTimeDelta, normalizeMinutes, mod, jsRem, qtrunc, addHours, addDays, midnightForDatetime, combineDateMinutes, intersectionHours, isInsideInterval, EPSILON, MS_HOUR, MS_MINUTE, MS_DAY, loopOptions, isPreconditionFor, absQ_ite]

set_option maxHeartbeats 1000000 in
theorem loop_D_1 :
    convergenceLoop ctxD 24 (cbtD 240) 1757390400000 0 =
      some (cbtD 720, loopOutD.drop 1) := by
  refine convergenceLoop_cons _ 23 _ _ _ 0 (cbtD 240)
    ⟨1757476800000, ⟨(false, 1757404800000), (false, (1757379600000, 1757390400000)), (false, (1757379600000, 1757390400000)), (false, (1757390400000, 1757401200000))⟩⟩ (cbtD 720, loopOutD.drop 2) ?_ ?_ ?_ loop_D_2
  · norm_num [cbtD, CBTmin.signedDifference, hoursFromMinutes, subtractTimes,
      mod, jsRem, qtrunc, EPSILON, absQ_ite]
  · norm_num [cbtD, CBTmin.signedDifference, hoursFromMinutes, subtractTimes,
      mod, jsRem, qtrunc, EPSILON, absQ_ite]
  · norm_num +decide [cbtD, ctxD, CBTmin.nextCbtmin, CBTmin.naiveNext, CBTmin.optimalSchedule, CBTmin.suppressedFlags, CBTmin.loopDelta, CBTmin.deltaCbtmin, CBTmin.signedDifference, CBTmin.optimalMelatoninTime, CBTmin.optimalExerciseWindow, CBTmin.optimalLightWindow, CBTmin.optimalDarkWindow, PRESETS_default, hoursFromMinutes, subtractTimes, sumTimeDelta, normalizeMinutes, mod, jsRem, qtrunc, addHours, addDays, midnightForDatetime, combineDateMinutes, intersectionHours, isInsideInterval, EPSILON, MS_HOUR, MS_MINUTE, MS_DAY, loopOptions, isPreconditionFor, absQ_ite]

set_option maxHeartbeats 1000000 in
theorem loop_D_0 :
    convergenceLoop ctxD 25 (cbtD 240) 1757304000000 0 =
      some (cbtD 720, loopOutD.drop 0) := by
  refine convergenceLoop_cons _ 24 _ _ _ 0 (cbtD 240)
    ⟨1757390400000, ⟨(false, 1757318400000), (false, (1757293200000, 1757304000000)), (false, (1757293200000, 1757304000000)), (false, (1757304000000, 1757314800000))⟩⟩ (cbtD 720, loopOutD.drop 1) ?_ ?_ ?_ loop_D_1
  · norm_num [cbtD, CBTmin.signedDifference, hoursFromMinutes, subtractTimes,
      mod, jsRem, qtrunc, EPSILON, absQ_ite]
  · norm_num [cbtD, CBTmin.signedDifference, hoursFromMinutes, subtractTimes,
      mod, jsRem, qtrunc, EPSILON, absQ_ite]
  · norm_num +decide [cbtD, ctxD, CBTmin.nextCbtmin, CBTmin.naiveNext, CBTmin.optimalSchedule, CBTmin.suppressedFlags, CBTmin.loopDelta, CBTmin.deltaCbtmin, CBTmin.signedDifference, CBTmin.optimalMelatoninTime, CBTmin.optimalExerciseWindow, CBTmin.optimalLightWindow, CBTmin.optimalDarkWindow, PRESETS_default, hoursFromMinutes, subtractTimes, sumTimeDelta, normalizeMinutes, mod, jsRem, qtrunc, addHours, addDays, midnightForDatetime, combineDateMinutes, intersectionHours, isInsideInterval, EPSILON, MS_HOUR, MS_MINUTE, MS_DAY, loopOptions, isPreconditionFor, absQ_ite]

/-- The sleep windows of the `inpDelay` run. -/
def sleepOutD : List Interval := [
  (1757372400000, 1757401200000),
  (1757458800000, 1757487600000),
  (1757660400000, 1757689200000),
  (1757746800000, 1757775600000),
  (1757833200000, 1757862000000),
  (1757919600000, 1757948400000),
  (1758006000000, 1758034800000),
  (1758092400000, 1758121200000),
  (1758178800000, 1758207600000),
  (1758265200000, 1758294000000),
  (1758351600000, 1758380400000)]

theorem sleep_D_13 :
    sleepLoop (1380, 420) (420, 900) (1757527200000, 1757606400000) 1758326400000 21 1758380400000 true = some (sleepOutD.drop 11) := by
  refine sleepLoop_stop _ _ _ _ 20 _ _ ?_
  norm_num

set_option maxHeartbeats 1000000 in
theorem sleep_D_12 :
    sleepLoop (1380, 420) (420, 900) (1757527200000, 1757606400000) 1758326400000 22 1758294000000 true = some (sleepOutD.drop 10) := by
  refine sleepLoop_push _ _ _ _ 21 _ 1758380400000 _ true
    (1758351600000, 1758380400000) (sleepOutD.drop 11) ?_ ?_ sleep_D_13
  · norm_num
  · norm_num +decide [sleepStep, nextInterval, combineDateMinutes, midnightForDatetime,
      addDays, intersectionHours, MS_HOUR, MS_MINUTE, MS_DAY]

set_option maxHeartbeats 1000000 in
theorem sleep_D_11 :
    sleepLoop (1380, 420) (420, 900) (1757527200000, 1757606400000) 1758326400000 23 1758207600000 true = some (sleepOutD.drop 9) := by
  refine sleepLoop_push _ _ _ _ 22 _ 1758294000000 _ true
    (1758265200000, 1758294000000) (sleepOutD.drop 10) ?_ ?_ sleep_D_12
  · norm_num
  · norm_num +decide [sleepStep, nextInterval, combineDateMinutes, midnightForDatetime,
      addDays, intersectionHours, MS_HOUR, MS_MINUTE, MS_DAY]

set_option maxHeartbeats 1000000 in
theorem sleep_D_10 :
    sleepLoop (1380, 420) (420, 900) (1757527200000, 1757606400000) 1758326400000 24 1758121200000 true = some (sleepOutD.drop 8) := by
  refine sleepLoop_push _ _ _ _ 23 _ 1758207600000 _ true
    (1758178800000, 1758207600000) (sleepOutD.drop 9) ?_ ?_ sleep_D_11
  · norm_num
  · norm_num +decide [sleepStep, nextInterval, combineDateMinutes, midnightForDatetime,
      addDays, intersectionHours, MS_HOUR, MS_MINUTE, MS_DAY]

set_option maxHeartbeats 1000000 in
theorem sleep_D_9 :
    sleepLoop (1380, 420) (420, 900) (1757527200000, 1757606400000) 1758326400000 25 1758034800000 true = some (sleepOutD.drop 7) := by
  refine sleepLoop_push _ _ _ _ 24 _ 1758121200000 _ true
    (1758092400000, 1758121200000) (sleepOutD.drop 8) ?_ ?_ sleep_D_10
  · norm_num
  · norm_num +decide [sleepStep, nextInterval, combineDateMinutes, midnightForDatetime,
      addDays, intersectionHours, MS_HOUR, MS_MINUTE, MS_DAY]

set_option maxHeartbeats 1000000 in
theorem sleep_D_8 :
    sleepLoop (1380, 420) (420, 900) (1757527200000, 1757606400000) 1758326400000 26 1757948400000 true = some (sleepOutD.drop 6) := by
  refine sleepLoop_push _ _ _ _ 25 _ 1758034800000 _ true
    (1758006000000, 1758034800000) (sleepOutD.drop 7) ?_ ?_ sleep_D_9
  · norm_num
  · norm_num +decide [sleepStep, nextInterval, combineDateMinutes, midnightForDatetime,
      addDays, intersectionHours, MS_HOUR, MS_MINUTE, MS_DAY]

set_option maxHeartbeats 1000000 in
theorem sleep_D_7 :
    sleepLoop (1380, 420) (420, 900) (1757527200000, 1757606400000) 1758326400000 27 1757862000000 true = some (sleepOutD.drop 5) := by
  refine sleepLoop_push _ _ _ _ 26 _ 1757948400000 _ true
    (1757919600000, 1757948400000) (sleepOutD.drop 6) ?_ ?_ sleep_D_8
  · norm_num
  · norm_num +decide [sleepStep, nextInterval, combineDateMinutes, midnightForDatetime,
      addDays, intersectionHours, MS_HOUR, MS_MINUTE, MS_DAY]

set_option maxHeartbeats 1000000 in
theorem sleep_D_6 :
    sleepLoop (1380, 420) (420, 900) (1757527200000, 1757606400000) 1758326400000 28 1757775600000 true = some (sleepOutD.drop 4) := by
  refine sleepLoop_push _ _ _ _ 27 _ 1757862000000 _ true
    (1757833200000, 1757862000000) (sleepOutD.drop 5) ?_ ?_ sleep_D_7
  · norm_num
  · norm_num +decide [sleepStep, nextInterval, combineDateMinutes, midnightForDatetime,
      addDays, intersectionHours, MS_HOUR, MS_MINUTE, MS_DAY]

set_option maxHeartbeats 1000000 in
theorem sleep_D_5 :
    sleepLoop (1380, 420) (420, 900) (1757527200000, 1757606400000) 1758326400000 29 1757689200000 true = some (sleepOutD.drop 3) := by
  refine sleepLoop_push _ _ _ _ 28 _ 1757775600000 _ true
    (1757746800000, 1757775600000) (sleepOutD.drop 4) ?_ ?_ sleep_D_6
  · norm_num
  · norm_num +decide [sleepStep, nextInterval, combineDateMinutes, midnightForDatetime,
      addDays, intersectionHours, MS_HOUR, MS_MINUTE, MS_DAY]

set_option maxHeartbeats 1000000 in
theorem sleep_D_4 :
    sleepLoop (1380, 420) (420, 900) (1757527200000, 1757606400000) 1758326400000 30 1757660400000 true = some (sleepOutD.drop 2) := by
  refine sleepLoop_push _ _ _ _ 29 _ 1757689200000 _ true
    (1757660400000, 1757689200000) (sleepOutD.drop 3) ?_ ?_ sleep_D_5
  · norm_num
  · norm_num +decide [sleepStep, nextInterval, combineDateMinutes, midnightForDatetime,
      addDays, intersectionHours, MS_HOUR, MS_MINUTE, MS_DAY]

set_option maxHeartbeats 1000000 in
theorem sleep_D_3 :
    sleepLoop (1380, 420) (420, 900) (1757527200000, 1757606400000) 1758326400000 31 1757574000000 false = some (sleepOutD.drop 2) := by
  refine Eq.trans (sleepLoop_skip _ _ _ _ 30 _ 1757660400000 _ true ?_ ?_) sleep_D_4
  · norm_num
  · norm_num +decide [sleepStep, nextInterval, combineDateMinutes, midnightForDatetime,
      addDays, intersectionHours, MS_HOUR, MS_MINUTE, MS_DAY]

set_option maxHeartbeats 1000000 in
theorem sleep_D_2 :
    sleepLoop (1380, 420) (420, 900) (1757527200000, 1757606400000) 1758326400000 32 1757487600000 false = some (sleepOutD.drop 2) := by
  refine Eq.trans (sleepLoop_skip _ _ _ _ 31 _ 1757574000000 _ false ?_ ?_) sleep_D_3
  · norm_num
  · norm_num +decide [sleepStep, nextInterval, combineDateMinutes, midnightForDatetime,
      addDays, intersectionHours, MS_HOUR, MS_MINUTE, MS_DAY]

set_option maxHeartbeats 1000000 in
theorem sleep_D_1 :
    sleepLoop (1380, 420) (420, 900) (1757527200000, 1757606400000) 1758326400000 33 1757401200000 false = some (sleepOutD.drop 1) := by
  refine sleepLoop_push _ _ _ _ 32 _ 1757487600000 _ false
    (1757458800000, 1757487600000) (sleepOutD.drop 2) ?_ ?_ sleep_D_2
  · norm_num
  · norm_num +decide [sleepStep, nextInterval, combineDateMinutes, midnightForDatetime,
      addDays, intersectionHours, MS_HOUR, MS_MINUTE, MS_DAY]

set_option maxHeartbeats 1000000 in
theorem sleep_D_0 :
    sleepLoop (1380, 420) (420, 900) (1757527200000, 1757606400000) 1758326400000 34 1757289600000 false = some (sleepOutD.drop 0) := by
  refine sleepLoop_push _ _ _ _ 33 _ 1757401200000 _ false
    (1757372400000, 1757401200000) (sleepOutD.drop 1) ?_ ?_ sleep_D_1
  · norm_num
  · norm_num +decide [sleepStep, nextInterval, combineDateMinutes, midnightForDatetime,
      addDays, intersectionHours, MS_HOUR, MS_MINUTE, MS_DAY]

theorem stD_cbt : stD.cbt = cbtD 240 := rfl
theorem stD_p1 : stD.originSleepStartUtc = 1380 := rfl
theorem stD_p2 : stD.originSleepEndUtc = 420 := rfl
theorem stD_p3 : stD.destinationSleepStartUtc = 420 := rfl
theorem stD_p4 : stD.destinationSleepEndUtc = 900 := rfl
theorem stD_p5 : stD.travelStartUtc = 1757527200000 := rfl
theorem stD_p6 : stD.travelEndUtc = 1757606400000 := rfl
theorem stD_p7 : stD.midnightStartOfCalculations = 1757289600000 := rfl
theorem stD_p8 : sleepFuelOf stD 1758326400000 = 34 := by
  norm_num [sleepFuelOf, stD, spanFuel, MS_DAY, MS_HOUR, MS_MINUTE]
  decide

theorem fuel_D : loopFuelOf stD 1757304000000 = 25 := by
  norm_num [loopFuelOf, stD, shiftHorizon, spanFuel, addHours, MS_HOUR, MS_MINUTE, MS_DAY]
  decide

theorem sd_D : (cbtD 720).signedDifference = 0 := by
  norm_num [cbtD, CBTmin.signedDifference, hoursFromMinutes, subtractTimes, mod, jsRem, qtrunc]

/-- The full event list `createJetLagTimetable` returns for `inpDelay`. -/
def eventsD : List JetLagEvent := [
  { baseEvent "cbtmin" 1757304000000 none .delay 0 with is_cbtmin := true },
  { baseEvent "sleep" 1757372400000 (some 1757401200000) .delay 0 with is_sleep := true },
  { baseEvent "cbtmin" 1757390400000 none .delay 0 with is_cbtmin := true },
  { baseEvent "sleep" 1757458800000 (some 1757487600000) .delay 0 with is_sleep := true },
  { baseEvent "cbtmin" 1757476800000 none .delay 0 with is_cbtmin := true },
  { baseEvent "travel" 1757527200000 (some 1757606400000) .delay 0 with is_travel := true },
  { baseEvent "light" 1757552400000 (some 1757563200000) .delay 0 with is_light := true },
  { baseEvent "cbtmin" 1757563200000 none .delay 0 with is_cbtmin := true },
  { baseEvent "dark" 1757563200000 (some 1757574000000) .delay 0 with is_dark := true },
  { baseEvent "light" 1757644200000 (some 1757655000000) .delay 0 with is_light := true },
  { baseEvent "cbtmin" 1757655000000 none .delay 0 with is_cbtmin := true },
  { baseEvent "dark" 1757655000000 (some 1757665800000) .delay 0 with is_dark := true },
  { baseEvent "sleep" 1757660400000 (some 1757689200000) .delay 0 with is_sleep := true },
  { baseEvent "light" 1757736000000 (some 1757746800000) .delay 0 with is_light := true },
  { baseEvent "sleep" 1757746800000 (some 1757775600000) .delay 0 with is_sleep := true },
  { baseEvent "cbtmin" 1757746800000 none .delay 0 with is_cbtmin := true },
  { baseEvent "dark" 1757746800000 (some 1757757600000) .delay 0 with is_dark := true },
  { baseEvent "light" 1757827800000 (some 1757838600000) .delay 0 with is_light := true },
  { baseEvent "sleep" 1757833200000 (some 1757862000000) .delay 0 with is_sleep := true },
  { baseEvent "cbtmin" 1757838600000 none .delay 0 with is_cbtmin := true },
  { baseEvent "dark" 1757838600000 (some 1757849400000) .delay 0 with is_dark := true },
  { baseEvent "sleep" 1757919600000 (some 1757948400000) .delay 0 with is_sleep := true },
  { baseEvent "cbtmin" 1757930400000 none .delay 0 with is_cbtmin := true },
  { baseEvent "sleep" 1758006000000 (some 1758034800000) .delay 0 with is_sleep := true },
  { baseEvent "cbtmin" 1758020400000 none .delay 0 with is_cbtmin := true },
  { baseEvent "sleep" 1758092400000 (some 1758121200000) .delay 0 with is_sleep := true },
  { baseEvent "cbtmin" 1758110400000 none .delay 0 with is_cbtmin := true },
  { baseEvent "sleep" 1758178800000 (some 1758207600000) .delay 0 with is_sleep := true },
  { baseEvent "cbtmin" 1758196800000 none .delay 0 with is_cbtmin := true },
  { baseEvent "sleep" 1758265200000 (some 1758294000000) .delay 0 with is_sleep := true },
  { baseEvent "cbtmin" 1758283200000 none .delay 0 with is_cbtmin := true },
  { baseEvent "sleep" 1758351600000 (some 1758380400000) .delay 0 with is_sleep := true }]

set_option maxHeartbeats 4000000 in
theorem create_D : createJetLagTimetable inpDelay = .ok eventsD := by
  norm_num +decide [createJetLagTimetable, mkSetup_D, first_D, ctx_D_eq, fuel_D,
    stD_cbt, stD_p1, stD_p2, stD_p3, stD_p4, stD_p5, stD_p6, stD_p7, stD_p8,
    loop_D_0, loopOutD, sd_D, seedEntry, List.getLastD, midnightForDatetime,
    addDays, MS_DAY, MS_HOUR, MS_MINUTE, sleep_D_0, sleepOutD,
    eventsOfEntry, baseEvent, List.mergeSort, List.merge, eventLe, eventsD]

/-- The `Setup` record `mkSetup` produces for `inpAligned`. -/
def stA : Setup :=
  { originSleepStartUtc := 1380, originSleepEndUtc := 420,
    destinationSleepStartUtc := 1380, destinationSleepEndUtc := 420,
    travelStartUtc := 1757527200000, travelEndUtc := 1757577600000,
    mode := "after_arrival", effectivePreDays := 0,
    startOfShift := 1757577600000,
    cbt := { originCbtmin := 240, destCbtmin := 240, presets := PRESETS_default,
             cbtmin := 240, phase_direction := .aligned },
    midnightStartOfCalculations := 1757289600000,
    noInterventionWindow := some (1757527200000, 1757577600000) }

/-- The `CBTmin` states of the `inpAligned` run differ only in `cbtmin`. -/
def cbtA (c : ℚ) : CBTmin :=
  { originCbtmin := 240, destCbtmin := 240, presets := PRESETS_default,
    cbtmin := c, phase_direction := .aligned }

theorem mkSetup_A : mkSetup inpAligned = .ok stA := by
  rw [mkSetup, inpAligned, parseHM2300, parseHM0700, parseDT0910, parseDT0911]
  norm_num +decide [sumTimeDelta, normalizeMinutes, mod, jsRem, qtrunc, addHours,
    addDays, midnightForDatetime, MS_HOUR, MS_MINUTE, MS_DAY, jsToLower, lowerChar,
    CBTmin.fromSleep, CBTmin.make, CBTmin.signedDifference, hoursFromMinutes,
    subtractTimes, canon, modeOf, stA]

def ctxA : LoopCtx :=
  { useMelatonin := true, useExercise := true, useLightDark := true,
    noInterventionWindow := some (1757527200000, 1757577600000), mode := "after_arrival",
    startOfShift := 1757577600000, travelStartUtc := 1757527200000 }

theorem ctx_A_eq : ctxOf inpAligned stA = ctxA := by
  norm_num [ctxOf, inpAligned, stA, ctxA]

theorem first_A : firstCbtminOf inpAligned stA = 1757304000000 := by
  norm_num +decide [firstCbtminOf, inpAligned, stA, CBTmin.nextCbtmin, CBTmin.naiveNext, CBTmin.optimalSchedule, CBTmin.suppressedFlags, CBTmin.loopDelta, CBTmin.deltaCbtmin, CBTmin.signedDifference, CBTmin.optimalMelatoninTime, CBTmin.optimalExerciseWindow, CBTmin.optimalLightWindow, CBTmin.optimalDarkWindow, PRESETS_default, hoursFromMinutes, subtractTimes, sumTimeDelta, normalizeMinutes, mod, jsRem, qtrunc, addHours, addDays, midnightForDatetime, combineDateMinutes, intersectionHours, isInsideInterval, EPSILON, MS_HOUR, MS_MINUTE, MS_DAY, loopOptions, isPreconditionFor, absQ_ite]

/-- The entries the convergence loop appends on the `inpAligned` run. -/
def loopOutA : List (CBTmin × CBTEntry) := [
  (cbtA 240, ⟨1757390400000, ⟨(false, 1757318400000), (false, (1757293200000, 1757304000000)), (false, (1757293200000, 1757304000000)), (false, (1757304000000, 1757314800000))⟩⟩),
  (cbtA 240, ⟨1757476800000, ⟨(false, 1757404800000), (false, (1757379600000, 1757390400000)), (false, (1757379600000, 1757390400000)), (false, (1757390400000, 1757401200000))⟩⟩)]

theorem loop_A_2 :
    convergenceLoop ctxA 22 (cbtA 240) 1757476800000 2 =
      some (cbtA 240, loopOutA.drop 2) := by
  refine convergenceLoop_stop _ 21 _ _ _ ?_
  norm_num [cbtA, CBTmin.signedDifference, hoursFromMinutes, subtractTimes,
    mod, jsRem, qtrunc, EPSILON, canon, absQ_ite]

set_option maxHeartbeats 1000000 in
theorem loop_A_1 :
    convergenceLoop ctxA 23 (cbtA 240) 1757390400000 1 =
      some (cbtA 240, loopOutA.drop 1) := by
  refine convergenceLoop_cons _ 22 _ _ _ 2 (cbtA 240)
    ⟨1757476800000, ⟨(false, 1757404800000), (false, (1757379600000, 1757390400000)), (false, (1757379600000, 1757390400000)), (false, (1757390400000, 1757401200000))⟩⟩ (cbtA 240, loopOutA.drop 2) ?_ ?_ ?_ loop_A_2
  · norm_num [cbtA, CBTmin.signedDifference, hoursFromMinutes, subtractTimes,
      mod, jsRem, qtrunc, EPSILON, absQ_ite]
  · norm_num [cbtA, CBTmin.signedDifference, hoursFromMinutes, subtractTimes,
      mod, jsRem, qtrunc, EPSILON, absQ_ite]
  · norm_num +decide [cbtA, ctxA, CBTmin.nextCbtmin, CBTmin.naiveNext, CBTmin.optimalSchedule, CBTmin.suppressedFlags, CBTmin.loopDelta, CBTmin.deltaCbtmin, CBTmin.signedDifference, CBTmin.optimalMelatoninTime, CBTmin.optimalExerciseWindow, CBTmin.optimalLightWindow, CBTmin.optimalDarkWindow, PRESETS_default, hoursFromMinutes, subtractTimes, sumTimeDelta, normalizeMinutes, mod, jsRem, qtrunc, addHours, addDays, midnightForDatetime, combineDateMinutes, intersectionHours, isInsideInterval, EPSILON, MS_HOUR, MS_MINUTE, MS_DAY, loopOptions, isPreconditionFor, absQ_ite]

set_option maxHeartbeats 1000000 in
theorem loop_A_0 :
    convergenceLoop ctxA 24 (cbtA 240) 1757304000000 0 =
      some (cbtA 240, loopOutA.drop 0) := by
  refine convergenceLoop_cons _ 23 _ _ _ 1 (cbtA 240)
    ⟨1757390400000, ⟨(false, 1757318400000), (false, (1757293200000, 1757304000000)), (false, (1757293200000, 1757304000000)), (false, (1757304000000, 1757314800000))⟩⟩ (cbtA 240, loopOutA.drop 1) ?_ ?_ ?_ loop_A_1
  · norm_num [cbtA, CBTmin.signedDifference, hoursFromMinutes, subtractTimes,
      mod, jsRem, qtrunc, EPSILON, absQ_ite]
  · norm_num [cbtA, CBTmin.signedDifference, hoursFromMinutes, subtractTimes,
      mod, jsRem, qtrunc, EPSILON, absQ_ite]
  · norm_num +decide [cbtA, ctxA, CBTmin.nextCbtmin, CBTmin.naiveNext, CBTmin.optimalSchedule, CBTmin.suppressedFlags, CBTmin.loopDelta, CBTmin.deltaCbtmin, CBTmin.signedDifference, CBTmin.optimalMelatoninTime, CBTmin.optimalExerciseWindow, CBTmin.optimalLightWindow, CBTmin.optimalDarkWindow, PRESETS_default, hoursFromMinutes, subtractTimes, sumTimeDelta, normalizeMinutes, mod, jsRem, qtrunc, addHours, addDays, midnightForDatetime, combineDateMinutes, intersectionHours, isInsideInterval, EPSILON, MS_HOUR, MS_MINUTE, MS_DAY, loopOptions, isPreconditionFor, absQ_ite]

/-- The sleep windows of the `inpAligned` run. -/
def sleepOutA : List Interval := [
  (1757372400000, 1757401200000),
  (1757458800000, 1757487600000)]

theorem sleep_A_3 :
    sleepLoop (1380, 420) (1380, 420) (1757527200000, 1757577600000) 1757548800000 13 1757574000000 false = some (sleepOutA.drop 2) := by
  refine sleepLoop_stop _ _ _ _ 12 _ _ ?_
  norm_num

set_option maxHeartbeats 1000000 in
theorem sleep_A_2 :
    sleepLoop (1380, 420) (1380, 420) (1757527200000, 1757577600000) 1757548800000 14 1757487600000 false = some (sleepOutA.drop 2) := by
  refine Eq.trans (sleepLoop_skip _ _ _ _ 13 _ 1757574000000 _ false ?_ ?_) sleep_A_3
  · norm_num
  · norm_num +decide [sleepStep, nextInterval, combineDateMinutes, midnightForDatetime,
      addDays, intersectionHours, MS_HOUR, MS_MINUTE, MS_DAY]

set_option maxHeartbeats 1000000 in
theorem sleep_A_1 :
    sleepLoop (1380, 420) (1380, 420) (1757527200000, 1757577600000) 1757548800000 15 1757401200000 false = some (sleepOutA.drop 1) := by
  refine sleepLoop_push _ _ _ _ 14 _ 1757487600000 _ false
    (1757458800000, 1757487600000) (sleepOutA.drop 2) ?_ ?_ sleep_A_2
  · norm_num
  · norm_num +decide [sleepStep, nextInterval, combineDateMinutes, midnightForDatetime,
      addDays, intersectionHours, MS_HOUR, MS_MINUTE, MS_DAY]

set_option maxHeartbeats 1000000 in
theorem sleep_A_0 :
    sleepLoop (1380, 420) (1380, 420) (1757527200000, 1757577600000) 1757548800000 16 1757289600000 false = some (sleepOutA.drop 0) := by
  refine sleepLoop_push _ _ _ _ 15 _ 1757401200000 _ false
    (1757372400000, 1757401200000) (sleepOutA.drop 1) ?_ ?_ sleep_A_1
  · norm_num
  · norm_num +decide [sleepStep, nextInterval, combineDateMinutes, midnightForDatetime,
      addDays, intersectionHours, MS_HOUR, MS_MINUTE, MS_DAY]

theorem stA_cbt : stA.cbt = cbtA 240 := rfl
theorem stA_p1 : stA.originSleepStartUtc = 1380 := rfl
theorem stA_p2 : stA.originSleepEndUtc = 420 := rfl
theorem stA_p3 : stA.destinationSleepStartUtc = 1380 := rfl
theorem stA_p4 : stA.destinationSleepEndUtc = 420 := rfl
theorem stA_p5 : stA.travelStartUtc = 1757527200000 := rfl
theorem stA_p6 : stA.travelEndUtc = 1757577600000 := rfl
theorem stA_p7 : stA.midnightStartOfCalculations = 1757289600000 := rfl
theorem stA_p8 : sleepFuelOf stA 1757548800000 = 16 := by
  norm_num [sleepFuelOf, stA, spanFuel, MS_DAY, MS_HOUR, MS_MINUTE]
  decide

theorem fuel_A : loopFuelOf stA 1757304000000 = 24 := by
  norm_num [loopFuelOf, stA, shiftHorizon, spanFuel, addHours, MS_HOUR, MS_MINUTE, MS_DAY]
  decide

theorem sd_A : (cbtA 240).signedDifference = 0 := by
  norm_num [cbtA, CBTmin.signedDifference, hoursFromMinutes, subtractTimes, mod, jsRem, qtrunc]

/-- The full event list `createJetLagTimetable` returns for `inpAligned`. -/
def eventsA : List JetLagEvent := [
  { baseEvent "cbtmin" 1757304000000 none .aligned 0 with is_cbtmin := true },
  { baseEvent "sleep" 1757372400000 (some 1757401200000) .aligned 0 with is_sleep := true },
  { baseEvent "cbtmin" 1757390400000 none .aligned 0 with is_cbtmin := true },
  { baseEvent "sleep" 1757458800000 (some 1757487600000) .aligned 0 with is_sleep := true },
  { baseEvent "cbtmin" 1757476800000 none .aligned 0 with is_cbtmin := true },
  { baseEvent "travel" 1757527200000 (some 1757577600000) .aligned 0 with is_travel := true }]

set_option maxHeartbeats 4000000 in
theorem create_A : createJetLagTimetable inpAligned = .ok eventsA := by
  norm_num +decide [createJetLagTimetable, mkSetup_A, first_A, ctx_A_eq, fuel_A,
    stA_cbt, stA_p1, stA_p2, stA_p3, stA_p4, stA_p5, stA_p6, stA_p7, stA_p8,
    loop_A_0, loopOutA, sd_A, seedEntry, List.getLastD, midnightForDatetime,
    addDays, MS_DAY, MS_HOUR, MS_MINUTE, sleep_A_0, sleepOutA,
    eventsOfEntry, baseEvent, List.mergeSort, List.merge, eventLe, eventsA]

end JetLag

namespace JetLag

/-! ## Claim C1 / C2: behaviour of the event assembler on `inpDelay` -/

/-- Claim-side checker: no emitted `exercise`, `light` or `dark` event's
interval overlaps any emitted `sleep` event's interval (half-open
intervals). -/
def sleepInterventionOverlapFree (evs : List JetLagEvent) : Bool :=
  evs.all fun e =>
    !(e.is_exercise || e.is_light || e.is_dark) ||
      evs.all fun s =>
        !s.is_sleep ||
          match e.endTime, s.endTime with
          | some e2, some s2 => !(decide (e.start < s2) && decide (s.start < e2))
          | _, _ => true

/-- C1: the claim fails on `src/frontend/app/lib/jetlag.ts`: that file emits
exercise/light/dark windows verbatim, with no interval subtraction against
the sleep windows (the sibling implementation in `src/app/lib` has
`subtractIntervals`; the cited file does not).  On `inpDelay` the returned
list contains `dark`/`light` events overlapping `sleep` events. -/
theorem claim1_sleep_overlap_exists :
    createJetLagTimetable inpDelay = .ok eventsD ∧
      sleepInterventionOverlapFree eventsD = false := by
  refine ⟨create_D, ?_⟩
  decide

/-- C2: the claim fails on `src/frontend/app/lib/jetlag.ts`: every event does
carry one common `phase_direction` and one common `signed_initial_diff_hours`,
but the value stored is `cbt.signedDifference()` evaluated *after* the
convergence loop (post-convergence, 0 here), not the initial pre-loop value
(8 here). -/
theorem claim2_signed_diff_is_post_loop :
    mkSetup inpDelay = .ok stD ∧
      stD.cbt.signedDifference = 8 ∧
      createJetLagTimetable inpDelay = .ok eventsD ∧
      eventsD.all (fun e =>
        decide (e.signed_initial_diff_hours = 0) && decide (e.phase_direction = .delay)) = true := by
  refine ⟨mkSetup_D, ?_, create_D, by decide⟩
  norm_num [stD, CBTmin.signedDifference, hoursFromMinutes, subtractTimes, mod, jsRem, qtrunc]

/-! ## Claim C6: the `isPrecondition` test -/

def inpPre : JetLagInputs where
  originOffset := 0
  destOffset := -8
  originSleepStart := "23:00"
  originSleepEnd := "07:00"
  destSleepStart := "23:00"
  destSleepEnd := "07:00"
  travelStart := "2025-09-10T18:00"
  travelEnd := "2025-09-11T08:00"
  useMelatonin := false
  useLightDark := true
  useExercise := false
  preDays := 2
  adjustmentStart := "precondition"

def stP : Setup :=
  { originSleepStartUtc := 1380, originSleepEndUtc := 420,
    destinationSleepStartUtc := 420, destinationSleepEndUtc := 900,
    travelStartUtc := 1757527200000, travelEndUtc := 1757606400000,
    mode := "precondition", effectivePreDays := 2,
    startOfShift := 1757289600000,
    cbt := { originCbtmin := 240, destCbtmin := 720, presets := PRESETS_default,
             cbtmin := 240, phase_direction := .delay },
    midnightStartOfCalculations := 1757116800000,
    noInterventionWindow := some (1757527200000, 1757606400000) }

theorem mkSetup_P : mkSetup inpPre = .ok stP := by
  rw [mkSetup, inpPre, parseHM2300, parseHM0700, parseDT0910, parseDT0911]
  norm_num +decide [sumTimeDelta, normalizeMinutes, mod, jsRem, qtrunc, addHours,
    addDays, midnightForDatetime, MS_HOUR, MS_MINUTE, MS_DAY, jsToLower, lowerChar,
    CBTmin.fromSleep, CBTmin.make, CBTmin.signedDifference, hoursFromMinutes,
    subtractTimes, canon, modeOf, stP]

/-- C6: counterexample.  Under the `precondition` adjustment-start mode with
`preDays = 2`, the instant `2025-09-09T04:00Z` lies strictly between the
shift-start instant and the travel start (and is the cursor of the loop's
third iteration on `inpPre`), yet the loop body's `isPrecondition` test is
`false`: the source only tests `mode === 'travel_start' ||
mode === 'precondition_with_travel'`, never `'precondition'`. -/
theorem claim6_counterexample :
    mkSetup inpPre = .ok stP ∧ stP.mode = "precondition" ∧ inpPre.preDays = 2 ∧
      stP.startOfShift < 1757390400000 ∧ (1757390400000 : ℚ) < stP.travelStartUtc ∧
      isPreconditionFor (ctxOf inpPre stP) 1757390400000 = false ∧
      (loopOptions (ctxOf inpPre stP) 1757390400000).precondition = false := by
  refine ⟨mkSetup_P, rfl, by norm_num [inpPre], by norm_num [stP], by norm_num [stP], ?_, ?_⟩ <;>
    norm_num +decide [isPreconditionFor, loopOptions, ctxOf, inpPre, stP]

/-- C6 (amended): in every convergence-loop iteration, `isPrecondition` is
true exactly when the mode is `travel_start` or `precondition_with_travel`
and the cursor lies strictly between the shift-start instant and the
travel-start instant; in particular it is never true in `precondition`
mode. -/
theorem claim6_amended_isPrecondition_characterization :
    ∀ (ctx : LoopCtx) (t : ℚ),
      (isPreconditionFor ctx t = true ↔
        ((ctx.mode = "travel_start" ∨ ctx.mode = "precondition_with_travel") ∧
          ctx.startOfShift < t ∧ t < ctx.travelStartUtc)) ∧
      ((loopOptions ctx t).precondition = isPreconditionFor ctx t) := by
  intro ctx t
  constructor
  · simp [isPreconditionFor, Bool.and_eq_true, Bool.or_eq_true, beq_iff_eq,
      decide_eq_true_eq, and_assoc]
  · rfl

/-! ## Claim C8: the signed difference -/

/-- C8: `signedDifference` is `((dest − current)/60 + 12) mod 24 − 12` with
`−12` mapped to `12`; its value always lies in `(−12, 12]`; and the
constructor's `phase_direction` is `delay`/`advance`/`aligned` according to
the sign of the initial difference. -/
theorem claim8_signedDifference_characterization :
    ∀ s : CBTmin,
      (s.signedDifference =
        (let norm := mod ((s.destCbtmin - s.cbtmin) / 60 + 12) 24 - 12
         if norm = -12 then 12 else norm) ∧
       -12 < s.signedDifference ∧ s.signedDifference ≤ 12) ∧
      ∀ originCbtmin destCbtmin : ℚ,
        ((CBTmin.make originCbtmin destCbtmin).phase_direction = .delay ↔
          0 < (CBTmin.make originCbtmin destCbtmin).signedDifference) ∧
        ((CBTmin.make originCbtmin destCbtmin).phase_direction = .advance ↔
          (CBTmin.make originCbtmin destCbtmin).signedDifference < 0) ∧
        ((CBTmin.make originCbtmin destCbtmin).phase_direction = .aligned ↔
          (CBTmin.make originCbtmin destCbtmin).signedDifference = 0) := by
  intro s
  constructor
  · refine ⟨rfl, ?_⟩
    rw [signedDifference_eq_canon]
    exact canon_bounds _
  · intro o d
    have hmk : (CBTmin.make o d).signedDifference = canon ((d - o) / 60) := by
      rw [signedDifference_eq_canon]; rfl
    have hdir : (CBTmin.make o d).phase_direction =
        (if 0 < canon ((d - o) / 60) then PhaseDirection.delay
         else if canon ((d - o) / 60) < 0 then PhaseDirection.advance
         else PhaseDirection.aligned) := by
      simp only [CBTmin.make]
      rw [signedDifference_eq_canon]
    rw [hmk, hdir]
    rcases lt_trichotomy (0 : ℚ) (canon ((d - o) / 60)) with h | h | h
    · rw [if_pos h]
      exact ⟨⟨fun _ => h, fun _ => rfl⟩,
        ⟨fun hc => absurd hc (by simp), fun hc => absurd h (by linarith)⟩,
        ⟨fun hc => absurd hc (by simp), fun hc => absurd h (by linarith)⟩⟩
    · rw [if_neg (by linarith), if_neg (by linarith)]
      exact ⟨⟨fun hc => absurd hc (by simp), fun hc => absurd hc (by linarith)⟩,
        ⟨fun hc => absurd hc (by simp), fun hc => absurd hc (by linarith)⟩,
        ⟨fun _ => h.symm, fun _ => rfl⟩⟩
    · rw [if_neg (by linarith), if_pos h]
      exact ⟨⟨fun hc => absurd hc (by simp), fun hc => absurd hc (by linarith)⟩,
        ⟨fun _ => h, fun _ => rfl⟩,
        ⟨fun hc => absurd hc (by simp), fun hc => absurd hc (by linarith)⟩⟩

/-! ## Claim C10: the no-shift path -/

/-- C10: whenever `nextCbtmin` returns through its no-shift path (zero
computed delta, aligned phase, or `skipShift`), the state is unchanged and
the returned entry's four intervention flags are all false, so the assembler
emits only the `cbtmin` event for that entry; the hand-written seed entry
likewise carries all-false flags and emits only its `cbtmin` event. -/
theorem claim10_no_shift_entries_are_silent :
    ∀ (s : CBTmin) (t : ℚ) (o : CBTmin.NextOptions),
      (s.loopDelta t o = 0 ∨ s.phase_direction = .aligned ∨ o.skipShift = true) →
      ((s.nextCbtmin t o).1 = s ∧
       (s.nextCbtmin t o).2.interventions.melatonin.1 = false ∧
       (s.nextCbtmin t o).2.interventions.exercise.1 = false ∧
       (s.nextCbtmin t o).2.interventions.light.1 = false ∧
       (s.nextCbtmin t o).2.interventions.dark.1 = false) ∧
      (∀ (dir : PhaseDirection) (sd : ℚ),
        eventsOfEntry dir sd (s.nextCbtmin t o).2 =
          [{ baseEvent "cbtmin" (s.nextCbtmin t o).2.time none dir sd with
              is_cbtmin := true }]) ∧
      (∀ (q : ℚ) (dir : PhaseDirection) (sd : ℚ),
        eventsOfEntry dir sd (seedEntry q) =
          [{ baseEvent "cbtmin" q none dir sd with is_cbtmin := true }]) := by
  intro s t o h
  have hbranch : s.nextCbtmin t o =
      (s,
       { time := s.naiveNext t,
         interventions :=
           { melatonin := (false, (s.optimalSchedule t).1)
             exercise := (false, (s.optimalSchedule t).2.1)
             light := (false, (s.optimalSchedule t).2.2.1)
             dark := (false, (s.optimalSchedule t).2.2.2) } }) := by
    rw [CBTmin.nextCbtmin]
    rw [if_pos]
    rcases h with h | h | h
    · exact Or.inl h
    · exact Or.inr (Or.inl h)
    · exact Or.inr (Or.inr h)
  refine ⟨by rw [hbranch]; exact ⟨rfl, rfl, rfl, rfl, rfl⟩, ?_, ?_⟩
  · intro dir sd
    rw [hbranch]
    simp [eventsOfEntry]
  · intro q dir sd
    simp [eventsOfEntry, seedEntry]

end JetLag

namespace JetLag

/-! ## Claim C9: input validation -/

/-- The `HH:MM` format accepted by the source regex
`^([01]\d|2[0-3]):([0-5]\d)$`. -/
def ValidHHMM (s : String) : Prop :=
  match s.data with
  | [h1, h2, c, m1, m2] =>
    c = ':' ∧
      (((h1 = '0' ∨ h1 = '1') ∧ isDigit h2) ∨
        (h1 = '2' ∧ 48 ≤ h2.toNat ∧ h2.toNat ≤ 51)) ∧
      (48 ≤ m1.toNat ∧ m1.toNat ≤ 53) ∧ isDigit m2
  | _ => False

/-- The `datetime-local` format accepted by the source regex
`^(\d{4})-(\d{2})-(\d{2})T(\d{2}):(\d{2})$`. -/
def ValidDatetimeLocal (s : String) : Prop :=
  match s.data with
  | [y1, y2, y3, y4, s1, a1, a2, s2, b1, b2, s3, c1, c2, s4, d1, d2] =>
    s1 = '-' ∧ s2 = '-' ∧ s3 = 'T' ∧ s4 = ':' ∧
      isDigit y1 ∧ isDigit y2 ∧ isDigit y3 ∧ isDigit y4 ∧
      isDigit a1 ∧ isDigit a2 ∧ isDigit b1 ∧ isDigit b2 ∧
      isDigit c1 ∧ isDigit c2 ∧ isDigit d1 ∧ isDigit d2
  | _ => False

theorem parseHHMM_error_iff (s : String) :
    (∃ e, parseHHMM s = .error e) ↔ ¬ ValidHHMM s := by
  unfold parseHHMM ValidHHMM
  rcases hd : s.data with _ | ⟨x1, _ | ⟨x2, _ | ⟨x3, _ | ⟨x4, _ | ⟨x5, rest⟩⟩⟩⟩⟩ <;>
    (try simp only [hd]) <;> try simp
  rcases rest with _ | ⟨x6, rest⟩
  · by_cases hc : x3 = ':' ∧
        (((x1 = '0' ∨ x1 = '1') ∧ isDigit x2) ∨
          (x1 = '2' ∧ 48 ≤ x2.toNat ∧ x2.toNat ≤ 51)) ∧
        (48 ≤ x4.toNat ∧ x4.toNat ≤ 53) ∧ isDigit x5
    · simp [hc]
    · simp [hc]
  · simp

theorem parseLocalDateTime_error_iff (s : String) :
    (∃ e, parseLocalDateTime s = .error e) ↔ ¬ ValidDatetimeLocal s := by
  unfold parseLocalDateTime ValidDatetimeLocal
  rcases hd : s.data with _ | ⟨x1, _ | ⟨x2, _ | ⟨x3, _ | ⟨x4, _ | ⟨x5, _ | ⟨x6, _ | ⟨x7, _ |
    ⟨x8, _ | ⟨x9, _ | ⟨x10, _ | ⟨x11, _ | ⟨x12, _ | ⟨x13, _ | ⟨x14, _ | ⟨x15, _ |
    ⟨x16, rest⟩⟩⟩⟩⟩⟩⟩⟩⟩⟩⟩⟩⟩⟩⟩⟩ <;>
    (try simp only [hd]) <;> try simp
  rcases rest with _ | ⟨x17, rest⟩
  · by_cases hc : x5 = '-' ∧ x8 = '-' ∧ x11 = 'T' ∧ x14 = ':' ∧
        isDigit x1 ∧ isDigit x2 ∧ isDigit x3 ∧ isDigit x4 ∧
        isDigit x6 ∧ isDigit x7 ∧ isDigit x9 ∧ isDigit x10 ∧
        isDigit x12 ∧ isDigit x13 ∧ isDigit x15 ∧ isDigit x16
    · simp [hc]
    · simp [hc]
  · simp

/-- C9: `createJetLagTimetable` rejects, producing an error and no events:
any sleep-time string not of `HH:MM` form, any travel string not of
`YYYY-MM-DDTHH:MM` form, a travel end not strictly after the travel start
after offset conversion, and an adjustment-start mode outside the four
recognized values; the two parser lemmas characterize "not of valid form" as
exactly the parser rejecting. -/
theorem claim9_validation_rejects :
    (∀ s, (∃ e, parseHHMM s = .error e) ↔ ¬ ValidHHMM s) ∧
    (∀ s, (∃ e, parseLocalDateTime s = .error e) ↔ ¬ ValidDatetimeLocal s) ∧
    ∀ inputs : JetLagInputs,
      (¬ ValidHHMM inputs.originSleepStart ∨ ¬ ValidHHMM inputs.originSleepEnd ∨
       ¬ ValidHHMM inputs.destSleepStart ∨ ¬ ValidHHMM inputs.destSleepEnd ∨
       ¬ ValidDatetimeLocal inputs.travelStart ∨ ¬ ValidDatetimeLocal inputs.travelEnd ∨
       (∀ ts te, parseLocalDateTime inputs.travelStart = .ok ts →
          parseLocalDateTime inputs.travelEnd = .ok te →
          addHours te (-inputs.destOffset) ≤ addHours ts (-inputs.originOffset)) ∨
       (modeOf inputs ≠ "after_arrival" ∧ modeOf inputs ≠ "travel_start" ∧
        modeOf inputs ≠ "precondition" ∧ modeOf inputs ≠ "precondition_with_travel")) →
      ∃ e, createJetLagTimetable inputs = .error e := by
  refine ⟨parseHHMM_error_iff, parseLocalDateTime_error_iff, ?_⟩
  intro inputs h
  suffices hs : ∃ e, mkSetup inputs = .error e by
    obtain ⟨e, he⟩ := hs
    exact ⟨e, by rw [createJetLagTimetable, he]⟩
  cases hp1 : parseHHMM inputs.originSleepStart with
  | error e => exact ⟨e, by simp only [mkSetup, hp1]⟩
  | ok v1 =>
  cases hp2 : parseHHMM inputs.originSleepEnd with
  | error e => exact ⟨e, by simp only [mkSetup, hp1, hp2]⟩
  | ok v2 =>
  cases hp3 : parseHHMM inputs.destSleepStart with
  | error e => exact ⟨e, by simp only [mkSetup, hp1, hp2, hp3]⟩
  | ok v3 =>
  cases hp4 : parseHHMM inputs.destSleepEnd with
  | error e => exact ⟨e, by simp only [mkSetup, hp1, hp2, hp3, hp4]⟩
  | ok v4 =>
  cases hp5 : parseLocalDateTime inputs.travelStart with
  | error e => exact ⟨e, by simp only [mkSetup, hp1, hp2, hp3, hp4, hp5]⟩
  | ok v5 =>
  cases hp6 : parseLocalDateTime inputs.travelEnd with
  | error e => exact ⟨e, by simp only [mkSetup, hp1, hp2, hp3, hp4, hp5, hp6]⟩
  | ok v6 =>
  have hv1 : ValidHHMM inputs.originSleepStart := by
    by_contra hc
    obtain ⟨e, he⟩ := (parseHHMM_error_iff _).mpr hc
    rw [hp1] at he; exact Except.noConfusion he
  have hv2 : ValidHHMM inputs.originSleepEnd := by
    by_contra hc
    obtain ⟨e, he⟩ := (parseHHMM_error_iff _).mpr hc
    rw [hp2] at he; exact Except.noConfusion he
  have hv3 : ValidHHMM inputs.destSleepStart := by
    by_contra hc
    obtain ⟨e, he⟩ := (parseHHMM_error_iff _).mpr hc
    rw [hp3] at he; exact Except.noConfusion he
  have hv4 : ValidHHMM inputs.destSleepEnd := by
    by_contra hc
    obtain ⟨e, he⟩ := (parseHHMM_error_iff _).mpr hc
    rw [hp4] at he; exact Except.noConfusion he
  have hv5 : ValidDatetimeLocal inputs.travelStart := by
    by_contra hc
    obtain ⟨e, he⟩ := (parseLocalDateTime_error_iff _).mpr hc
    rw [hp5] at he; exact Except.noConfusion he
  have hv6 : ValidDatetimeLocal inputs.travelEnd := by
    by_contra hc
    obtain ⟨e, he⟩ := (parseLocalDateTime_error_iff _).mpr hc
    rw [hp6] at he; exact Except.noConfusion he
  simp only [mkSetup, hp1, hp2, hp3, hp4, hp5, hp6]
  rcases h with h | h | h | h | h | h | h | h
  · exact absurd hv1 h
  · exact absurd hv2 h
  · exact absurd hv3 h
  · exact absurd hv4 h
  · exact absurd hv5 h
  · exact absurd hv6 h
  · exact ⟨_, by rw [if_pos (h v5 v6 hp5 hp6)]⟩
  · by_cases hord : addHours v6 (-inputs.destOffset) ≤ addHours v5 (-inputs.originOffset)
    · exact ⟨_, by rw [if_pos hord]⟩
    · refine ⟨"invalid adjustment_start: " ++ inputs.adjustmentStart, ?_⟩
      rw [if_neg hord, if_pos ?_]
      intro hc
      rcases hc with hc | hc | hc | hc
      · exact h.1 hc
      · exact h.2.1 hc
      · exact h.2.2.1 hc
      · exact h.2.2.2 hc

end JetLag

namespace JetLag

def inpBadMode : JetLagInputs where
  originOffset := 0
  destOffset := -8
  originSleepStart := "23:00"
  originSleepEnd := "07:00"
  destSleepStart := "23:00"
  destSleepEnd := "07:00"
  travelStart := "2025-09-10T18:00"
  travelEnd := "2025-09-11T08:00"
  useMelatonin := false
  useLightDark := true
  useExercise := false
  preDays := 0
  adjustmentStart := "sometime"

theorem claim9_witness :
    (modeOf inpBadMode ≠ "after_arrival" ∧ modeOf inpBadMode ≠ "travel_start" ∧
      modeOf inpBadMode ≠ "precondition" ∧ modeOf inpBadMode ≠ "precondition_with_travel") ∧
      ∃ e, createJetLagTimetable inpBadMode = .error e :=
  ⟨by decide,
   claim9_validation_rejects.2.2 inpBadMode
     (Or.inr (Or.inr (Or.inr (Or.inr (Or.inr (Or.inr (Or.inr (by decide))))))))⟩

theorem claim10_witness :
    ((cbtA 240).loopDelta 1757304000000
        { noInterventionWindow := none, melatonin := true, exercise := true,
          light := true, dark := true, precondition := false, skipShift := false } = 0 ∨
      (cbtA 240).phase_direction = .aligned ∨ False) ∧
      ((cbtA 240).nextCbtmin 1757304000000
          { noInterventionWindow := none, melatonin := true, exercise := true,
            light := true, dark := true, precondition := false,
            skipShift := false }).2.interventions.melatonin.1 = false :=
  ⟨Or.inr (Or.inl rfl),
   (claim10_no_shift_entries_are_silent (cbtA 240) 1757304000000
     { noInterventionWindow := none, melatonin := true, exercise := true,
       light := true, dark := true, precondition := false, skipShift := false }
     (Or.inr (Or.inl rfl))).1.2.1⟩

end JetLag

namespace JetLag

/-! ## Clock-of-day arithmetic

`clockOf t` is the minutes-since-UTC-midnight of an instant, the quantity
`combineDateMinutes` rebuilds instants from. -/

/-- Minutes since UTC midnight of an instant. -/
def clockOf (t : ℚ) : ℚ := (t - midnightForDatetime t) / MS_MINUTE

theorem MS_MINUTE_pos : (0 : ℚ) < MS_MINUTE := by norm_num [MS_MINUTE]

theorem MS_DAY_pos : (0 : ℚ) < MS_DAY := by norm_num [MS_DAY, MS_HOUR, MS_MINUTE]

theorem midnightForDatetime_le (t : ℚ) : midnightForDatetime t ≤ t := by
  rw [midnightForDatetime]
  have h := Int.floor_le (t / MS_DAY)
  calc MS_DAY * (⌊t / MS_DAY⌋ : ℚ) ≤ MS_DAY * (t / MS_DAY) := by
        exact mul_le_mul_of_nonneg_left h MS_DAY_pos.le
    _ = t := by rw [mul_comm, div_mul_cancel₀ _ MS_DAY_pos.ne']

theorem lt_midnightForDatetime_add (t : ℚ) : t < midnightForDatetime t + MS_DAY := by
  rw [midnightForDatetime]
  have h := Int.lt_floor_add_one (t / MS_DAY)
  have := mul_lt_mul_of_pos_left h MS_DAY_pos
  calc t = MS_DAY * (t / MS_DAY) := by rw [mul_comm, div_mul_cancel₀ _ MS_DAY_pos.ne']
    _ < MS_DAY * ((⌊t / MS_DAY⌋ : ℚ) + 1) := this
    _ = MS_DAY * (⌊t / MS_DAY⌋ : ℚ) + MS_DAY := by ring

theorem midnightForDatetime_add_int_day (t : ℚ) (k : ℤ) :
    midnightForDatetime (t + k * MS_DAY) = midnightForDatetime t + k * MS_DAY := by
  rw [midnightForDatetime, midnightForDatetime]
  have hk : (k : ℚ) * MS_DAY / MS_DAY = k := by
    rw [mul_div_assoc, div_self MS_DAY_pos.ne', mul_one]
  have : (t + k * MS_DAY) / MS_DAY = t / MS_DAY + k := by
    rw [add_div, hk]
  rw [this, Int.floor_add_int]
  push_cast
  ring

theorem midnightForDatetime_of_day_multiple {D : ℚ} (k : ℤ) (hD : D = k * MS_DAY)
    {r : ℚ} (h0 : 0 ≤ r) (h1 : r < MS_DAY) : midnightForDatetime (D + r) = D := by
  subst hD
  rw [show (k : ℚ) * MS_DAY + r = r + k * MS_DAY by ring,
    midnightForDatetime_add_int_day, midnightForDatetime]
  have hfl : ⌊r / MS_DAY⌋ = 0 := by
    rw [Int.floor_eq_zero_iff]
    constructor
    · exact div_nonneg h0 MS_DAY_pos.le
    · rw [div_lt_one MS_DAY_pos]; exact h1
  rw [hfl]
  push_cast
  ring

theorem clockOf_bounds (t : ℚ) : 0 ≤ clockOf t ∧ clockOf t < 1440 := by
  have h1 := midnightForDatetime_le t
  have h2 := lt_midnightForDatetime_add t
  constructor
  · exact div_nonneg (by linarith) MS_MINUTE_pos.le
  · rw [clockOf, div_lt_iff₀ MS_MINUTE_pos]
    have : (1440 : ℚ) * MS_MINUTE = MS_DAY := by norm_num [MS_DAY, MS_HOUR, MS_MINUTE]
    rw [this]
    linarith

theorem clockOf_spec (t : ℚ) : t = midnightForDatetime t + clockOf t * MS_MINUTE := by
  rw [clockOf, div_mul_cancel₀ _ MS_MINUTE_pos.ne']
  ring

theorem midnightForDatetime_is_day_multiple (t : ℚ) :
    ∃ k : ℤ, midnightForDatetime t = k * MS_DAY := ⟨⌊t / MS_DAY⌋, by rw [midnightForDatetime]; ring⟩

theorem combineDateMinutes_eq_self {t c : ℚ} (h : clockOf t = c) :
    combineDateMinutes t c = t := by
  rw [combineDateMinutes, ← h, ← clockOf_spec]

theorem clockOf_eq_of_decomp {t D c : ℚ} (k : ℤ) (hD : D = k * MS_DAY)
    (h : t = D + c * MS_MINUTE) (h0 : 0 ≤ c) (h1 : c < 1440) : clockOf t = c := by
  have hr0 : 0 ≤ c * MS_MINUTE := mul_nonneg h0 MS_MINUTE_pos.le
  have hr1 : c * MS_MINUTE < MS_DAY := by
    have : (1440 : ℚ) * MS_MINUTE = MS_DAY := by norm_num [MS_DAY, MS_HOUR, MS_MINUTE]
    calc c * MS_MINUTE < 1440 * MS_MINUTE := by
          exact mul_lt_mul_of_pos_right h1 MS_MINUTE_pos
      _ = MS_DAY := this
  have hm : midnightForDatetime t = D := by
    rw [h]; exact midnightForDatetime_of_day_multiple k hD hr0 hr1
  rw [clockOf, hm, h, add_sub_cancel_left, mul_div_assoc, div_self MS_MINUTE_pos.ne',
    mul_one]

theorem clockOf_combineDateMinutes (t : ℚ) {c : ℚ} (h0 : 0 ≤ c) (h1 : c < 1440) :
    clockOf (combineDateMinutes t c) = c := by
  obtain ⟨k, hk⟩ := midnightForDatetime_is_day_multiple t
  exact clockOf_eq_of_decomp k hk (by rw [combineDateMinutes]) h0 h1

theorem clockOf_add_day (t : ℚ) : clockOf (t + MS_DAY) = clockOf t := by
  rw [clockOf, show t + MS_DAY = t + (1 : ℤ) * MS_DAY by push_cast; ring,
    midnightForDatetime_add_int_day, clockOf]
  push_cast
  ring_nf

theorem clockOf_add_minutes (t x : ℚ) :
    clockOf (t + x * MS_MINUTE) = mod (clockOf t + x) 1440 := by
  obtain ⟨k, hk⟩ := midnightForDatetime_is_day_multiple t
  obtain ⟨j, hj⟩ := mod_sub_int (clockOf t + x) 1440
  obtain ⟨hm0, hm1⟩ := mod_bounds (v := clockOf t + x) (m := (1440 : ℚ)) (by norm_num)
  have hday : (1440 : ℚ) * MS_MINUTE = MS_DAY := by norm_num [MS_DAY, MS_HOUR, MS_MINUTE]
  refine clockOf_eq_of_decomp (D := ((k + j : ℤ) : ℚ) * MS_DAY) (k + j) rfl ?_ hm0 hm1
  have hspec := clockOf_spec t
  rw [hk] at hspec
  rw [hj]
  push_cast
  rw [← hday] at hspec ⊢
  linear_combination hspec

end JetLag

namespace JetLag

/-! ## One step of the convergence loop, symbolically

`nextCbtmin_eq` names the two branches of `CBTmin.nextCbtmin`;
`appliedDelta` is the shift the call actually applies (zero on the
no-shift branch). -/

/-- The direction sign `nextCbtmin` multiplies the daily shift by. -/
def dirSign (s : CBTmin) : ℚ := if s.phase_direction = .delay then 1 else -1

/-- The shift one `nextCbtmin` call actually applies to `cbtmin` (in hours):
zero on the no-shift branch, the day's `loopDelta` otherwise. -/
def appliedDelta (s : CBTmin) (time : ℚ) (o : CBTmin.NextOptions) : ℚ :=
  if s.loopDelta time o = 0 ∨ s.phase_direction = .aligned ∨ o.skipShift then 0
  else s.loopDelta time o

theorem dirSign_cases (s : CBTmin) : dirSign s = 1 ∨ dirSign s = -1 := by
  rw [dirSign]; split
  · exact Or.inl rfl
  · exact Or.inr rfl

theorem nextCbtmin_eq (s : CBTmin) (time : ℚ) (o : CBTmin.NextOptions) :
    s.nextCbtmin time o =
      if s.loopDelta time o = 0 ∨ s.phase_direction = .aligned ∨ o.skipShift then
        (s,
         { time := s.naiveNext time,
           interventions :=
             { melatonin := (false, (s.optimalSchedule time).1)
               exercise := (false, (s.optimalSchedule time).2.1)
               light := (false, (s.optimalSchedule time).2.2.1)
               dark := (false, (s.optimalSchedule time).2.2.2) } })
      else
        ({ s with cbtmin := sumTimeDelta s.cbtmin (s.loopDelta time o * dirSign s) },
         { time := addHours (s.naiveNext time) (s.loopDelta time o * dirSign s),
           interventions :=
             { melatonin := ((s.suppressedFlags time o).1, (s.optimalSchedule time).1)
               exercise := ((s.suppressedFlags time o).2.1, (s.optimalSchedule time).2.1)
               light := ((s.suppressedFlags time o).2.2.1, (s.optimalSchedule time).2.2.1)
               dark := ((s.suppressedFlags time o).2.2.2, (s.optimalSchedule time).2.2.2) } }) := by
  rw [CBTmin.nextCbtmin, dirSign]

/-- `deltaCbtmin` only ever returns `0`, `1` or `1.5`. -/
theorem deltaCbtmin_mem (s : CBTmin) (m e l p : Bool) :
    s.deltaCbtmin m e l p = 0 ∨ s.deltaCbtmin m e l p = 1 ∨ s.deltaCbtmin m e l p = 3/2 := by
  rw [CBTmin.deltaCbtmin]
  split <;> split <;> split <;> norm_num

/-- Outside precondition days, `deltaCbtmin` is at least one hour. -/
theorem deltaCbtmin_false_ge (s : CBTmin) (m e l : Bool) :
    1 ≤ s.deltaCbtmin m e l false := by
  rw [CBTmin.deltaCbtmin]
  split <;> split <;> simp <;> norm_num

theorem loopDelta_nonneg (s : CBTmin) (time : ℚ) (o : CBTmin.NextOptions) :
    0 ≤ s.loopDelta time o := by
  simp only [CBTmin.loopDelta]
  rcases hwin : o.noInterventionWindow with _ | w <;> simp only [hwin]
  · split
    · exact abs_nonneg _
    · exact le_max_right _ _
  · split
    · exact le_refl 0
    · split
      · exact abs_nonneg _
      · exact le_max_right _ _

theorem loopDelta_le_abs (s : CBTmin) (time : ℚ) (o : CBTmin.NextOptions) :
    s.loopDelta time o ≤ |s.signedDifference| := by
  simp only [CBTmin.loopDelta]
  rcases hwin : o.noInterventionWindow with _ | w <;> simp only [hwin]
  · split
    · exact le_refl _
    · exact le_of_not_lt (by assumption)
  · split
    · exact abs_nonneg _
    · split
      · exact le_refl _
      · exact le_of_not_lt (by assumption)

theorem loopDelta_le_cap (s : CBTmin) (time : ℚ) (o : CBTmin.NextOptions) :
    s.loopDelta time o ≤ 3/2 := by
  have hcap : max (s.deltaCbtmin (s.suppressedFlags time o).1 (s.suppressedFlags time o).2.1
      ((s.suppressedFlags time o).2.2.1 || (s.suppressedFlags time o).2.2.2) o.precondition) 0 ≤ 3/2 := by
    rcases deltaCbtmin_mem s (s.suppressedFlags time o).1 (s.suppressedFlags time o).2.1
        ((s.suppressedFlags time o).2.2.1 || (s.suppressedFlags time o).2.2.2) o.precondition with
      h | h | h <;> rw [h] <;> rw [max_eq_left (by norm_num)] <;> norm_num
  simp only [CBTmin.loopDelta]
  rcases hwin : o.noInterventionWindow with _ | w <;> simp only [hwin]
  · split
    · exact le_trans (le_of_lt (by assumption)) hcap
    · exact hcap
  · split
    · norm_num
    · split
      · exact le_trans (le_of_lt (by assumption)) hcap
      · exact hcap

/-- When the cursor is past any precondition day and the pre-dawn window
does not meet the no-intervention window, the day's shift is at least
`min 1 |signedDifference|`. -/
theorem loopDelta_lower (s : CBTmin) (time : ℚ) (o : CBTmin.NextOptions)
    (hp : o.precondition = false)
    (hw : ∀ w, o.noInterventionWindow = some w →
      intersectionHours (addHours (s.naiveNext time) (-8), s.naiveNext time) w ≤ 0) :
    min 1 |s.signedDifference| ≤ s.loopDelta time o := by
  have hd0 : 1 ≤ max (s.deltaCbtmin (s.suppressedFlags time o).1 (s.suppressedFlags time o).2.1
      ((s.suppressedFlags time o).2.2.1 || (s.suppressedFlags time o).2.2.2) o.precondition) 0 := by
    refine le_trans ?_ (le_max_left _ _)
    rw [hp]
    exact deltaCbtmin_false_ge s _ _ _
  simp only [CBTmin.loopDelta]
  rcases hwin : o.noInterventionWindow with _ | w <;> simp only [hwin]
  · split
    · exact min_le_right _ _
    · exact le_trans (min_le_left _ _) hd0
  · rw [if_neg (not_lt.mpr (hw w hwin))]
    split
    · exact min_le_right _ _
    · exact le_trans (min_le_left _ _) hd0

theorem appliedDelta_bounds (s : CBTmin) (time : ℚ) (o : CBTmin.NextOptions) :
    0 ≤ appliedDelta s time o ∧ appliedDelta s time o ≤ |s.signedDifference| ∧
      appliedDelta s time o ≤ 3/2 := by
  rw [appliedDelta]; split
  · exact ⟨le_refl 0, abs_nonneg _, by norm_num⟩
  · exact ⟨loopDelta_nonneg s time o, loopDelta_le_abs s time o, loopDelta_le_cap s time o⟩

end JetLag

namespace JetLag

/-! ## How one step moves the signed difference -/

theorem signedDifference_bounds (s : CBTmin) :
    -12 < s.signedDifference ∧ s.signedDifference ≤ 12 := by
  rw [signedDifference_eq_canon]
  exact canon_bounds _

/-- Shifting the argument of `canon` stays exact while the result remains in
the principal range. -/
theorem canon_shift {x a : ℚ} (h1 : -12 < canon x - a) (h2 : canon x - a ≤ 12) :
    canon (x - a) = canon x - a := by
  obtain ⟨k, hk⟩ := canon_sub_int x
  have hx : x - a = canon x - a + 24 * k := by rw [hk]; ring
  rw [hx, canon_add_int_mul, canon_eq_self h1 h2]

/-- Shifting `cbtmin` by `d` hours (through the wrap-around of
`sumTimeDelta`) subtracts exactly `d` from the signed difference, while the
result stays in the principal range. -/
theorem signedDifference_shift (s : CBTmin) (d : ℚ)
    (h1 : -12 < s.signedDifference - d) (h2 : s.signedDifference - d ≤ 12) :
    CBTmin.signedDifference { s with cbtmin := sumTimeDelta s.cbtmin d } =
      s.signedDifference - d := by
  rw [signedDifference_eq_canon] at h1 h2 ⊢
  rw [signedDifference_eq_canon]
  simp only [sumTimeDelta, normalizeMinutes]
  obtain ⟨k, hk⟩ := mod_sub_int (s.cbtmin + d * 60) (24 * 60)
  have harg : (s.destCbtmin - mod (s.cbtmin + d * 60) (24 * 60)) / 60
      = (s.destCbtmin - s.cbtmin) / 60 - d + 24 * k := by
    rw [hk]; field_simp; ring
  rw [harg, canon_add_int_mul, canon_shift h1 h2]

/-- The direction/sign invariant the convergence loop maintains: the signed
difference always lies on the side named by `phase_direction`. -/
def SignInv (s : CBTmin) : Prop :=
  (s.phase_direction = .delay → 0 ≤ s.signedDifference) ∧
  (s.phase_direction = .advance → s.signedDifference ≤ 0) ∧
  (s.phase_direction = .aligned → s.signedDifference = 0)

/-- The master step fact: one `nextCbtmin` call reduces the absolute signed
difference by exactly `appliedDelta`, preserves the sign invariant, and
leaves direction, destination and presets unchanged. -/
theorem nextCbtmin_sd_step (s : CBTmin) (time : ℚ) (o : CBTmin.NextOptions)
    (hs : SignInv s) :
    |(s.nextCbtmin time o).1.signedDifference|
        = |s.signedDifference| - appliedDelta s time o ∧
      SignInv (s.nextCbtmin time o).1 ∧
      (s.nextCbtmin time o).1.phase_direction = s.phase_direction := by
  by_cases hc : s.loopDelta time o = 0 ∨ s.phase_direction = .aligned ∨ o.skipShift
  · rw [nextCbtmin_eq, if_pos hc, appliedDelta, if_pos hc]
    exact ⟨by rw [sub_zero], hs, rfl⟩
  · rw [nextCbtmin_eq, if_neg hc, appliedDelta, if_neg hc]
    push_neg at hc
    obtain ⟨hc1, hc2, _⟩ := hc
    have hΔ0 : 0 < s.loopDelta time o :=
      lt_of_le_of_ne (loopDelta_nonneg s time o) (Ne.symm hc1)
    have hΔabs := loopDelta_le_abs s time o
    obtain ⟨hb1, hb2⟩ := signedDifference_bounds s
    cases hdir : s.phase_direction with
    | aligned => exact absurd hdir hc2
    | delay =>
      have hsd0 : 0 ≤ s.signedDifference := hs.1 hdir
      have habs : |s.signedDifference| = s.signedDifference := abs_of_nonneg hsd0
      rw [habs] at hΔabs
      have hσ : dirSign s = 1 := by rw [dirSign, if_pos hdir]
      rw [hσ, mul_one]
      have hshift := signedDifference_shift s (s.loopDelta time o)
        (by linarith) (by linarith)
      rw [hdir] at hshift
      simp only []
      refine ⟨?_, ⟨fun _ => ?_, fun hadv => ?_, fun hal => ?_⟩, trivial⟩
      · rw [hshift, abs_of_nonneg (by linarith), habs]
      · rw [hshift]; linarith
      · exact absurd hadv (by intro h; cases h)
      · exact absurd hal (by intro h; cases h)
    | advance =>
      have hsd0 : s.signedDifference ≤ 0 := hs.2.1 hdir
      have habs : |s.signedDifference| = -s.signedDifference := abs_of_nonpos hsd0
      rw [habs] at hΔabs
      have hσ : dirSign s = -1 := by
        rw [dirSign, if_neg (by rw [hdir]; intro h; cases h)]
      rw [hσ, mul_neg_one]
      have hshift := signedDifference_shift s (-(s.loopDelta time o))
        (by rw [sub_neg_eq_add]; linarith) (by rw [sub_neg_eq_add]; linarith)
      rw [sub_neg_eq_add] at hshift
      rw [hdir] at hshift
      simp only []
      refine ⟨?_, ⟨fun hdel => ?_, fun _ => ?_, fun hal => ?_⟩, trivial⟩
      · rw [hshift, abs_of_nonpos (by linarith), habs]; ring
      · exact absurd hdel (by intro h; cases h)
      · rw [hshift]; linarith
      · exact absurd hal (by intro h; cases h)

/-! ## The minute grid -/

/-- Both reference CBTmin clock values are whole minutes. -/
def MinuteGrid (s : CBTmin) : Prop :=
  (∃ k : ℤ, s.cbtmin = k) ∧ (∃ k : ℤ, s.destCbtmin = k)

theorem mod_int {v m : ℚ} (hv : ∃ j : ℤ, v = j) (hm : ∃ j : ℤ, m = j) :
    ∃ k : ℤ, mod v m = k := by
  obtain ⟨j, rfl⟩ := hv
  obtain ⟨i, rfl⟩ := hm
  obtain ⟨k, hk⟩ := mod_sub_int (j : ℚ) (i : ℚ)
  exact ⟨j - i * k, by rw [hk]; push_cast; ring⟩

theorem signedDifference_grid (s : CBTmin) (hg : MinuteGrid s) :
    ∃ k : ℤ, s.signedDifference * 60 = k := by
  rw [signedDifference_eq_canon]
  obtain ⟨⟨a, ha⟩, ⟨b, hb⟩⟩ := hg
  obtain ⟨k, hk⟩ := canon_sub_int ((s.destCbtmin - s.cbtmin) / 60)
  refine ⟨b - a - 1440 * k, ?_⟩
  rw [hk, ha, hb]
  push_cast
  field_simp
  ring

theorem loopDelta_cases (s : CBTmin) (time : ℚ) (o : CBTmin.NextOptions) :
    s.loopDelta time o = 0 ∨ s.loopDelta time o = |s.signedDifference| ∨
      s.loopDelta time o = 1 ∨ s.loopDelta time o = 3/2 := by
  have hd0 : max (s.deltaCbtmin (s.suppressedFlags time o).1 (s.suppressedFlags time o).2.1
      ((s.suppressedFlags time o).2.2.1 || (s.suppressedFlags time o).2.2.2) o.precondition) 0 = 0 ∨
      max (s.deltaCbtmin (s.suppressedFlags time o).1 (s.suppressedFlags time o).2.1
      ((s.suppressedFlags time o).2.2.1 || (s.suppressedFlags time o).2.2.2) o.precondition) 0 = 1 ∨
      max (s.deltaCbtmin (s.suppressedFlags time o).1 (s.suppressedFlags time o).2.1
      ((s.suppressedFlags time o).2.2.1 || (s.suppressedFlags time o).2.2.2) o.precondition) 0 = 3/2 := by
    rcases deltaCbtmin_mem s (s.suppressedFlags time o).1 (s.suppressedFlags time o).2.1
        ((s.suppressedFlags time o).2.2.1 || (s.suppressedFlags time o).2.2.2) o.precondition with
      h | h | h <;> rw [h, max_eq_left (by norm_num)]
    · exact Or.inl rfl
    · exact Or.inr (Or.inl rfl)
    · exact Or.inr (Or.inr rfl)
  simp only [CBTmin.loopDelta]
  rcases hwin : o.noInterventionWindow with _ | w <;> simp only [hwin]
  · split
    · exact Or.inr (Or.inl rfl)
    · rcases hd0 with h | h | h <;> rw [h]
      · exact Or.inl rfl
      · exact Or.inr (Or.inr (Or.inl rfl))
      · exact Or.inr (Or.inr (Or.inr rfl))
  · split
    · exact Or.inl rfl
    · split
      · exact Or.inr (Or.inl rfl)
      · rcases hd0 with h | h | h <;> rw [h]
        · exact Or.inl rfl
        · exact Or.inr (Or.inr (Or.inl rfl))
        · exact Or.inr (Or.inr (Or.inr rfl))

theorem appliedDelta_grid (s : CBTmin) (time : ℚ) (o : CBTmin.NextOptions)
    (hsd : ∃ k : ℤ, s.signedDifference * 60 = k) :
    ∃ k : ℤ, appliedDelta s time o * 60 = k := by
  have habs : ∃ k : ℤ, |s.signedDifference| * 60 = k := by
    obtain ⟨k, hk⟩ := hsd
    refine ⟨|k|, ?_⟩
    rw [show |s.signedDifference| * 60 = |s.signedDifference * 60| by
      rw [abs_mul, abs_of_nonneg (by norm_num : (0:ℚ) ≤ 60)], hk]
    exact (Int.cast_abs).symm
  rw [appliedDelta]
  split
  · exact ⟨0, by norm_num⟩
  · rcases loopDelta_cases s time o with h | h | h | h <;> rw [h]
    · exact ⟨0, by norm_num⟩
    · exact habs
    · exact ⟨60, by norm_num⟩
    · exact ⟨90, by norm_num⟩

theorem nextCbtmin_grid (s : CBTmin) (time : ℚ) (o : CBTmin.NextOptions)
    (hg : MinuteGrid s) : MinuteGrid (s.nextCbtmin time o).1 := by
  by_cases hc : s.loopDelta time o = 0 ∨ s.phase_direction = .aligned ∨ o.skipShift
  · rw [nextCbtmin_eq, if_pos hc]; exact hg
  · rw [nextCbtmin_eq, if_neg hc]
    refine ⟨?_, hg.2⟩
    obtain ⟨a, ha⟩ := hg.1
    obtain ⟨k, hk⟩ := appliedDelta_grid s time o (signedDifference_grid s hg)
    rw [appliedDelta, if_neg hc] at hk
    simp only [sumTimeDelta, normalizeMinutes]
    rcases dirSign_cases s with hσ | hσ <;> rw [hσ]
    · exact mod_int ⟨a + k, by rw [mul_one]; push_cast; rw [← hk, ha]⟩
        ⟨1440, by norm_num⟩
    · exact mod_int ⟨a - k, by push_cast; rw [← hk, ha]; ring⟩ ⟨1440, by norm_num⟩

/-- On the minute grid, clearing the `EPSILON` test means the difference is
exactly zero. -/
theorem grid_eps {q : ℚ} (hg : ∃ k : ℤ, q * 60 = k) (h : |q| ≤ EPSILON) : q = 0 := by
  obtain ⟨k, hk⟩ := hg
  have h1 : |(k : ℚ)| < 1 := by
    rw [← hk, abs_mul, abs_of_nonneg (by norm_num : (0:ℚ) ≤ 60)]
    calc |q| * 60 ≤ EPSILON * 60 := by
          exact mul_le_mul_of_nonneg_right h (by norm_num)
      _ < 1 := by norm_num [EPSILON]
  have h2 : k = 0 := by
    by_contra hk0
    have : (1 : ℚ) ≤ |(k : ℚ)| := by
      rw [← Int.cast_abs]
      exact_mod_cast Int.one_le_abs hk0
    linarith
  have h3 : q * 60 = (0 : ℚ) := by rw [hk]; exact_mod_cast h2
  linarith [h3]

end JetLag

namespace JetLag

/-! ## Clock propagation through one step -/

theorem clockOf_naiveNext (s : CBTmin) (t : ℚ) (h0 : 0 ≤ s.cbtmin)
    (h1 : s.cbtmin < 1440) : clockOf (s.naiveNext t) = s.cbtmin := by
  simp only [CBTmin.naiveNext]
  split
  · rw [addDays, one_mul, clockOf_add_day, clockOf_combineDateMinutes t h0 h1]
  · exact clockOf_combineDateMinutes t h0 h1

theorem naiveNext_of_clock {s : CBTmin} {t : ℚ} (h : clockOf t = s.cbtmin) :
    s.naiveNext t = t + MS_DAY := by
  simp only [CBTmin.naiveNext]
  rw [combineDateMinutes_eq_self h, if_pos (le_refl t), addDays, one_mul]

theorem nextCbtmin_time_eq (s : CBTmin) (time : ℚ) (o : CBTmin.NextOptions) :
    (s.nextCbtmin time o).2.time
      = addHours (s.naiveNext time) (appliedDelta s time o * dirSign s) := by
  by_cases hc : s.loopDelta time o = 0 ∨ s.phase_direction = .aligned ∨ o.skipShift
  · rw [nextCbtmin_eq, if_pos hc, appliedDelta, if_pos hc, zero_mul, addHours,
      zero_mul, add_zero]
  · rw [nextCbtmin_eq, if_neg hc, appliedDelta, if_neg hc]

/-- The new cursor keeps the clock invariant: it shows the new `cbtmin` on
the wall clock. -/
theorem nextCbtmin_clock (s : CBTmin) (time : ℚ) (o : CBTmin.NextOptions)
    (hc : clockOf time = s.cbtmin) :
    clockOf (s.nextCbtmin time o).2.time = (s.nextCbtmin time o).1.cbtmin := by
  have hb := clockOf_bounds time
  rw [hc] at hb
  by_cases hcond : s.loopDelta time o = 0 ∨ s.phase_direction = .aligned ∨ o.skipShift
  · rw [nextCbtmin_eq, if_pos hcond]
    simp only []
    exact clockOf_naiveNext s time hb.1 hb.2
  · rw [nextCbtmin_eq, if_neg hcond]
    simp only []
    rw [naiveNext_of_clock hc]
    have harg : addHours (time + MS_DAY) (s.loopDelta time o * dirSign s)
        = time + (s.loopDelta time o * dirSign s * 60 + 1440 * ((1 : ℤ) : ℚ)) * MS_MINUTE := by
      rw [addHours, MS_DAY, MS_HOUR]
      push_cast
      ring
    rw [harg, clockOf_add_minutes, hc, sumTimeDelta, normalizeMinutes]
    rw [show s.cbtmin + (s.loopDelta time o * dirSign s * 60 + 1440 * ((1 : ℤ) : ℚ))
        = (s.cbtmin + s.loopDelta time o * dirSign s * 60) + 1440 * ((1 : ℤ) : ℚ) by ring]
    rw [mod_add_int_mul _ (by norm_num) 1]
    norm_num

/-- One step moves the cursor forward by one day up to the at most
1.5-hour shift. -/
theorem nextCbtmin_time_bounds (s : CBTmin) (time : ℚ) (o : CBTmin.NextOptions)
    (hc : clockOf time = s.cbtmin) :
    time + MS_DAY - 3/2 * MS_HOUR ≤ (s.nextCbtmin time o).2.time ∧
      (s.nextCbtmin time o).2.time ≤ time + MS_DAY + 3/2 * MS_HOUR := by
  rw [nextCbtmin_time_eq, naiveNext_of_clock hc, addHours]
  obtain ⟨h0, _, h32⟩ := appliedDelta_bounds s time o
  have hH : (0 : ℚ) < MS_HOUR := by norm_num [MS_HOUR, MS_MINUTE]
  rcases dirSign_cases s with h | h <;> rw [h] <;> constructor <;> nlinarith

/-! ## The convergence loop's absolute difference is non-increasing -/

/-- One step never increases the absolute signed difference. -/
theorem nextCbtmin_abs_le (s : CBTmin) (time : ℚ) (o : CBTmin.NextOptions)
    (hs : SignInv s) :
    |(s.nextCbtmin time o).1.signedDifference| ≤ |s.signedDifference| := by
  obtain ⟨heq, _, _⟩ := nextCbtmin_sd_step s time o hs
  obtain ⟨h0, _, _⟩ := appliedDelta_bounds s time o
  rw [heq]
  linarith

/-- Along any completed run of the convergence loop from a state satisfying
the sign invariant, the recorded per-iteration states have non-increasing
absolute signed difference (as a chain starting at the initial state). -/
theorem convergenceLoop_chain (ctx : LoopCtx) :
    ∀ (fuel : ℕ) (s : CBTmin) (t : ℚ) (extra : ℕ)
      (res : CBTmin × List (CBTmin × CBTEntry)),
      SignInv s →
      convergenceLoop ctx fuel s t extra = some res →
      List.Chain (fun a b : CBTmin => |b.signedDifference| ≤ |a.signedDifference|)
        s (res.2.map Prod.fst) := by
  intro fuel
  induction fuel with
  | zero => intro s t extra res _ h; exact absurd h (by rw [convergenceLoop]; simp)
  | succ n ih =>
    intro s t extra res hs h
    simp only [convergenceLoop] at h
    split at h
    · rcases hrec : convergenceLoop ctx n (s.nextCbtmin t (loopOptions ctx t)).1
          (s.nextCbtmin t (loopOptions ctx t)).2.time
          (if |s.signedDifference| < EPSILON then extra + 1 else extra) with _ | ⟨c', rest'⟩
      · rw [hrec] at h; exact absurd h (by simp)
      · rw [hrec] at h
        injection h with h
        subst h
        simp only [List.map_cons]
        have hs' : SignInv (s.nextCbtmin t (loopOptions ctx t)).1 :=
          (nextCbtmin_sd_step s t (loopOptions ctx t) hs).2.1
        exact List.Chain.cons (nextCbtmin_abs_le s t (loopOptions ctx t) hs)
          (ih _ _ _ (c', rest') hs' hrec)
    · injection h with h
      subst h
      exact List.Chain.nil

/-- The sign invariant holds for every freshly constructed `CBTmin`. -/
theorem SignInv_make (a b : ℚ) : SignInv (CBTmin.make a b) := by
  have hsd : (CBTmin.make a b).signedDifference = canon ((b - a) / 60) := rfl
  have hdir : (CBTmin.make a b).phase_direction
      = (if 0 < canon ((b - a) / 60) then PhaseDirection.delay
         else if canon ((b - a) / 60) < 0 then PhaseDirection.advance
         else PhaseDirection.aligned) := rfl
  refine ⟨fun hd => ?_, fun hd => ?_, fun hd => ?_⟩ <;> rw [hdir] at hd <;> rw [hsd]
  · split at hd
    · exact le_of_lt (by assumption)
    · split at hd <;> exact absurd hd (by intro h; cases h)
  · split at hd
    · exact absurd hd (by intro h; cases h)
    · split at hd
      · exact le_of_lt (by assumption)
      · exact absurd hd (by intro h; cases h)
  · split at hd
    · exact absurd hd (by intro h; cases h)
    · split at hd
      · exact absurd hd (by intro h; cases h)
      · rename_i h1 h2
        linarith [not_lt.mp h1, not_lt.mp h2]
end JetLag

namespace JetLag

/-! ## Inverting a successful `mkSetup` -/

theorem parseHHMM_int {v : String} {q : ℚ} (h : parseHHMM v = .ok q) :
    ∃ k : ℤ, q = k := by
  obtain ⟨n, hn⟩ : ∃ n : ℕ, q = (n : ℚ) := by
    rw [parseHHMM] at h
    split at h
    · split at h
      · injection h with h
        exact ⟨_, h.symm⟩
      · exact Except.noConfusion h
    · exact Except.noConfusion h
  exact ⟨(n : ℤ), by exact_mod_cast hn⟩

theorem sumTimeDelta_bounds (a b : ℚ) :
    0 ≤ sumTimeDelta a b ∧ sumTimeDelta a b < 1440 := by
  have h := mod_bounds (v := a + b * 60) (m := (24 * 60 : ℚ)) (by norm_num)
  have h1440 : (24 * 60 : ℚ) = 1440 := by norm_num
  rw [h1440] at h
  rw [sumTimeDelta, normalizeMinutes, h1440]
  exact h

theorem sumTimeDelta_int {a b : ℚ} (ha : ∃ k : ℤ, a = k) (hb : ∃ k : ℤ, b * 60 = k) :
    ∃ k : ℤ, sumTimeDelta a b = k := by
  rw [sumTimeDelta, normalizeMinutes]
  obtain ⟨i, hi⟩ := ha
  obtain ⟨j, hj⟩ := hb
  exact mod_int ⟨i + j, by rw [hi]; push_cast; rw [← hj]⟩ ⟨1440, by norm_num⟩

/-- What a successful `mkSetup` guarantees about the produced `Setup`: the
CBTmin state is built by `CBTmin.make` from the (normalized) sleep-end
clocks, the four sleep clocks are normalized minutes, the no-intervention
window (when present) is the travel window, and whole-minute UTC offsets
put the CBTmin state on the minute grid. -/
theorem mkSetup_ok_shape (inputs : JetLagInputs) (st : Setup)
    (h : mkSetup inputs = .ok st) :
    st.cbt = CBTmin.make (sumTimeDelta st.originSleepEndUtc (-3))
        (sumTimeDelta st.destinationSleepEndUtc (-3)) ∧
      (0 ≤ st.originSleepStartUtc ∧ st.originSleepStartUtc < 1440) ∧
      (0 ≤ st.originSleepEndUtc ∧ st.originSleepEndUtc < 1440) ∧
      (0 ≤ st.destinationSleepStartUtc ∧ st.destinationSleepStartUtc < 1440) ∧
      (0 ≤ st.destinationSleepEndUtc ∧ st.destinationSleepEndUtc < 1440) ∧
      (st.noInterventionWindow = none ∨
        st.noInterventionWindow = some (st.travelStartUtc, st.travelEndUtc)) ∧
      ((∃ k : ℤ, inputs.originOffset * 60 = k) →
        (∃ k : ℤ, inputs.destOffset * 60 = k) → MinuteGrid st.cbt) := by
  rcases h1 : parseHHMM inputs.originSleepStart with e1 | oss
  · simp only [mkSetup, h1] at h; exact Except.noConfusion h
  rcases h2 : parseHHMM inputs.originSleepEnd with e2 | ose
  · simp only [mkSetup, h1, h2] at h; exact Except.noConfusion h
  rcases h3 : parseHHMM inputs.destSleepStart with e3 | dss
  · simp only [mkSetup, h1, h2, h3] at h; exact Except.noConfusion h
  rcases h4 : parseHHMM inputs.destSleepEnd with e4 | dse
  · simp only [mkSetup, h1, h2, h3, h4] at h; exact Except.noConfusion h
  rcases h5 : parseLocalDateTime inputs.travelStart with e5 | ts
  · simp only [mkSetup, h1, h2, h3, h4, h5] at h; exact Except.noConfusion h
  rcases h6 : parseLocalDateTime inputs.travelEnd with e6 | te
  · simp only [mkSetup, h1, h2, h3, h4, h5, h6] at h; exact Except.noConfusion h
  simp only [mkSetup, h1, h2, h3, h4, h5, h6] at h
  split at h
  · exact Except.noConfusion h
  split at h
  · exact Except.noConfusion h
  injection h with h
  subst h
  refine ⟨rfl, sumTimeDelta_bounds _ _, sumTimeDelta_bounds _ _,
    sumTimeDelta_bounds _ _, sumTimeDelta_bounds _ _, ?_, ?_⟩
  · by_cases hmode : modeOf inputs = "travel_start" ∨ modeOf inputs = "precondition_with_travel"
    · left
      simp only [if_pos hmode]
    · right
      simp only [if_neg hmode]
  · intro ho hd
    obtain ⟨ko, hko⟩ := ho
    obtain ⟨kd, hkd⟩ := hd
    constructor
    · exact sumTimeDelta_int
        (sumTimeDelta_int (parseHHMM_int h2) ⟨-ko, by rw [neg_mul, hko]; push_cast; ring⟩)
        ⟨-180, by norm_num⟩
    · exact sumTimeDelta_int
        (sumTimeDelta_int (parseHHMM_int h4) ⟨-kd, by rw [neg_mul, hkd]; push_cast; ring⟩)
        ⟨-180, by norm_num⟩

end JetLag

namespace JetLag

/-- **C3.**  For every input accepted by `createJetLagTimetable`'s
validation, the sequence of `abs (signedDifference)` values observed across
the convergence loop's iterations (one value per appended `CBTEntry`,
starting from the initial state) is non-increasing: each iteration's shift
is capped at the remaining absolute difference and applied with the
direction sign, so the absolute difference never increases mid-run. -/
theorem claim3_abs_diff_nonincreasing (inputs : JetLagInputs) (st : Setup)
    (fuel extra : ℕ) (t : ℚ) (res : CBTmin × List (CBTmin × CBTEntry))
    (hst : mkSetup inputs = .ok st)
    (hloop : convergenceLoop (ctxOf inputs st) fuel st.cbt t extra = some res) :
    List.Chain (fun a b : CBTmin => |b.signedDifference| ≤ |a.signedDifference|)
      st.cbt (res.2.map Prod.fst) := by
  have hshape := mkSetup_ok_shape inputs st hst
  have hsign : SignInv st.cbt := by rw [hshape.1]; exact SignInv_make _ _
  exact convergenceLoop_chain (ctxOf inputs st) fuel st.cbt t extra res hsign hloop

theorem claim3_witness :
    List.Chain (fun a b : CBTmin => |b.signedDifference| ≤ |a.signedDifference|)
      stD.cbt (loopOutD.map Prod.fst) :=
  claim3_abs_diff_nonincreasing inpDelay stD 25 0 1757304000000 (cbtD 720, loopOutD)
    mkSetup_D (by rw [ctx_D_eq, stD_cbt]; exact loop_D_0)

end JetLag

namespace JetLag

/-! ## Termination of the convergence loop

The measure is the number of zero-shift days still possible (the cursor
must pass `H` for the travel window, the precondition rule and `skipShift`
to all become inert), plus the number of shifting days left, plus the
missing stabilization iterations. -/

theorem cHour_pos : (0 : ℚ) < 45 / 2 * MS_HOUR := by
  norm_num [MS_HOUR, MS_MINUTE]

/-- Iterations the cursor can still spend before passing `H`, at the
minimal per-iteration advance of 22.5 hours. -/
def phase1 (H t : ℚ) : ℕ := (⌈(H - t) / (45 / 2 * MS_HOUR)⌉).toNat

/-- Iterations the difference can still absorb (each effective shifting
iteration removes at least `min 1 |signedDifference|` hours). -/
def shiftsLeft (s : CBTmin) : ℕ := (⌈|s.signedDifference|⌉).toNat

/-- The termination measure of the convergence loop. -/
def loopMeasure (H : ℚ) (s : CBTmin) (t : ℚ) (extra : ℕ) : ℕ :=
  phase1 H t + shiftsLeft s + (2 - min extra 2)

theorem phase1_mono (H : ℚ) {t t' : ℚ} (h : t ≤ t') : phase1 H t' ≤ phase1 H t := by
  apply Int.toNat_le_toNat
  apply Int.ceil_mono
  rw [div_le_div_iff cHour_pos cHour_pos]
  nlinarith [cHour_pos]

theorem phase1_day_step {H t t' : ℚ} (h : t < H)
    (ht' : t + MS_DAY - 3/2 * MS_HOUR ≤ t') : phase1 H t' + 1 ≤ phase1 H t := by
  have hc := cHour_pos
  have hD : MS_DAY = 24 * MS_HOUR := rfl
  have hstep : (H - t') / (45 / 2 * MS_HOUR) ≤ (H - t) / (45 / 2 * MS_HOUR) - 1 := by
    rw [le_sub_iff_add_le, show (H - t') / (45 / 2 * MS_HOUR) + 1
        = ((H - t') + 45 / 2 * MS_HOUR) / (45 / 2 * MS_HOUR) by
      rw [add_div, div_self (ne_of_gt hc)], div_le_div_iff hc hc]
    nlinarith [hc]
  have h2 : ⌈(H - t') / (45 / 2 * MS_HOUR)⌉ ≤ ⌈(H - t) / (45 / 2 * MS_HOUR)⌉ - 1 := by
    have h3 := Int.ceil_mono hstep
    rwa [show (H - t) / (45 / 2 * MS_HOUR) - 1
        = (H - t) / (45 / 2 * MS_HOUR) - ((1 : ℤ) : ℚ) by push_cast; ring,
      Int.ceil_sub_int] at h3
  have h4 : 1 ≤ ⌈(H - t) / (45 / 2 * MS_HOUR)⌉ :=
    Int.ceil_pos.mpr (div_pos (by linarith) hc)
  simp only [phase1]
  omega

theorem shiftsLeft_mono {s s' : CBTmin}
    (h : |s'.signedDifference| ≤ |s.signedDifference|) : shiftsLeft s' ≤ shiftsLeft s :=
  Int.toNat_le_toNat (Int.ceil_mono h)

theorem shiftsLeft_pos {s : CBTmin} (h : 0 < |s.signedDifference|) : 1 ≤ shiftsLeft s := by
  have h1 : 0 < ⌈|s.signedDifference|⌉ := Int.ceil_pos.mpr h
  simp only [shiftsLeft]
  omega

theorem shiftsLeft_drop {s s' : CBTmin}
    (h : |s'.signedDifference| ≤ |s.signedDifference| - 1) :
    shiftsLeft s' + 1 ≤ shiftsLeft s := by
  have h2 : ⌈|s'.signedDifference|⌉ ≤ ⌈|s.signedDifference|⌉ - 1 := by
    have h3 := Int.ceil_mono h
    rwa [show |s.signedDifference| - 1 = |s.signedDifference| - ((1 : ℤ) : ℚ) by
      push_cast; ring, Int.ceil_sub_int] at h3
  have h0 : 0 ≤ ⌈|s'.signedDifference|⌉ := Int.ceil_nonneg (abs_nonneg _)
  simp only [shiftsLeft]
  omega

/-- A zero `deltaCbtmin` only happens on a precondition day. -/
theorem deltaCbtmin_zero {s : CBTmin} {m e l p : Bool}
    (h : s.deltaCbtmin m e l p = 0) : p = true := by
  rw [CBTmin.deltaCbtmin] at h
  split at h <;> split at h <;> split at h <;>
    first
    | assumption
    | exact absurd h (by norm_num)

theorem intersectionHours_pos {i1 i2 : Interval} (h : 0 < intersectionHours i1 i2) :
    max i1.1 i2.1 < min i1.2 i2.2 := by
  rw [intersectionHours] at h
  split at h
  · exact absurd h (by norm_num)
  · exact not_le.mp (by assumption)

/-- The inner capped delta being zero forces a zero difference or a
precondition day. -/
theorem loopDelta_inner_zero (s : CBTmin) (time : ℚ) (o : CBTmin.NextOptions)
    (h : (if |s.signedDifference| < max (s.deltaCbtmin (s.suppressedFlags time o).1
          (s.suppressedFlags time o).2.1 ((s.suppressedFlags time o).2.2.1 ||
          (s.suppressedFlags time o).2.2.2) o.precondition) 0 then |s.signedDifference|
        else max (s.deltaCbtmin (s.suppressedFlags time o).1 (s.suppressedFlags time o).2.1
          ((s.suppressedFlags time o).2.2.1 || (s.suppressedFlags time o).2.2.2)
          o.precondition) 0) = 0) :
    |s.signedDifference| = 0 ∨ o.precondition = true := by
  split at h
  · exact Or.inl h
  · right
    rcases deltaCbtmin_mem s (s.suppressedFlags time o).1 (s.suppressedFlags time o).2.1
        ((s.suppressedFlags time o).2.2.1 || (s.suppressedFlags time o).2.2.2)
        o.precondition with h0 | h0 | h0
    · exact deltaCbtmin_zero h0
    · rw [h0, max_eq_left (by norm_num : (0 : ℚ) ≤ 1)] at h
      exact absurd h one_ne_zero
    · rw [h0, max_eq_left (by norm_num : (0 : ℚ) ≤ 3/2)] at h
      exact absurd h (by norm_num)

/-- The causes of a zero `loopDelta`: the pre-dawn window meets the
no-intervention window, the difference is already zero, or it is a
precondition day. -/
theorem loopDelta_zero_cases (s : CBTmin) (time : ℚ) (o : CBTmin.NextOptions)
    (h : s.loopDelta time o = 0) :
    (∃ w, o.noInterventionWindow = some w ∧
        0 < intersectionHours (addHours (s.naiveNext time) (-8), s.naiveNext time) w) ∨
      |s.signedDifference| = 0 ∨ o.precondition = true := by
  simp only [CBTmin.loopDelta] at h
  rcases hw : o.noInterventionWindow with _ | w <;> simp only [hw] at h
  · exact Or.inr (loopDelta_inner_zero s time o h)
  · split at h
    · exact Or.inl ⟨w, rfl, by assumption⟩
    · exact Or.inr (loopDelta_inner_zero s time o h)

end JetLag

namespace JetLag

/-- If an iteration with a nonzero difference applies less than
`min 1 |signedDifference|`, it applied nothing at all, and the cursor is
still before the horizon `H`. -/
theorem appliedDelta_small_cursor (ctx : LoopCtx) (H : ℚ) (s : CBTmin) (t : ℚ)
    (hsos : ctx.startOfShift ≤ H) (hts : ctx.travelStartUtc ≤ H)
    (hwin : ∀ w, ctx.noInterventionWindow = some w → addHours w.2 8 ≤ H)
    (hclock : clockOf t = s.cbtmin)
    (hsd : s.signedDifference ≠ 0)
    (hsign : SignInv s)
    (hsmall : appliedDelta s t (loopOptions ctx t) < min 1 |s.signedDifference|) :
    t < H ∧ appliedDelta s t (loopOptions ctx t) = 0 := by
  have hHpos : (0 : ℚ) < MS_HOUR := by norm_num [MS_HOUR, MS_MINUTE]
  have hD : MS_DAY = 24 * MS_HOUR := rfl
  by_cases hc : s.loopDelta t (loopOptions ctx t) = 0 ∨ s.phase_direction = .aligned ∨
      (loopOptions ctx t).skipShift
  · refine ⟨?_, by rw [appliedDelta, if_pos hc]⟩
    rcases hc with h0 | hal | hsk
    · rcases loopDelta_zero_cases s t (loopOptions ctx t) h0 with
        ⟨w, hw, hover⟩ | habs0 | hprec
      · have hwH : addHours w.2 8 ≤ H := hwin w hw
        have hlt := intersectionHours_pos hover
        have h1 : addHours (s.naiveNext t) (-8) < w.2 :=
          lt_of_le_of_lt (le_max_left _ _) (lt_of_lt_of_le hlt (min_le_right _ _))
        rw [naiveNext_of_clock hclock] at h1
        rw [addHours] at h1 hwH
        linarith
      · exact absurd (abs_eq_zero.mp habs0) hsd
      · have hp : isPreconditionFor ctx t = true := hprec
        rw [isPreconditionFor] at hp
        simp only [Bool.and_eq_true, decide_eq_true_eq] at hp
        linarith [hp.2]
    · exact absurd (hsign.2.2 hal) hsd
    · have hs' : decide (t < ctx.startOfShift) = true := hsk
      linarith [of_decide_eq_true hs']
  · exfalso
    have hae : appliedDelta s t (loopOptions ctx t) = s.loopDelta t (loopOptions ctx t) := by
      rw [appliedDelta, if_neg hc]
    rw [hae] at hsmall
    push_neg at hc
    rcases loopDelta_cases s t (loopOptions ctx t) with h | h | h | h
    · exact hc.1 h
    · rw [h] at hsmall
      exact absurd hsmall (not_lt.mpr (min_le_right _ _))
    · rw [h] at hsmall
      linarith [min_le_left 1 |s.signedDifference|]
    · rw [h] at hsmall
      linarith [min_le_left 1 |s.signedDifference|]

/-- With enough fuel (as measured by `loopMeasure`), the convergence loop
returns, and the final state's signed difference is exactly zero. -/
theorem convergenceLoop_terminates (ctx : LoopCtx) (H : ℚ)
    (hsos : ctx.startOfShift ≤ H) (hts : ctx.travelStartUtc ≤ H)
    (hwin : ∀ w, ctx.noInterventionWindow = some w → addHours w.2 8 ≤ H) :
    ∀ (fuel : ℕ) (s : CBTmin) (t : ℚ) (extra : ℕ),
      SignInv s → MinuteGrid s → clockOf t = s.cbtmin →
      loopMeasure H s t extra < fuel →
      ∃ c l, convergenceLoop ctx fuel s t extra = some (c, l) ∧
        c.signedDifference = 0 := by
  intro fuel
  induction fuel with
  | zero => intro s t extra _ _ _ hm; exact absurd hm (by omega)
  | succ n ih =>
    intro s t extra hsign hgrid hclock hm
    by_cases hcond : EPSILON < |s.signedDifference| ∨ extra < 2
    · obtain ⟨hsd_eq, hsign', hdir'⟩ := nextCbtmin_sd_step s t (loopOptions ctx t) hsign
      have hgrid' := nextCbtmin_grid s t (loopOptions ctx t) hgrid
      have hclock' := nextCbtmin_clock s t (loopOptions ctx t) hclock
      obtain ⟨hΔ0, hΔabs, hΔcap⟩ := appliedDelta_bounds s t (loopOptions ctx t)
      obtain ⟨htlo, hthi⟩ := nextCbtmin_time_bounds s t (loopOptions ctx t) hclock
      have hHpos : (0 : ℚ) < MS_HOUR := by norm_num [MS_HOUR, MS_MINUTE]
      have hDpos : MS_DAY = 24 * MS_HOUR := rfl
      have hphase_mono : phase1 H (s.nextCbtmin t (loopOptions ctx t)).2.time ≤ phase1 H t :=
        phase1_mono H (by linarith)
      have hshift_mono : shiftsLeft (s.nextCbtmin t (loopOptions ctx t)).1 ≤ shiftsLeft s :=
        shiftsLeft_mono (by rw [hsd_eq]; linarith)
      have hdec : loopMeasure H (s.nextCbtmin t (loopOptions ctx t)).1
          (s.nextCbtmin t (loopOptions ctx t)).2.time
          (if |s.signedDifference| < EPSILON then extra + 1 else extra)
          < loopMeasure H s t extra := by
        by_cases hbig : EPSILON < |s.signedDifference|
        · have hne : s.signedDifference ≠ 0 := by
            intro h0
            rw [h0] at hbig
            norm_num [EPSILON] at hbig
          rw [if_neg (by push_neg; linarith)]
          by_cases hB : min 1 |s.signedDifference| ≤ appliedDelta s t (loopOptions ctx t)
          · have hd : shiftsLeft (s.nextCbtmin t (loopOptions ctx t)).1 + 1 ≤ shiftsLeft s := by
              rcases le_or_lt 1 |s.signedDifference| with hge | hlt
              · refine shiftsLeft_drop ?_
                rw [hsd_eq]
                have hmin : min 1 |s.signedDifference| = 1 := min_eq_left hge
                rw [hmin] at hB
                linarith
              · have hmin : min 1 |s.signedDifference| = |s.signedDifference| :=
                  min_eq_right (le_of_lt hlt)
                rw [hmin] at hB
                have hΔeq : appliedDelta s t (loopOptions ctx t) = |s.signedDifference| :=
                  le_antisymm hΔabs hB
                have hzero' : |(s.nextCbtmin t (loopOptions ctx t)).1.signedDifference| = 0 := by
                  rw [hsd_eq, hΔeq]
                  ring
                have h1 : shiftsLeft (s.nextCbtmin t (loopOptions ctx t)).1 = 0 := by
                  simp only [shiftsLeft, hzero']
                  simp
                have h2 : 1 ≤ shiftsLeft s := shiftsLeft_pos (abs_pos.mpr hne)
                omega
            simp only [loopMeasure]
            omega
          · push_neg at hB
            obtain ⟨htH, _⟩ :=
              appliedDelta_small_cursor ctx H s t hsos hts hwin hclock hne hsign hB
            have hpd : phase1 H (s.nextCbtmin t (loopOptions ctx t)).2.time + 1 ≤ phase1 H t :=
              phase1_day_step htH htlo
            simp only [loopMeasure]
            omega
        · have hzero0 : s.signedDifference = 0 :=
            grid_eps (signedDifference_grid s hgrid) (not_lt.mp hbig)
          have hextra2 : extra < 2 := hcond.resolve_left hbig
          rw [if_pos (by rw [hzero0]; norm_num [EPSILON])]
          have hme : min extra 2 = extra := min_eq_left (by omega)
          have hme' : min (extra + 1) 2 = extra + 1 := min_eq_left (by omega)
          simp only [loopMeasure, hme, hme']
          omega
      obtain ⟨c, l, hrec, hzero⟩ := ih (s.nextCbtmin t (loopOptions ctx t)).1
        (s.nextCbtmin t (loopOptions ctx t)).2.time
        (if |s.signedDifference| < EPSILON then extra + 1 else extra)
        hsign' hgrid' hclock' (by omega)
      exact ⟨c, ((s.nextCbtmin t (loopOptions ctx t)).1,
          (s.nextCbtmin t (loopOptions ctx t)).2) :: l,
        convergenceLoop_cons ctx n s t extra _ _ _ (c, l) hcond rfl rfl hrec, hzero⟩
    · refine ⟨s, [], convergenceLoop_stop ctx n s t extra hcond, ?_⟩
      rw [not_or, not_lt] at hcond
      exact grid_eps (signedDifference_grid s hgrid) hcond.1

end JetLag

namespace JetLag

/-! ## Termination of the sleep-window loop -/

/-- The candidate interval `nextInterval` computes before filtering. -/
def seOf (t : ℚ) (w : ℚ × ℚ) : Interval :=
  let startDt0 := combineDateMinutes t w.1
  let endDt0 := combineDateMinutes t w.2
  let endDt1 := if endDt0 ≤ startDt0 then addDays endDt0 1 else endDt0
  if startDt0 ≤ t then
    if t < endDt1 then (t, endDt1)
    else (addDays startDt0 1, addDays endDt1 1)
  else (startDt0, endDt1)

theorem nextInterval_eq (t : ℚ) (w : ℚ × ℚ) (f : Option Interval) :
    nextInterval t w f =
      match f with
      | some fw => if 0 < intersectionHours (seOf t w) fw then none else some (seOf t w)
      | none => some (seOf t w) := rfl

theorem nextInterval_some {t : ℚ} {w : ℚ × ℚ} {f : Option Interval} {se : Interval}
    (h : nextInterval t w f = some se) : se = seOf t w := by
  rw [nextInterval_eq] at h
  rcases f with _ | fw <;> simp only [] at h
  · injection h with h
    exact h.symm
  · split at h
    · exact Option.noConfusion h
    · injection h with h
      exact h.symm

theorem combineDateMinutes_bounds (t : ℚ) {c : ℚ} (h0 : 0 ≤ c) (h1 : c < 1440) :
    midnightForDatetime t ≤ combineDateMinutes t c ∧
      combineDateMinutes t c < midnightForDatetime t + MS_DAY := by
  have hday : (1440 : ℚ) * MS_MINUTE = MS_DAY := by norm_num [MS_DAY, MS_HOUR, MS_MINUTE]
  rw [combineDateMinutes]
  constructor
  · nlinarith [MS_MINUTE_pos]
  · nlinarith [MS_MINUTE_pos]

/-- The candidate's end lies in `(t, t + 2 days]` and shows the window's end
minute on the wall clock. -/
theorem seOf_end_facts (t : ℚ) (w : ℚ × ℚ) (h1 : 0 ≤ w.1) (h2 : w.1 < 1440)
    (h3 : 0 ≤ w.2) (h4 : w.2 < 1440) :
    t < (seOf t w).2 ∧ (seOf t w).2 ≤ t + 2 * MS_DAY ∧ clockOf (seOf t w).2 = w.2 := by
  have hM1 := midnightForDatetime_le t
  have hM2 := lt_midnightForDatetime_add t
  obtain ⟨hA1, hA2⟩ := combineDateMinutes_bounds t h1 h2
  obtain ⟨hB1, hB2⟩ := combineDateMinutes_bounds t h3 h4
  have hclk2 : clockOf (combineDateMinutes t w.2) = w.2 := clockOf_combineDateMinutes t h3 h4
  have hDpos := MS_DAY_pos
  have hsnd : (seOf t w).2 =
      if combineDateMinutes t w.1 ≤ t then
        (if t < (if combineDateMinutes t w.2 ≤ combineDateMinutes t w.1
                 then combineDateMinutes t w.2 + MS_DAY else combineDateMinutes t w.2)
         then (if combineDateMinutes t w.2 ≤ combineDateMinutes t w.1
               then combineDateMinutes t w.2 + MS_DAY else combineDateMinutes t w.2)
         else (if combineDateMinutes t w.2 ≤ combineDateMinutes t w.1
               then combineDateMinutes t w.2 + MS_DAY else combineDateMinutes t w.2) + MS_DAY)
      else (if combineDateMinutes t w.2 ≤ combineDateMinutes t w.1
            then combineDateMinutes t w.2 + MS_DAY else combineDateMinutes t w.2) := by
    simp only [seOf, apply_ite Prod.snd, addDays, one_mul]
  rw [hsnd]
  have hc1 : clockOf (combineDateMinutes t w.2 + MS_DAY) = w.2 := by
    rw [clockOf_add_day]; exact hclk2
  have hc2 : clockOf (combineDateMinutes t w.2 + MS_DAY + MS_DAY) = w.2 := by
    rw [clockOf_add_day, clockOf_add_day]; exact hclk2
  by_cases hwrap : combineDateMinutes t w.2 ≤ combineDateMinutes t w.1
  · rw [if_pos hwrap]
    split
    · split
      · exact ⟨by assumption, by linarith, hc1⟩
      · rename_i hA hnlt
        push_neg at hnlt
        exact ⟨by linarith, by linarith, hc2⟩
    · rename_i hA
      push_neg at hA
      exact ⟨by linarith, by linarith, hc1⟩
  · rw [if_neg hwrap]
    split
    · split
      · exact ⟨by assumption, by linarith, hclk2⟩
      · rename_i hA hnlt
        push_neg at hnlt
        exact ⟨by linarith, by linarith, hc1⟩
    · rename_i hA
      push_neg at hA
      exact ⟨by linarith [not_le.mp hwrap], by linarith, hclk2⟩

/-- From a cursor aligned to the window's end minute, the candidate's end is
exactly one day later. -/
theorem seOf_end_aligned (t : ℚ) (w : ℚ × ℚ) (halign : clockOf t = w.2) :
    (seOf t w).2 = t + MS_DAY := by
  have hE : combineDateMinutes t w.2 = t := combineDateMinutes_eq_self halign
  have hDpos := MS_DAY_pos
  simp only [seOf, hE]
  by_cases hwrap : t ≤ combineDateMinutes t w.1
  · rw [if_pos hwrap]
    split
    · rw [if_pos (by rw [addDays, one_mul]; linarith)]
      rw [addDays, one_mul]
    · rw [addDays, one_mul]
  · rw [if_neg (not_le.mpr (not_le.mp hwrap))]
    rw [if_pos (le_of_lt (not_le.mp hwrap))]
    rw [if_neg (lt_irrefl t), addDays, one_mul, addDays, one_mul]

end JetLag

namespace JetLag

/-- The cursor is aligned when its wall clock shows the end minute of the
currently active sleep schedule. -/
def sleepAligned (ow dw : ℚ × ℚ) (t : ℚ) (sd : Bool) : Prop :=
  clockOf t = (if sd then dw.2 else ow.2)

instance (ow dw : ℚ × ℚ) (t : ℚ) (sd : Bool) : Decidable (sleepAligned ow dw t sd) := by
  unfold sleepAligned
  infer_instance

/-- The facts one `sleepStep` guarantees: the cursor strictly advances, the
schedule flag never reverts, a skip advances exactly one day, a push leaves
the cursor aligned to the new schedule, and a push from an aligned cursor
(without a schedule switch) advances exactly one day. -/
theorem sleepStep_facts (ow dw : ℚ × ℚ) (tr : Interval) (t : ℚ) (sd : Bool)
    (how1 : 0 ≤ ow.1) (how2 : ow.1 < 1440) (how3 : 0 ≤ ow.2) (how4 : ow.2 < 1440)
    (hdw1 : 0 ≤ dw.1) (hdw2 : dw.1 < 1440) (hdw3 : 0 ≤ dw.2) (hdw4 : dw.2 < 1440)
    (res : Option Interval) (t' : ℚ) (sd' : Bool)
    (h : sleepStep ow dw tr t sd = (res, t', sd')) :
    t < t' ∧
      (sd = true → sd' = true) ∧
      (res = none → t' = addDays t 1) ∧
      (∀ u, res = some u → sleepAligned ow dw t' sd') ∧
      (∀ u, res = some u → sd' = sd → sleepAligned ow dw t sd → t' = addDays t 1) := by
  have hDpos := MS_DAY_pos
  have hadd : ∀ x : ℚ, addDays x 1 = x + MS_DAY := by
    intro x
    rw [addDays, one_mul]
  cases sd
  · rw [sleepStep] at h
    simp only [Bool.false_eq_true, if_false] at h
    rcases hni : nextInterval t ow (some tr) with _ | se <;> simp only [hni] at h
    · simp only [Prod.mk.injEq] at h
      obtain ⟨h1, h2, h3⟩ := h
      subst h1; subst h2; subst h3
      refine ⟨by rw [hadd]; linarith, fun hh => Bool.noConfusion hh, fun _ => rfl,
        fun u hu => Option.noConfusion hu, fun u hu => Option.noConfusion hu⟩
    · have hse := nextInterval_some hni
      subst hse
      split at h
      · rcases hnd : nextInterval t dw (some tr) with _ | seD <;> rw [hnd] at h <;>
          simp only [Prod.mk.injEq] at h
        · obtain ⟨h1, h2, h3⟩ := h
          subst h1; subst h2; subst h3
          refine ⟨by rw [hadd]; linarith, fun _ => rfl, fun _ => rfl,
            fun u hu => Option.noConfusion hu, fun u hu => Option.noConfusion hu⟩
        · have hseD := nextInterval_some hnd
          subst hseD
          obtain ⟨h1, h2, h3⟩ := h
          subst h1; subst h2; subst h3
          obtain ⟨hf1, _, hf3⟩ := seOf_end_facts t dw hdw1 hdw2 hdw3 hdw4
          refine ⟨hf1, fun _ => rfl, fun hh => Option.noConfusion hh,
            fun u _ => ?_, fun u _ hh => Bool.noConfusion hh⟩
          rw [sleepAligned, if_pos rfl]
          exact hf3
      · simp only [Prod.mk.injEq] at h
        obtain ⟨h1, h2, h3⟩ := h
        subst h1; subst h2; subst h3
        obtain ⟨hf1, _, hf3⟩ := seOf_end_facts t ow how1 how2 how3 how4
        refine ⟨hf1, fun hh => Bool.noConfusion hh, fun hh => Option.noConfusion hh,
          fun u _ => ?_, fun u _ _ hal => ?_⟩
        · rw [sleepAligned, if_neg (by intro hh; exact Bool.noConfusion hh)]
          exact hf3
        · rw [sleepAligned, if_neg (by intro hh; exact Bool.noConfusion hh)] at hal
          rw [hadd]
          exact seOf_end_aligned t ow hal
  · rw [sleepStep] at h
    simp only [if_true] at h
    rcases hni : nextInterval t dw (some tr) with _ | se <;>
      simp only [hni, Prod.mk.injEq] at h
    · obtain ⟨h1, h2, h3⟩ := h
      subst h1; subst h2; subst h3
      refine ⟨by rw [hadd]; linarith, fun _ => rfl, fun _ => rfl,
        fun u hu => Option.noConfusion hu, fun u hu => Option.noConfusion hu⟩
    · have hse := nextInterval_some hni
      subst hse
      obtain ⟨h1, h2, h3⟩ := h
      subst h1; subst h2; subst h3
      obtain ⟨hf1, _, hf3⟩ := seOf_end_facts t dw hdw1 hdw2 hdw3 hdw4
      refine ⟨hf1, fun _ => rfl, fun hh => Option.noConfusion hh,
        fun u _ => ?_, fun u _ _ hal => ?_⟩
      · rw [sleepAligned, if_pos rfl]
        exact hf3
      · rw [sleepAligned, if_pos rfl] at hal
        rw [hadd]
        exact seOf_end_aligned t dw hal

end JetLag

namespace JetLag

/-- Days (rounded up) from `0` to `q` milliseconds. -/
def dayCeil (q : ℚ) : ℕ := (⌈q / MS_DAY⌉).toNat

theorem dayCeil_mono {q q' : ℚ} (h : q' ≤ q) : dayCeil q' ≤ dayCeil q := by
  apply Int.toNat_le_toNat
  apply Int.ceil_mono
  rw [div_le_div_iff MS_DAY_pos MS_DAY_pos]
  nlinarith [MS_DAY_pos]

theorem dayCeil_pos {q : ℚ} (h : 0 < q) : 1 ≤ dayCeil q := by
  have h1 : 0 < ⌈q / MS_DAY⌉ := Int.ceil_pos.mpr (div_pos h MS_DAY_pos)
  simp only [dayCeil]
  omega

theorem dayCeil_drop {q : ℚ} (h : 0 < q) : dayCeil (q - MS_DAY) + 1 ≤ dayCeil q := by
  have h1 : (q - MS_DAY) / MS_DAY = q / MS_DAY - 1 := by
    rw [sub_div, div_self (ne_of_gt MS_DAY_pos)]
  have h2 : ⌈(q - MS_DAY) / MS_DAY⌉ = ⌈q / MS_DAY⌉ - 1 := by
    rw [h1, show q / MS_DAY - 1 = q / MS_DAY - ((1 : ℤ) : ℚ) by push_cast; ring,
      Int.ceil_sub_int]
  have h3 : 0 < ⌈q / MS_DAY⌉ := Int.ceil_pos.mpr (div_pos h MS_DAY_pos)
  simp only [dayCeil, h2]
  omega

/-- With enough fuel (two iterations per day of span, plus slack for the
initial alignment and the single schedule switch), the sleep loop returns. -/
theorem sleepLoop_terminates (ow dw : ℚ × ℚ) (tr : Interval) (mEnd : ℚ)
    (how1 : 0 ≤ ow.1) (how2 : ow.1 < 1440) (how3 : 0 ≤ ow.2) (how4 : ow.2 < 1440)
    (hdw1 : 0 ≤ dw.1) (hdw2 : dw.1 < 1440) (hdw3 : 0 ≤ dw.2) (hdw4 : dw.2 < 1440) :
    ∀ (fuel : ℕ) (t : ℚ) (sd : Bool),
      2 * dayCeil (mEnd - t) + (if sleepAligned ow dw t sd then 0 else 1) +
          (if sd then 0 else 2) + 1 ≤ fuel →
      ∃ l, sleepLoop ow dw tr mEnd fuel t sd = some l := by
  intro fuel
  induction fuel with
  | zero => intro t sd hf; exact absurd hf (by omega)
  | succ n ih =>
    intro t sd hfuel
    by_cases hstop : t < mEnd
    · rcases hss : sleepStep ow dw tr t sd with ⟨res, t', sd'⟩
      obtain ⟨hF1, hF3, hF4, hF5, hF6⟩ := sleepStep_facts ow dw tr t sd
        how1 how2 how3 how4 hdw1 hdw2 hdw3 hdw4 res t' sd' hss
      have hadd : ∀ x : ℚ, addDays x 1 = x + MS_DAY := by
        intro x
        rw [addDays, one_mul]
      have hD1 : 1 ≤ dayCeil (mEnd - t) := dayCeil_pos (by linarith)
      have hDmono : dayCeil (mEnd - t') ≤ dayCeil (mEnd - t) := dayCeil_mono (by linarith)
      have hdropOf : t' = addDays t 1 → dayCeil (mEnd - t') + 1 ≤ dayCeil (mEnd - t) := by
        intro ht'
        rw [ht', hadd, show mEnd - (t + MS_DAY) = mEnd - t - MS_DAY by ring]
        exact dayCeil_drop (by linarith)
      have ha0 : (0:ℕ) ≤ 1 := by omega
      have hrec : ∃ l, sleepLoop ow dw tr mEnd n t' sd' = some l := by
        apply ih
        have hb1 : (if sleepAligned ow dw t' sd' then 0 else 1) ≤ 1 := by split <;> omega
        have hb2 : (if sleepAligned ow dw t sd then 0 else 1) ≤ 1 := by split <;> omega
        rcases res with _ | u
        · have ht' := hF4 rfl
          have hdrop := hdropOf ht'
          by_cases hsd' : sd' = sd
          · have hal_eq : (if sleepAligned ow dw t' sd' then (0:ℕ) else 1)
                = (if sleepAligned ow dw t sd then 0 else 1) := by
              have hiff : sleepAligned ow dw t' sd' ↔ sleepAligned ow dw t sd := by
                rw [ht', hadd, sleepAligned, sleepAligned, clockOf_add_day, hsd']
              by_cases hA : sleepAligned ow dw t sd
              · rw [if_pos (hiff.mpr hA), if_pos hA]
              · rw [if_neg (fun hh => hA (hiff.mp hh)), if_neg hA]
            rw [hal_eq, hsd']
            omega
          · have hsdf : sd = false := by
              cases sd
              · rfl
              · exact absurd (hF3 rfl) (by simpa using hsd')
            have hsdt : sd' = true := by
              cases sd'
              · exact absurd hsdf (fun hh => hsd' (hh ▸ rfl))
              · rfl
            subst hsdf
            subst hsdt
            simp only [Bool.false_eq_true, eq_self_iff_true, if_true, if_false] at hfuel ⊢
            omega
        · have hal' : sleepAligned ow dw t' sd' := hF5 u rfl
          rw [if_pos hal']
          by_cases hsd' : sd' = sd
          · by_cases hA : sleepAligned ow dw t sd
            · have hdrop := hdropOf (hF6 u rfl hsd' hA)
              rw [if_pos hA] at hfuel
              rw [hsd']
              omega
            · rw [if_neg hA] at hfuel
              rw [hsd']
              omega
          · have hsdf : sd = false := by
              cases sd
              · rfl
              · exact absurd (hF3 rfl) (by simpa using hsd')
            have hsdt : sd' = true := by
              cases sd'
              · exact absurd hsdf (fun hh => hsd' (hh ▸ rfl))
              · rfl
            subst hsdf
            subst hsdt
            simp only [Bool.false_eq_true, eq_self_iff_true, if_true, if_false] at hfuel ⊢
            omega
      obtain ⟨l, hl⟩ := hrec
      rcases res with _ | u
      · exact ⟨l, by rw [sleepLoop_skip ow dw tr mEnd n t t' sd sd' hstop hss]; exact hl⟩
      · exact ⟨u :: l, sleepLoop_push ow dw tr mEnd n t t' sd sd' u l hstop hss hl⟩
    · exact ⟨[], sleepLoop_stop ow dw tr mEnd n t sd hstop⟩

end JetLag

namespace JetLag

/-- The validity assumptions of the termination claims: the input passes
`createJetLagTimetable`'s own validation, and the UTC offsets are whole
minutes (as all real-world UTC offsets are). -/
def ValidInputs (inputs : JetLagInputs) : Prop :=
  (∃ st, mkSetup inputs = .ok st) ∧
    (∃ k : ℤ, inputs.originOffset * 60 = k) ∧ (∃ k : ℤ, inputs.destOffset * 60 = k)

/-- The seed call runs with `skipShift` set, so the first CBTmin is the
naive next one after the calculation start. -/
theorem firstCbtminOf_eq (inputs : JetLagInputs) (st : Setup) :
    firstCbtminOf inputs st = st.cbt.naiveNext st.midnightStartOfCalculations := by
  rw [firstCbtminOf, nextCbtmin_time_eq, appliedDelta, if_pos (Or.inr (Or.inr rfl)),
    zero_mul, addHours, zero_mul, add_zero]

/-- **C4.**  For every valid input, the convergence loop terminates with the
allotted fuel, the absolute signed difference reaches exactly zero, and
`createJetLagTimetable` returns a timetable. -/
theorem claim4_convergence_terminates (inputs : JetLagInputs) (hv : ValidInputs inputs) :
    ∃ (st : Setup) (c : CBTmin) (l : List (CBTmin × CBTEntry)) (evs : List JetLagEvent),
      mkSetup inputs = .ok st ∧
        convergenceLoop (ctxOf inputs st) (loopFuelOf st (firstCbtminOf inputs st))
          st.cbt (firstCbtminOf inputs st) 0 = some (c, l) ∧
        c.signedDifference = 0 ∧
        createJetLagTimetable inputs = .ok evs := by
  obtain ⟨⟨st, hst⟩, ho, hd⟩ := hv
  obtain ⟨hcbt, hb1, hb2, hb3, hb4, hwin, hgridf⟩ := mkSetup_ok_shape inputs st hst
  have hgrid : MinuteGrid st.cbt := hgridf ho hd
  have hsign : SignInv st.cbt := by rw [hcbt]; exact SignInv_make _ _
  have hcb_bounds : 0 ≤ st.cbt.cbtmin ∧ st.cbt.cbtmin < 1440 := by
    rw [hcbt]
    exact sumTimeDelta_bounds _ _
  have hclock : clockOf (firstCbtminOf inputs st) = st.cbt.cbtmin := by
    rw [firstCbtminOf_eq]
    exact clockOf_naiveNext _ _ hcb_bounds.1 hcb_bounds.2
  have hctx_sos : (ctxOf inputs st).startOfShift ≤ shiftHorizon st :=
    le_trans (le_max_left _ _) (le_max_left _ _)
  have hctx_ts : (ctxOf inputs st).travelStartUtc ≤ shiftHorizon st :=
    le_trans (le_max_right _ _) (le_max_left _ _)
  have hctx_win : ∀ w, (ctxOf inputs st).noInterventionWindow = some w →
      addHours w.2 8 ≤ shiftHorizon st := by
    intro w hw
    have hw' : st.noInterventionWindow = some w := hw
    rcases hwin with hnone | hsome
    · rw [hnone] at hw'
      exact Option.noConfusion hw'
    · rw [hsome] at hw'
      injection hw' with hw'
      rw [← hw']
      exact le_max_right _ _
  have hfuel : loopMeasure (shiftHorizon st) st.cbt (firstCbtminOf inputs st) 0
      < loopFuelOf st (firstCbtminOf inputs st) := by
    have hceil := Int.ceil_le_floor_add_one
      ((shiftHorizon st - firstCbtminOf inputs st) / (45 / 2 * MS_HOUR))
    have hsd12 : |st.cbt.signedDifference| ≤ 12 := by
      obtain ⟨hl, hr⟩ := signedDifference_bounds st.cbt
      rw [abs_le]
      constructor <;> linarith
    have hceil2 : ⌈|st.cbt.signedDifference|⌉ ≤ 12 :=
      Int.ceil_le.mpr (by rw [show ((12 : ℤ) : ℚ) = 12 by norm_num]; exact hsd12)
    have hceil0 : 0 ≤ ⌈|st.cbt.signedDifference|⌉ := Int.ceil_nonneg (abs_nonneg _)
    have hmin : (2 - min 0 2 : ℕ) = 2 := rfl
    simp only [loopMeasure, loopFuelOf, spanFuel, phase1, shiftsLeft, hmin]
    omega
  obtain ⟨c, l, hloop, hzero⟩ := convergenceLoop_terminates (ctxOf inputs st)
    (shiftHorizon st) hctx_sos hctx_ts hctx_win
    (loopFuelOf st (firstCbtminOf inputs st)) st.cbt (firstCbtminOf inputs st) 0
    hsign hgrid hclock hfuel
  have hsleep : ∀ M : ℚ, ∃ sl, sleepLoop
      (st.originSleepStartUtc, st.originSleepEndUtc)
      (st.destinationSleepStartUtc, st.destinationSleepEndUtc)
      (st.travelStartUtc, st.travelEndUtc) M (sleepFuelOf st M)
      st.midnightStartOfCalculations false = some sl := by
    intro M
    apply sleepLoop_terminates _ _ _ _ hb1.1 hb1.2 hb2.1 hb2.2 hb3.1 hb3.2 hb4.1 hb4.2
    have hceil := Int.ceil_le_floor_add_one
      ((M - st.midnightStartOfCalculations) / MS_DAY)
    have hba : (if sleepAligned (st.originSleepStartUtc, st.originSleepEndUtc)
        (st.destinationSleepStartUtc, st.destinationSleepEndUtc)
        st.midnightStartOfCalculations false then (0 : ℕ) else 1) ≤ 1 := by
      split <;> omega
    simp only [sleepFuelOf, spanFuel, dayCeil, Bool.false_eq_true, if_false]
    omega
  obtain ⟨sl, hsl⟩ := hsleep (midnightForDatetime (addDays
    ((seedEntry (firstCbtminOf inputs st) ::
      List.map (fun p => p.2) l).getLastD (seedEntry (firstCbtminOf inputs st))).time 1))
  have hcreate : ∃ evs, createJetLagTimetable inputs = .ok evs := by
    rcases hres : createJetLagTimetable inputs with e | evs
    · exfalso
      simp only [createJetLagTimetable, hst, hloop, hsl] at hres
      exact Except.noConfusion hres
    · exact ⟨evs, rfl⟩
  obtain ⟨evs, hevs⟩ := hcreate
  exact ⟨st, c, l, evs, hst, hloop, hzero, hevs⟩

theorem claim4_witness :
    ∃ (st : Setup) (c : CBTmin) (l : List (CBTmin × CBTEntry)) (evs : List JetLagEvent),
      mkSetup inpDelay = .ok st ∧
        convergenceLoop (ctxOf inpDelay st) (loopFuelOf st (firstCbtminOf inpDelay st))
          st.cbt (firstCbtminOf inpDelay st) 0 = some (c, l) ∧
        c.signedDifference = 0 ∧
        createJetLagTimetable inpDelay = .ok evs :=
  claim4_convergence_terminates inpDelay
    ⟨⟨stD, mkSetup_D⟩, ⟨0, by norm_num [inpDelay]⟩, ⟨-480, by norm_num [inpDelay]⟩⟩

end JetLag

namespace JetLag

/-! ## The aligned case -/

/-- A zero initial difference makes the constructor choose `aligned`. -/
theorem make_aligned (a b : ℚ) (h : (CBTmin.make a b).signedDifference = 0) :
    (CBTmin.make a b).phase_direction = .aligned := by
  have hsd : (CBTmin.make a b).signedDifference = canon ((b - a) / 60) := rfl
  have hdir : (CBTmin.make a b).phase_direction
      = (if 0 < canon ((b - a) / 60) then PhaseDirection.delay
         else if canon ((b - a) / 60) < 0 then PhaseDirection.advance
         else PhaseDirection.aligned) := rfl
  rw [hsd] at h
  rw [hdir, h]
  norm_num

/-- In the aligned state, `nextCbtmin` takes the no-shift branch verbatim. -/
theorem nextCbtmin_aligned (s : CBTmin) (time : ℚ) (o : CBTmin.NextOptions)
    (hdir : s.phase_direction = .aligned) :
    s.nextCbtmin time o =
      (s,
       { time := s.naiveNext time,
         interventions :=
           { melatonin := (false, (s.optimalSchedule time).1)
             exercise := (false, (s.optimalSchedule time).2.1)
             light := (false, (s.optimalSchedule time).2.2.1)
             dark := (false, (s.optimalSchedule time).2.2.2) } }) := by
  rw [nextCbtmin_eq, if_pos (Or.inr (Or.inl hdir))]

/-- From an aligned state, a completed convergence-loop run never changes
the state, and every recorded entry is silent with its instant showing the
fixed `cbtmin` minute on the wall clock. -/
theorem convergenceLoop_aligned (ctx : LoopCtx) :
    ∀ (fuel : ℕ) (s : CBTmin) (t : ℚ) (extra : ℕ)
      (res : CBTmin × List (CBTmin × CBTEntry)),
      s.phase_direction = .aligned → 0 ≤ s.cbtmin → s.cbtmin < 1440 →
      convergenceLoop ctx fuel s t extra = some res →
      res.1 = s ∧ ∀ p ∈ res.2, p.1 = s ∧
        p.2.interventions.melatonin.1 = false ∧
        p.2.interventions.exercise.1 = false ∧
        p.2.interventions.light.1 = false ∧
        p.2.interventions.dark.1 = false ∧
        clockOf p.2.time = s.cbtmin := by
  intro fuel
  induction fuel with
  | zero =>
    intro s t extra res _ _ _ h
    exact absurd h (by rw [convergenceLoop]; simp)
  | succ n ih =>
    intro s t extra res hdir hb1 hb2 h
    simp only [convergenceLoop] at h
    split at h
    · rcases hrec : convergenceLoop ctx n (s.nextCbtmin t (loopOptions ctx t)).1
          (s.nextCbtmin t (loopOptions ctx t)).2.time
          (if |s.signedDifference| < EPSILON then extra + 1 else extra) with _ | ⟨c', rest'⟩
      · rw [hrec] at h
        exact absurd h (by simp)
      · rw [hrec] at h
        injection h with h
        subst h
        have hr := nextCbtmin_aligned s t (loopOptions ctx t) hdir
        have hr1 : (s.nextCbtmin t (loopOptions ctx t)).1 = s := by rw [hr]
        rw [hr1] at hrec
        obtain ⟨hc', hrest⟩ := ih s (s.nextCbtmin t (loopOptions ctx t)).2.time
          (if |s.signedDifference| < EPSILON then extra + 1 else extra)
          (c', rest') hdir hb1 hb2 hrec
        refine ⟨hc', ?_⟩
        intro p hp
        rcases List.mem_cons.mp hp with rfl | hmem
        · rw [hr]
          exact ⟨rfl, rfl, rfl, rfl, rfl, clockOf_naiveNext s t hb1 hb2⟩
        · exact hrest p hmem
    · injection h with h
      subst h
      exact ⟨rfl, fun p hp => absurd hp (List.not_mem_nil p)⟩

/-- With all flags false, an entry emits only its `cbtmin` event. -/
theorem eventsOfEntry_silent (dir : PhaseDirection) (sd : ℚ) (ent : CBTEntry)
    (hm : ent.interventions.melatonin.1 = false)
    (he : ent.interventions.exercise.1 = false)
    (hl : ent.interventions.light.1 = false)
    (hd : ent.interventions.dark.1 = false) :
    eventsOfEntry dir sd ent
      = [{ baseEvent "cbtmin" ent.time none dir sd with is_cbtmin := true }] := by
  rw [eventsOfEntry, hm, he, hl, hd]
  simp

end JetLag

namespace JetLag

/-- **C7.**  If origin and destination CBTmin coincide exactly (the initial
signed difference is zero), then every returned event carries
`phase_direction = aligned`, no melatonin/exercise/light/dark event is ever
emitted (whatever the user flags), and every `cbtmin` event falls at the
same clock time (the fixed `cbtmin` minute past UTC midnight) on its day. -/
theorem claim7_aligned_case (inputs : JetLagInputs) (st : Setup) (evs : List JetLagEvent)
    (hst : mkSetup inputs = .ok st)
    (h0 : st.cbt.signedDifference = 0)
    (hevs : createJetLagTimetable inputs = .ok evs) :
    (∀ e ∈ evs, e.phase_direction = PhaseDirection.aligned) ∧
      (∀ e ∈ evs, e.event ≠ "melatonin" ∧ e.event ≠ "exercise" ∧ e.event ≠ "light" ∧
        e.event ≠ "dark") ∧
      (∀ e ∈ evs, e.event = "cbtmin" → clockOf e.start = st.cbt.cbtmin) := by
  obtain ⟨hcbt, hb1, hb2, hb3, hb4, hwin, _⟩ := mkSetup_ok_shape inputs st hst
  have halst : st.cbt.phase_direction = .aligned := by
    rw [hcbt]
    exact make_aligned _ _ (by rw [← hcbt]; exact h0)
  have hcb_bounds : 0 ≤ st.cbt.cbtmin ∧ st.cbt.cbtmin < 1440 := by
    rw [hcbt]
    exact sumTimeDelta_bounds _ _
  have hclockF : clockOf (firstCbtminOf inputs st) = st.cbt.cbtmin := by
    rw [firstCbtminOf_eq]
    exact clockOf_naiveNext _ _ hcb_bounds.1 hcb_bounds.2
  simp only [createJetLagTimetable, hst] at hevs
  rcases hloop : convergenceLoop (ctxOf inputs st) (loopFuelOf st (firstCbtminOf inputs st))
      st.cbt (firstCbtminOf inputs st) 0 with _ | ⟨c, l⟩
  · simp only [hloop] at hevs
    exact Except.noConfusion hevs
  simp only [hloop] at hevs
  obtain ⟨hcs, hentries⟩ := convergenceLoop_aligned (ctxOf inputs st) _ st.cbt
    (firstCbtminOf inputs st) 0 (c, l) halst hcb_bounds.1 hcb_bounds.2 hloop
  have hdirc : c.phase_direction = PhaseDirection.aligned := by
    have hc' : c = st.cbt := hcs
    rw [hc']
    exact halst
  rcases hsl : sleepLoop (st.originSleepStartUtc, st.originSleepEndUtc)
      (st.destinationSleepStartUtc, st.destinationSleepEndUtc)
      (st.travelStartUtc, st.travelEndUtc)
      (midnightForDatetime (addDays ((seedEntry (firstCbtminOf inputs st) ::
        List.map (fun p => p.2) l).getLastD (seedEntry (firstCbtminOf inputs st))).time 1))
      (sleepFuelOf st (midnightForDatetime (addDays ((seedEntry (firstCbtminOf inputs st) ::
        List.map (fun p => p.2) l).getLastD (seedEntry (firstCbtminOf inputs st))).time 1)))
      st.midnightStartOfCalculations false with _ | sw
  · simp only [hsl] at hevs
    exact Except.noConfusion hevs
  simp only [hsl] at hevs
  injection hevs with hevs
  have hall : ∀ e ∈ evs, e.phase_direction = PhaseDirection.aligned ∧
      (e.event ≠ "melatonin" ∧ e.event ≠ "exercise" ∧ e.event ≠ "light" ∧
        e.event ≠ "dark") ∧
      (e.event = "cbtmin" → clockOf e.start = st.cbt.cbtmin) := by
    intro e he
    rw [← hevs, List.mem_mergeSort] at he
    simp only [List.mem_append, List.mem_map, List.mem_singleton, List.mem_flatMap,
      List.mem_cons, List.mem_nil_iff, or_false] at he
    rcases he with (⟨w, hw, rfl⟩ | rfl) | ⟨ent, hent, he2⟩
    · exact ⟨hdirc, ⟨(by decide : ("sleep" : String) ≠ "melatonin"),
        (by decide : ("sleep" : String) ≠ "exercise"),
        (by decide : ("sleep" : String) ≠ "light"),
        (by decide : ("sleep" : String) ≠ "dark")⟩,
        fun hc => absurd hc (by decide : ("sleep" : String) ≠ "cbtmin")⟩
    · exact ⟨hdirc, ⟨(by decide : ("travel" : String) ≠ "melatonin"),
        (by decide : ("travel" : String) ≠ "exercise"),
        (by decide : ("travel" : String) ≠ "light"),
        (by decide : ("travel" : String) ≠ "dark")⟩,
        fun hc => absurd hc (by decide : ("travel" : String) ≠ "cbtmin")⟩
    · rcases hent with rfl | ⟨p, hp, rfl⟩
      · rw [eventsOfEntry_silent _ _ _ rfl rfl rfl rfl, List.mem_singleton] at he2
        subst he2
        exact ⟨hdirc, ⟨(by decide : ("cbtmin" : String) ≠ "melatonin"),
          (by decide : ("cbtmin" : String) ≠ "exercise"),
          (by decide : ("cbtmin" : String) ≠ "light"),
          (by decide : ("cbtmin" : String) ≠ "dark")⟩, fun _ => hclockF⟩
      · obtain ⟨hps, hm, hex, hl', hd', hck⟩ := hentries p hp
        rw [eventsOfEntry_silent _ _ _ hm hex hl' hd', List.mem_singleton] at he2
        subst he2
        exact ⟨hdirc, ⟨(by decide : ("cbtmin" : String) ≠ "melatonin"),
          (by decide : ("cbtmin" : String) ≠ "exercise"),
          (by decide : ("cbtmin" : String) ≠ "light"),
          (by decide : ("cbtmin" : String) ≠ "dark")⟩, fun _ => hck⟩
  exact ⟨fun e he => (hall e he).1, fun e he => (hall e he).2.1, fun e he => (hall e he).2.2⟩

theorem claim7_witness :
    (∀ e ∈ eventsA, e.phase_direction = PhaseDirection.aligned) ∧
      (∀ e ∈ eventsA, e.event ≠ "melatonin" ∧ e.event ≠ "exercise" ∧ e.event ≠ "light" ∧
        e.event ≠ "dark") ∧
      (∀ e ∈ eventsA, e.event = "cbtmin" → clockOf e.start = stA.cbt.cbtmin) :=
  claim7_aligned_case inpAligned stA eventsA mkSetup_A
    (by norm_num [stA_cbt, cbtA, CBTmin.signedDifference, hoursFromMinutes, subtractTimes,
      mod, jsRem, qtrunc])
    create_A

end JetLag

namespace JetLag

/-! ## Order theory of `lexLt` / `lexLe` -/

theorem lexLt_irrefl (a : List Char) : lexLt a a = false := by
  induction a with
  | nil => rfl
  | cons x xs ih =>
    rw [lexLt, if_neg (lt_irrefl _), if_neg (lt_irrefl _)]
    exact ih

theorem lexLt_asymm : ∀ {a b : List Char}, lexLt a b = true → lexLt b a = false := by
  intro a
  induction a with
  | nil =>
    intro b h
    cases b with
    | nil => exact Bool.noConfusion h
    | cons y ys => rfl
  | cons x xs ih =>
    intro b h
    cases b with
    | nil => exact Bool.noConfusion h
    | cons y ys =>
      rw [lexLt] at h
      rw [lexLt]
      by_cases h1 : x.toNat < y.toNat
      · rw [if_neg (by omega), if_pos h1]
      · rw [if_neg h1] at h
        by_cases h2 : y.toNat < x.toNat
        · rw [if_pos h2] at h
          exact Bool.noConfusion h
        · rw [if_neg h2] at h
          rw [if_neg h2, if_neg h1]
          exact ih h

theorem lexLt_trans : ∀ {a b c : List Char}, lexLt a b = true → lexLt b c = true →
    lexLt a c = true := by
  intro a
  induction a with
  | nil =>
    intro b c h1 h2
    cases b with
    | nil => exact Bool.noConfusion h1
    | cons y ys =>
      cases c with
      | nil => exact Bool.noConfusion h2
      | cons z zs => rfl
  | cons x xs ih =>
    intro b c h1 h2
    cases b with
    | nil => exact Bool.noConfusion h1
    | cons y ys =>
      cases c with
      | nil => exact Bool.noConfusion h2
      | cons z zs =>
        rw [lexLt] at h1 h2
        rw [lexLt]
        by_cases hxy : x.toNat < y.toNat
        · by_cases hyz : y.toNat < z.toNat
          · rw [if_pos (by omega)]
          · rw [if_neg hyz] at h2
            by_cases hzy : z.toNat < y.toNat
            · rw [if_pos hzy] at h2
              exact Bool.noConfusion h2
            · rw [if_pos (by omega)]
        · rw [if_neg hxy] at h1
          by_cases hyx : y.toNat < x.toNat
          · rw [if_pos hyx] at h1
            exact Bool.noConfusion h1
          · rw [if_neg hyx] at h1
            by_cases hyz : y.toNat < z.toNat
            · rw [if_pos (by omega)]
            · rw [if_neg hyz] at h2
              by_cases hzy : z.toNat < y.toNat
              · rw [if_pos hzy] at h2
                exact Bool.noConfusion h2
              · rw [if_neg hzy] at h2
                rw [if_neg (by omega), if_neg (by omega)]
                exact ih h1 h2

theorem lexLt_connex : ∀ {a b : List Char}, lexLt a b = false → lexLt b a = false →
    a = b := by
  intro a
  induction a with
  | nil =>
    intro b h1 _
    cases b with
    | nil => rfl
    | cons y ys => exact Bool.noConfusion h1
  | cons x xs ih =>
    intro b h1 h2
    cases b with
    | nil => exact Bool.noConfusion h2
    | cons y ys =>
      rw [lexLt] at h1 h2
      by_cases hxy : x.toNat < y.toNat
      · rw [if_pos hxy] at h1
        exact Bool.noConfusion h1
      · rw [if_neg hxy] at h1
        by_cases hyx : y.toNat < x.toNat
        · rw [if_pos hyx] at h2
          exact Bool.noConfusion h2
        · rw [if_neg hyx] at h1
          rw [if_neg (by omega), if_neg (by omega)] at h2
          have hchar : x = y := by
            have htn : x.toNat = y.toNat := by omega
            exact Char.ext (UInt32.eq_of_val_eq (Fin.ext htn))
          rw [hchar, ih h1 h2]

theorem lexLe_trans {a b c : List Char} (h1 : lexLe a b = true) (h2 : lexLe b c = true) :
    lexLe a c = true := by
  rw [lexLe, Bool.not_eq_true'] at h1 h2 ⊢
  cases hca : lexLt c a with
  | false => rfl
  | true =>
    exfalso
    cases hbc : lexLt b c with
    | false =>
      have hbe : b = c := lexLt_connex hbc h2
      rw [hbe] at h1
      rw [h1] at hca
      exact Bool.noConfusion hca
    | true =>
      have := lexLt_trans hbc hca
      rw [this] at h1
      exact Bool.noConfusion h1

theorem lexLe_total (a b : List Char) : lexLe a b = true ∨ lexLe b a = true := by
  rw [lexLe, lexLe, Bool.not_eq_true', Bool.not_eq_true']
  cases hba : lexLt b a with
  | false => exact Or.inl rfl
  | true => exact Or.inr (lexLt_asymm hba)

theorem lexLt_lexLe {a b : List Char} (h : lexLt a b = true) : lexLe a b = true := by
  rw [lexLe, Bool.not_eq_true']
  exact lexLt_asymm h

/-! ## Fixed-width decimal strings -/

theorem padNat_length (w : ℕ) : ∀ n : ℕ, (padNat w n).length = w := by
  induction w with
  | zero => intro n; rfl
  | succ k ih =>
    intro n
    rw [padNat, List.length_append, ih]
    rfl

theorem digit_toNat {r : ℕ} (h : r < 10) : (Char.ofNat (48 + r)).toNat = 48 + r := by
  interval_cases r <;> decide

theorem lexLt_cons_same (c : Char) (A B : List Char) :
    lexLt (c :: A) (c :: B) = lexLt A B := by
  rw [lexLt, if_neg (lt_irrefl _), if_neg (lt_irrefl _)]

theorem lexLt_append_same : ∀ (A B B' : List Char),
    lexLt (A ++ B) (A ++ B') = lexLt B B' := by
  intro A
  induction A with
  | nil => intro B B'; rfl
  | cons x xs ih =>
    intro B B'
    rw [List.cons_append, List.cons_append, lexLt_cons_same]
    exact ih B B'

theorem lexLt_append_of_lt : ∀ {A A' : List Char} (B B' : List Char),
    A.length = A'.length → lexLt A A' = true → lexLt (A ++ B) (A' ++ B') = true := by
  intro A
  induction A with
  | nil =>
    intro A' B B' hlen h
    cases A' with
    | nil => exact Bool.noConfusion h
    | cons y ys => exact absurd hlen (by simp)
  | cons x xs ih =>
    intro A' B B' hlen h
    cases A' with
    | nil => exact absurd hlen (by simp)
    | cons y ys =>
      rw [lexLt] at h
      rw [List.cons_append, List.cons_append, lexLt]
      by_cases h1 : x.toNat < y.toNat
      · rw [if_pos h1]
      · rw [if_neg h1] at h ⊢
        by_cases h2 : y.toNat < x.toNat
        · rw [if_pos h2] at h
          exact Bool.noConfusion h
        · rw [if_neg h2] at h ⊢
          exact ih B B' (by simpa using hlen) h

theorem lexLt_padNat : ∀ (w : ℕ) {n m : ℕ}, n < 10 ^ w → m < 10 ^ w → n < m →
    lexLt (padNat w n) (padNat w m) = true := by
  intro w
  induction w with
  | zero =>
    intro n m hn hm h
    exact absurd h (by omega)
  | succ k ih =>
    intro n m hn hm h
    have hp : (10 : ℕ) ^ (k + 1) = 10 ^ k * 10 := pow_succ 10 k
    rw [hp] at hn hm
    rw [padNat, padNat]
    by_cases hd : n / 10 < m / 10
    · exact lexLt_append_of_lt _ _ (by rw [padNat_length, padNat_length])
        (ih (by omega) (by omega) hd)
    · have hde : n / 10 = m / 10 := by omega
      rw [hde, lexLt_append_same, lexLt, digit_toNat (by omega), digit_toNat (by omega),
        if_pos (by omega)]

end JetLag

namespace JetLag

theorem lexLt_pad2 {n m : ℕ} (hn : n < 100) (hm : m < 100) (h : n < m) :
    lexLt (padNat 2 n) (padNat 2 m) = true :=
  lexLt_padNat 2 (lt_of_lt_of_le hn (by norm_num)) (lt_of_lt_of_le hm (by norm_num)) h

theorem lexLt_pad4 {n m : ℕ} (hn : n < 10000) (hm : m < 10000) (h : n < m) :
    lexLt (padNat 4 n) (padNat 4 m) = true :=
  lexLt_padNat 4 (lt_of_lt_of_le hn (by norm_num)) (lt_of_lt_of_le hm (by norm_num)) h

/-- Strict lexicographic comparison of two four-digit-year ISO bodies agrees
with the field-wise comparison of their date-time components. -/
theorem isoBody_lt (y y' : ℤ) (mo d hh mi mo' d' hh' mi' ss ss' : ℕ)
    (hy0 : 0 ≤ y) (hy1 : y ≤ 9999) (hy0' : 0 ≤ y') (hy1' : y' ≤ 9999)
    (hmo : mo < 100) (hmo' : mo' < 100) (hd : d < 100) (hd' : d' < 100)
    (hhh : hh < 100) (hhh' : hh' < 100) (hmi : mi < 100) (hmi' : mi' < 100)
    (hlex : y < y' ∨ (y = y' ∧ (mo < mo' ∨ (mo = mo' ∧ (d < d' ∨ (d = d' ∧
      (hh < hh' ∨ (hh = hh' ∧ mi < mi')))))))) :
    lexLt (isoBody y mo d hh mi ss) (isoBody y' mo' d' hh' mi' ss') = true := by
  simp only [isoBody]
  rw [if_pos ⟨hy0, hy1⟩, if_pos ⟨hy0', hy1'⟩]
  simp only [List.append_assoc, List.cons_append]
  have hlen2 : ∀ n m : ℕ, (padNat 2 n).length = (padNat 2 m).length := by
    intro n m
    rw [padNat_length, padNat_length]
  rcases hlex with hy | ⟨hye, hrest⟩
  · exact lexLt_append_of_lt _ _ (by rw [padNat_length, padNat_length])
      (lexLt_pad4 (by omega) (by omega) (by omega))
  subst hye
  rw [lexLt_append_same, lexLt_cons_same]
  rcases hrest with hmo2 | ⟨hmoe, hrest⟩
  · exact lexLt_append_of_lt _ _ (hlen2 _ _) (lexLt_pad2 hmo hmo' hmo2)
  subst hmoe
  rw [lexLt_append_same, lexLt_cons_same]
  rcases hrest with hd2 | ⟨hde, hrest⟩
  · exact lexLt_append_of_lt _ _ (hlen2 _ _) (lexLt_pad2 hd hd' hd2)
  subst hde
  rw [lexLt_append_same, lexLt_cons_same]
  rcases hrest with hh2 | ⟨hhe, hmi2⟩
  · exact lexLt_append_of_lt _ _ (hlen2 _ _) (lexLt_pad2 hhh hhh' hh2)
  subst hhe
  rw [lexLt_append_same, lexLt_cons_same]
  exact lexLt_append_of_lt _ _ (hlen2 _ _) (lexLt_pad2 hmi hmi' hmi2)

end JetLag

namespace JetLag

/-! ## The civil calendar: year-of-era search and field bounds -/

theorem yoeStart_mono {a b : ℕ} (h : a ≤ b) : yoeStart a ≤ yoeStart b := by
  have h1 : a / 4 ≤ b / 4 := Nat.div_le_div_right h
  have h2 : a / 100 ≤ b / 100 := Nat.div_le_div_right h
  simp only [yoeStart]
  omega

theorem yoeOf_spec (doe : ℕ) (h : doe < 146097) :
    yoeStart (yoeOf doe) ≤ doe ∧ yoeOf doe ≤ 399 ∧
      (doe < yoeStart (yoeOf doe + 1) ∨ yoeOf doe = 399) := by
  simp only [yoeOf, yoeStart, Nat.min_def]
  repeat' split
  all_goals omega

theorem yoeOf_mono {doe doe' : ℕ} (h : doe ≤ doe') (h' : doe' < 146097) :
    yoeOf doe ≤ yoeOf doe' := by
  obtain ⟨hs1, hs2, hs3⟩ := yoeOf_spec doe (by omega)
  obtain ⟨hs1', hs2', hs3'⟩ := yoeOf_spec doe' h'
  by_contra hgt
  push_neg at hgt
  have hmono : yoeStart (yoeOf doe' + 1) ≤ yoeStart (yoeOf doe) := yoeStart_mono (by omega)
  rcases hs3' with hlt | h399
  · omega
  · omega

/-- The destructuring of `civilFromDays` on the epoch-day range of years
1970–9999: the era/day-of-era split, the year-of-era facts, and the exact
field formulas. -/
theorem civilFromDays_destruct (z : ℤ) (h0 : 0 ≤ z) (h1 : z ≤ 2932896) :
    ∃ (e : ℤ) (r doy mp : ℕ),
      z + 719468 = 146097 * e + (r : ℤ) ∧ r < 146097 ∧ 4 ≤ e ∧ e ≤ 24 ∧
      yoeStart (yoeOf r) ≤ r ∧ yoeOf r ≤ 399 ∧
      (r < yoeStart (yoeOf r + 1) ∨ yoeOf r = 399) ∧
      doy = r - yoeStart (yoeOf r) ∧ doy ≤ 365 ∧
      mp = (5 * doy + 2) / 153 ∧
      civilFromDays z
        = (400 * e + (yoeOf r : ℤ) + (if (if mp < 10 then mp + 3 else mp - 9) ≤ 2 then 1 else 0),
           (if mp < 10 then mp + 3 else mp - 9),
           doy - (153 * mp + 2) / 5 + 1) := by
  have hfd : (z + 719468).fdiv 146097 = (z + 719468) / 146097 :=
    Int.fdiv_eq_ediv _ (by norm_num)
  have hemod : (z + 719468) % 146097 = z + 719468 - 146097 * ((z + 719468) / 146097) :=
    Int.emod_def _ _
  have hem0 : 0 ≤ (z + 719468) % 146097 := Int.emod_nonneg _ (by norm_num)
  have hemlt : (z + 719468) % 146097 < 146097 := Int.emod_lt_of_pos _ (by norm_num)
  have htn : ((z + 719468 - 146097 * ((z + 719468) / 146097)).toNat : ℤ)
      = z + 719468 - 146097 * ((z + 719468) / 146097) := Int.toNat_of_nonneg (by omega)
  obtain ⟨hs1, hs2, hs3⟩ :=
    yoeOf_spec (z + 719468 - 146097 * ((z + 719468) / 146097)).toNat (by omega)
  refine ⟨(z + 719468) / 146097, (z + 719468 - 146097 * ((z + 719468) / 146097)).toNat,
    _, _, by omega, by omega, by omega, by omega, hs1, hs2, hs3, rfl, ?_, rfl, ?_⟩
  · -- doy ≤ 365
    rcases hs3 with hlt | h399
    · have hstep : yoeStart (yoeOf (z + 719468 - 146097 * ((z + 719468) / 146097)).toNat + 1)
          ≤ yoeStart (yoeOf (z + 719468 - 146097 * ((z + 719468) / 146097)).toNat) + 366 := by
        simp only [yoeStart]
        omega
      omega
    · rw [h399] at hs1 ⊢
      simp only [yoeStart]
      omega
  · -- the field formulas
    simp only [civilFromDays, hfd]

end JetLag

namespace JetLag

/-- Strict monotonicity of `civilFromDays` into lexicographic year-month-day
order, on the epoch-day range of years 1970–9999. -/
theorem civilFromDays_lex {z z' : ℤ} (h0 : 0 ≤ z) (h1 : z' ≤ 2932896) (hlt : z < z') :
    (civilFromDays z).1 < (civilFromDays z').1 ∨
      ((civilFromDays z).1 = (civilFromDays z').1 ∧
        ((civilFromDays z).2.1 < (civilFromDays z').2.1 ∨
          ((civilFromDays z).2.1 = (civilFromDays z').2.1 ∧
            (civilFromDays z).2.2 < (civilFromDays z').2.2))) := by
  obtain ⟨e, r, doy, mp, hdec, hr, he1, he2, hy1, hy2, hy3, hdoy, hdoy365, hmp, heq⟩ :=
    civilFromDays_destruct z h0 (by omega)
  obtain ⟨e', r', doy', mp', hdec', hr', he1', he2', hy1', hy2', hy3', hdoy', hdoy365',
    hmp', heq'⟩ := civilFromDays_destruct z' (by omega) h1
  rw [heq, heq']
  simp only []
  have hmp11 : mp ≤ 11 := by omega
  have hmp11' : mp' ≤ 11 := by omega
  have hele : e ≤ e' := by omega
  rcases eq_or_lt_of_le hele with hee | hee
  · -- same era
    subst hee
    have hrr : r < r' := by omega
    have hyoele := yoeOf_mono (le_of_lt hrr) hr'
    rcases eq_or_lt_of_le hyoele with hyeq | hylt
    · -- same year of era
      have hys_eq : yoeStart (yoeOf r) = yoeStart (yoeOf r') := by rw [hyeq]
      have hdoylt : doy < doy' := by omega
      have hmple : mp ≤ mp' := by
        rw [hmp, hmp']
        exact Nat.div_le_div_right (by omega)
      rcases eq_or_lt_of_le hmple with hmpeq | hmplt
      · right
        rw [hyeq, hmpeq]
        refine ⟨rfl, Or.inr ⟨rfl, ?_⟩⟩
        omega
      · by_cases h10 : mp < 10 <;> by_cases h10' : mp' < 10
        · rw [if_pos h10, if_pos h10',
            if_neg (by omega : ¬ mp + 3 ≤ 2), if_neg (by omega : ¬ mp' + 3 ≤ 2), hyeq]
          exact Or.inr ⟨rfl, Or.inl (by omega)⟩
        · rw [if_pos h10, if_neg h10',
            if_neg (by omega : ¬ mp + 3 ≤ 2), if_pos (by omega : mp' - 9 ≤ 2), hyeq]
          exact Or.inl (by omega)
        · omega
        · rw [if_neg h10, if_neg h10',
            if_pos (by omega : mp - 9 ≤ 2), if_pos (by omega : mp' - 9 ≤ 2), hyeq]
          exact Or.inr ⟨rfl, Or.inl (by omega)⟩
    · -- year of era increased
      by_cases h10 : mp < 10 <;> by_cases h10' : mp' < 10 <;>
        [rw [if_pos h10, if_pos h10',
            if_neg (by omega : ¬ mp + 3 ≤ 2), if_neg (by omega : ¬ mp' + 3 ≤ 2)];
         rw [if_pos h10, if_neg h10',
            if_neg (by omega : ¬ mp + 3 ≤ 2), if_pos (by omega : mp' - 9 ≤ 2)];
         rw [if_neg h10, if_pos h10',
            if_pos (by omega : mp - 9 ≤ 2), if_neg (by omega : ¬ mp' + 3 ≤ 2)];
         rw [if_neg h10, if_neg h10',
            if_pos (by omega : mp - 9 ≤ 2), if_pos (by omega : mp' - 9 ≤ 2)]] <;>
        omega
  · -- era increased
    by_cases h10 : mp < 10 <;> by_cases h10' : mp' < 10 <;>
      [rw [if_pos h10, if_pos h10',
          if_neg (by omega : ¬ mp + 3 ≤ 2), if_neg (by omega : ¬ mp' + 3 ≤ 2)];
       rw [if_pos h10, if_neg h10',
          if_neg (by omega : ¬ mp + 3 ≤ 2), if_pos (by omega : mp' - 9 ≤ 2)];
       rw [if_neg h10, if_pos h10',
          if_pos (by omega : mp - 9 ≤ 2), if_neg (by omega : ¬ mp' + 3 ≤ 2)];
       rw [if_neg h10, if_neg h10',
          if_pos (by omega : mp - 9 ≤ 2), if_pos (by omega : mp' - 9 ≤ 2)]] <;>
      omega

end JetLag

namespace JetLag

/-- On whole-minute instants, `toIso` produces the plain body plus `Z` (the
`.000` is collapsed), with a zero seconds field. -/
theorem toIso_eq_body (n : ℤ) (k : ℤ) (hk : n = 60000 * k) (h0 : 0 ≤ n) :
    toIso (n : ℚ) = isoBody (civilFromDays (n.fdiv 86400000)).1
      (civilFromDays (n.fdiv 86400000)).2.1 (civilFromDays (n.fdiv 86400000)).2.2
      ((n - 86400000 * n.fdiv 86400000).toNat / 3600000)
      ((n - 86400000 * n.fdiv 86400000).toNat % 3600000 / 60000) 0 ++ ['Z'] := by
  have hfd : n.fdiv 86400000 = n / 86400000 := Int.fdiv_eq_ediv _ (by norm_num)
  have hemod : n % 86400000 = n - 86400000 * (n / 86400000) := Int.emod_def _ _
  have hem0 : 0 ≤ n % 86400000 := Int.emod_nonneg _ (by norm_num)
  have hemlt : n % 86400000 < 86400000 := Int.emod_lt_of_pos _ (by norm_num)
  have h1000 : (n - 86400000 * n.fdiv 86400000).toNat % 1000 = 0 := by
    rw [hfd]
    omega
  have hss : (n - 86400000 * n.fdiv 86400000).toNat % 60000 / 1000 = 0 := by
    rw [hfd]
    omega
  simp only [toIso, Int.floor_intCast]
  rw [if_pos h1000, hss]

theorem isoBody_length (y : ℤ) (mo d hh mi ss : ℕ) (hy0 : 0 ≤ y) (hy1 : y ≤ 9999) :
    (isoBody y mo d hh mi ss).length = 19 := by
  simp only [isoBody]
  rw [if_pos ⟨hy0, hy1⟩]
  simp [List.length_append, padNat_length]

/-- Strict monotonicity of `toIso` under code-point lexicographic order, on
whole-minute instants from 1970 up to year 10000. -/
theorem toIso_lt {t1 t2 : ℚ} (hg1 : ∃ k : ℤ, t1 = k * 60000) (hg2 : ∃ k : ℤ, t2 = k * 60000)
    (h01 : 0 ≤ t1) (h12 : t2 < 253402300800000)
    (hlt : t1 < t2) : lexLt (toIso t1) (toIso t2) = true := by
  obtain ⟨k1, hk1⟩ := hg1
  obtain ⟨k2, hk2⟩ := hg2
  have ht1 : t1 = ((60000 * k1 : ℤ) : ℚ) := by rw [hk1]; push_cast; ring
  have ht2 : t2 = ((60000 * k2 : ℤ) : ℚ) := by rw [hk2]; push_cast; ring
  have hb1 : (0 : ℤ) ≤ 60000 * k1 := by exact_mod_cast ht1 ▸ h01
  have hbl : (60000 * k1 : ℤ) < 60000 * k2 := by exact_mod_cast ht1 ▸ ht2 ▸ hlt
  have hb2 : (60000 * k2 : ℤ) < 253402300800000 := by exact_mod_cast ht2 ▸ h12
  rw [ht1, ht2, toIso_eq_body _ k1 rfl hb1, toIso_eq_body _ k2 rfl (by omega)]
  have hfd1 : (60000 * k1).fdiv 86400000 = (60000 * k1) / 86400000 :=
    Int.fdiv_eq_ediv _ (by norm_num)
  have hfd2 : (60000 * k2).fdiv 86400000 = (60000 * k2) / 86400000 :=
    Int.fdiv_eq_ediv _ (by norm_num)
  obtain ⟨e, r, doy, mp, hdec, hr, he1, he2, hy1, hy2, hy3, hdoy, hdoy365, hmp, heq⟩ :=
    civilFromDays_destruct ((60000 * k1).fdiv 86400000) (by rw [hfd1]; omega)
      (by rw [hfd1]; omega)
  obtain ⟨e', r', doy', mp', hdec', hr', he1', he2', hy1', hy2', hy3', hdoy', hdoy365',
    hmp', heq'⟩ := civilFromDays_destruct ((60000 * k2).fdiv 86400000) (by rw [hfd2]; omega)
      (by rw [hfd2]; omega)
  have hu : yoeStart (yoeOf r) = 365 * yoeOf r + yoeOf r / 4 - yoeOf r / 100 := rfl
  have hu' : yoeStart (yoeOf r') = 365 * yoeOf r' + yoeOf r' / 4 - yoeOf r' / 100 := rfl
  have hy9999 : (civilFromDays ((60000 * k1).fdiv 86400000)).1 ≤ 9999 ∧
      0 ≤ (civilFromDays ((60000 * k1).fdiv 86400000)).1 := by
    rw [heq]
    constructor <;> · simp only []; split <;> omega
  have hy9999' : (civilFromDays ((60000 * k2).fdiv 86400000)).1 ≤ 9999 ∧
      0 ≤ (civilFromDays ((60000 * k2).fdiv 86400000)).1 := by
    rw [heq']
    constructor <;> · simp only []; split <;> omega
  have hmo100 : (civilFromDays ((60000 * k1).fdiv 86400000)).2.1 < 100 ∧
      (civilFromDays ((60000 * k1).fdiv 86400000)).2.2 < 100 := by
    rw [heq]
    constructor <;> · simp only []; first | (split <;> omega) | omega
  have hmo100' : (civilFromDays ((60000 * k2).fdiv 86400000)).2.1 < 100 ∧
      (civilFromDays ((60000 * k2).fdiv 86400000)).2.2 < 100 := by
    rw [heq']
    constructor <;> · simp only []; first | (split <;> omega) | omega
  apply lexLt_append_of_lt
  · rw [isoBody_length _ _ _ _ _ _ hy9999.2 hy9999.1,
      isoBody_length _ _ _ _ _ _ hy9999'.2 hy9999'.1]
  apply isoBody_lt <;>
    first
    | exact hy9999.2
    | exact hy9999.1
    | exact hy9999'.2
    | exact hy9999'.1
    | exact hmo100.1
    | exact hmo100.2
    | exact hmo100'.1
    | exact hmo100'.2
    | exact (by rw [hfd1]; omega)
    | exact (by rw [hfd2]; omega)
    | skip
  rcases lt_or_eq_of_le (show (60000 * k1).fdiv 86400000 ≤ (60000 * k2).fdiv 86400000 by
      rw [hfd1, hfd2]; omega) with hday | hday
  · rcases @civilFromDays_lex ((60000 * k1).fdiv 86400000)
        ((60000 * k2).fdiv 86400000) (by rw [hfd1]; omega) (by rw [hfd2]; omega)
        hday with h | ⟨h1, h2⟩
    · exact Or.inl h
    · refine Or.inr ⟨h1, ?_⟩
      rcases h2 with h2 | ⟨h2a, h2b⟩
      · exact Or.inl h2
      · exact Or.inr ⟨h2a, Or.inl h2b⟩
  · rw [hday]
    refine Or.inr ⟨rfl, Or.inr ⟨rfl, Or.inr ⟨rfl, ?_⟩⟩⟩
    rw [hfd2]
    have hr2 : 0 ≤ 60000 * k2 - 86400000 * (60000 * k2 / 86400000) ∧
        60000 * k2 - 86400000 * (60000 * k2 / 86400000) < 86400000 := by omega
    rw [hfd1, hfd2] at hday
    omega

end JetLag

namespace JetLag

/-- Whatever `createJetLagTimetable` returns successfully is the
`mergeSort` of some event list under `eventLe`. -/
theorem create_ok_mergeSort {inputs : JetLagInputs} {evs : List JetLagEvent}
    (hok : createJetLagTimetable inputs = .ok evs) :
    ∃ events : List JetLagEvent, evs = events.mergeSort eventLe := by
  rcases hst : mkSetup inputs with e | st
  · simp only [createJetLagTimetable, hst] at hok
    exact Except.noConfusion hok
  simp only [createJetLagTimetable, hst] at hok
  rcases hloop : convergenceLoop (ctxOf inputs st) (loopFuelOf st (firstCbtminOf inputs st))
      st.cbt (firstCbtminOf inputs st) 0 with _ | ⟨c, l⟩
  · simp only [hloop] at hok
    exact Except.noConfusion hok
  simp only [hloop] at hok
  rcases hsl : sleepLoop (st.originSleepStartUtc, st.originSleepEndUtc)
      (st.destinationSleepStartUtc, st.destinationSleepEndUtc)
      (st.travelStartUtc, st.travelEndUtc)
      (midnightForDatetime (addDays ((seedEntry (firstCbtminOf inputs st) ::
        List.map (fun p => p.2) l).getLastD (seedEntry (firstCbtminOf inputs st))).time 1))
      (sleepFuelOf st (midnightForDatetime (addDays ((seedEntry (firstCbtminOf inputs st) ::
        List.map (fun p => p.2) l).getLastD (seedEntry (firstCbtminOf inputs st))).time 1)))
      st.midnightStartOfCalculations false with _ | sw
  · simp only [hsl] at hok
    exact Except.noConfusion hok
  simp only [hsl] at hok
  injection hok with hok
  exact ⟨_, hok.symm⟩

theorem eventLe_trans (a b c : JetLagEvent) (h1 : eventLe a b = true)
    (h2 : eventLe b c = true) : eventLe a c = true := by
  rw [eventLe] at h1 h2 ⊢
  exact lexLe_trans h1 h2

theorem eventLe_total (a b : JetLagEvent) : (eventLe a b || eventLe b a) = true := by
  rw [eventLe, eventLe]
  rcases lexLe_total (toIso a.start) (toIso b.start) with h | h <;>
    simp [h]

/-- CLAIM C5 (amended).  The returned event list is chronologically sorted by
start instant — the lexicographic sort on the fixed ISO-8601 `Z` formatting
coincides with chronological order — provided every produced start instant is
a whole minute lying in years 1970–9999 (i.e. in `[0, 253402300800000)` ms),
where all instants indeed share one representation width.  (Outside that
range `toISOString` switches to the expanded `±YYYYYY` form, whose leading
`+` sorts before every digit, and the claimed equivalence fails.) -/
theorem claim5_sorted_when_years_single_width (inputs : JetLagInputs)
    (evs : List JetLagEvent)
    (hok : createJetLagTimetable inputs = .ok evs)
    (hrange : ∀ e ∈ evs, 0 ≤ e.start ∧ e.start < 253402300800000)
    (hgrid : ∀ e ∈ evs, ∃ k : ℤ, e.start = k * 60000) :
    List.Chain' (fun a b => a.start ≤ b.start) evs := by
  obtain ⟨events, hevs⟩ := create_ok_mergeSort hok
  subst hevs
  have hp : List.Pairwise (fun a b => eventLe a b = true) (events.mergeSort eventLe) :=
    List.sorted_mergeSort eventLe_trans eventLe_total events
  have hp2 : List.Pairwise (fun a b : JetLagEvent => a.start ≤ b.start)
      (events.mergeSort eventLe) := by
    refine List.Pairwise.imp_of_mem ?_ hp
    intro a b ha hb hab
    by_contra hlt
    push_neg at hlt
    have hx := toIso_lt (hgrid b hb) (hgrid a ha) (hrange b hb).1 (hrange a ha).2 hlt
    rw [eventLe, lexLe, hx] at hab
    exact absurd hab (by decide)
  exact hp2.chain'

end JetLag

namespace JetLag

theorem claim5_witness :
    List.Chain' (fun a b : JetLagEvent => a.start ≤ b.start) eventsD := by
  refine claim5_sorted_when_years_single_width inpDelay eventsD create_D ?_ ?_
  · intro e he
    simp only [eventsD, List.mem_cons, List.mem_nil_iff, or_false] at he
    rcases he with rfl | rfl | rfl | rfl | rfl | rfl | rfl | rfl | rfl | rfl | rfl | rfl | rfl | rfl | rfl | rfl | rfl | rfl | rfl | rfl | rfl | rfl | rfl | rfl | rfl | rfl | rfl | rfl | rfl | rfl | rfl | rfl <;>
      exact ⟨by norm_num [baseEvent], by norm_num [baseEvent]⟩
  · intro e he
    simp only [eventsD, List.mem_cons, List.mem_nil_iff, or_false] at he
    rcases he with rfl | rfl | rfl | rfl | rfl | rfl | rfl | rfl | rfl | rfl | rfl | rfl | rfl | rfl | rfl | rfl | rfl | rfl | rfl | rfl | rfl | rfl | rfl | rfl | rfl | rfl | rfl | rfl | rfl | rfl | rfl | rfl
    · exact ⟨29288400, by norm_num [baseEvent]⟩
    · exact ⟨29289540, by norm_num [baseEvent]⟩
    · exact ⟨29289840, by norm_num [baseEvent]⟩
    · exact ⟨29290980, by norm_num [baseEvent]⟩
    · exact ⟨29291280, by norm_num [baseEvent]⟩
    · exact ⟨29292120, by norm_num [baseEvent]⟩
    · exact ⟨29292540, by norm_num [baseEvent]⟩
    · exact ⟨29292720, by norm_num [baseEvent]⟩
    · exact ⟨29292720, by norm_num [baseEvent]⟩
    · exact ⟨29294070, by norm_num [baseEvent]⟩
    · exact ⟨29294250, by norm_num [baseEvent]⟩
    · exact ⟨29294250, by norm_num [baseEvent]⟩
    · exact ⟨29294340, by norm_num [baseEvent]⟩
    · exact ⟨29295600, by norm_num [baseEvent]⟩
    · exact ⟨29295780, by norm_num [baseEvent]⟩
    · exact ⟨29295780, by norm_num [baseEvent]⟩
    · exact ⟨29295780, by norm_num [baseEvent]⟩
    · exact ⟨29297130, by norm_num [baseEvent]⟩
    · exact ⟨29297220, by norm_num [baseEvent]⟩
    · exact ⟨29297310, by norm_num [baseEvent]⟩
    · exact ⟨29297310, by norm_num [baseEvent]⟩
    · exact ⟨29298660, by norm_num [baseEvent]⟩
    · exact ⟨29298840, by norm_num [baseEvent]⟩
    · exact ⟨29300100, by norm_num [baseEvent]⟩
    · exact ⟨29300340, by norm_num [baseEvent]⟩
    · exact ⟨29301540, by norm_num [baseEvent]⟩
    · exact ⟨29301840, by norm_num [baseEvent]⟩
    · exact ⟨29302980, by norm_num [baseEvent]⟩
    · exact ⟨29303280, by norm_num [baseEvent]⟩
    · exact ⟨29304420, by norm_num [baseEvent]⟩
    · exact ⟨29304720, by norm_num [baseEvent]⟩
    · exact ⟨29305860, by norm_num [baseEvent]⟩

end JetLag


namespace JetLag

def inpY : JetLagInputs where
  originOffset := 0
  destOffset := -8
  originSleepStart := "23:00"
  originSleepEnd := "07:00"
  destSleepStart := "23:00"
  destSleepEnd := "07:00"
  travelStart := "9999-12-29T18:00"
  travelEnd := "9999-12-30T08:00"
  useMelatonin := false
  useLightDark := true
  useExercise := false
  preDays := 0
  adjustmentStart := "travel_start"

theorem parseDT9999a : parseLocalDateTime "9999-12-29T18:00" = .ok 253402106400000 := by decide
theorem parseDT9999b : parseLocalDateTime "9999-12-30T08:00" = .ok 253402156800000 := by decide


/-- The `Setup` record `mkSetup` produces for `inpY`. -/
def stY : Setup :=
  { originSleepStartUtc := 1380, originSleepEndUtc := 420,
    destinationSleepStartUtc := 420, destinationSleepEndUtc := 900,
    travelStartUtc := 253402106400000, travelEndUtc := 253402185600000,
    mode := "travel_start", effectivePreDays := 0,
    startOfShift := 253402106400000,
    cbt := { originCbtmin := 240, destCbtmin := 720, presets := PRESETS_default,
             cbtmin := 240, phase_direction := .delay },
    midnightStartOfCalculations := 253401868800000,
    noInterventionWindow := none }

/-- The `CBTmin` states of the `inpY` run differ only in `cbtmin`. -/
def cbtY (c : ℚ) : CBTmin :=
  { originCbtmin := 240, destCbtmin := 720, presets := PRESETS_default,
    cbtmin := c, phase_direction := .delay }

theorem mkSetup_Y : mkSetup inpY = .ok stY := by
  rw [mkSetup, inpY, parseHM2300, parseHM0700, parseDT9999a, parseDT9999b]
  norm_num +decide [sumTimeDelta, normalizeMinutes, mod, jsRem, qtrunc, addHours,
    addDays, midnightForDatetime, MS_HOUR, MS_MINUTE, MS_DAY, jsToLower, lowerChar,
    CBTmin.fromSleep, CBTmin.make, CBTmin.signedDifference, hoursFromMinutes,
    subtractTimes, canon, modeOf, stY]

def ctxY : LoopCtx :=
  { useMelatonin := false, useExercise := false, useLightDark := true,
    noInterventionWindow := none, mode := "travel_start",
    startOfShift := 253402106400000, travelStartUtc := 253402106400000 }

theorem ctx_Y_eq : ctxOf inpY stY = ctxY := by
  norm_num [ctxOf, inpY, stY, ctxY]

theorem first_Y : firstCbtminOf inpY stY = 253401883200000 := by
  norm_num +decide [firstCbtminOf, inpY, stY, CBTmin.nextCbtmin, CBTmin.naiveNext, CBTmin.optimalSchedule, CBTmin.suppressedFlags, CBTmin.loopDelta, CBTmin.deltaCbtmin, CBTmin.signedDifference, CBTmin.optimalMelatoninTime, CBTmin.optimalExerciseWindow, CBTmin.optimalLightWindow, CBTmin.optimalDarkWindow, PRESETS_default, hoursFromMinutes, subtractTimes, sumTimeDelta, normalizeMinutes, mod, jsRem, qtrunc, addHours, addDays, midnightForDatetime, combineDateMinutes, intersectionHours, isInsideInterval, EPSILON, MS_HOUR, MS_MINUTE, MS_DAY, loopOptions, isPreconditionFor, absQ_ite]

/-- The entries the convergence loop appends on the `inpY` run. -/
def loopOutY : List (CBTmin × CBTEntry) := [
  (cbtY 240, ⟨253401969600000, ⟨(false, 253401897600000), (false, (253401872400000, 253401883200000)), (false, (253401872400000, 253401883200000)), (false, (253401883200000, 253401894000000))⟩⟩),
  (cbtY 240, ⟨253402056000000, ⟨(false, 253401984000000), (false, (253401958800000, 253401969600000)), (false, (253401958800000, 253401969600000)), (false, (253401969600000, 253401980400000))⟩⟩),
  (cbtY 240, ⟨253402142400000, ⟨(false, 253402070400000), (false, (253402045200000, 253402056000000)), (false, (253402045200000, 253402056000000)), (false, (253402056000000, 253402066800000))⟩⟩),
  (cbtY 330, ⟨253402234200000, ⟨(false, 253402156800000), (false, (253402131600000, 253402142400000)), (true, (253402131600000, 253402142400000)), (true, (253402142400000, 253402153200000))⟩⟩),
  (cbtY 420, ⟨253402326000000, ⟨(false, 253402248600000), (false, (253402223400000, 253402234200000)), (true, (253402223400000, 253402234200000)), (true, (253402234200000, 253402245000000))⟩⟩),
  (cbtY 510, ⟨253402417800000, ⟨(false, 253402340400000), (false, (253402315200000, 253402326000000)), (true, (253402315200000, 253402326000000)), (true, (253402326000000, 253402336800000))⟩⟩),
  (cbtY 600, ⟨253402509600000, ⟨(false, 253402432200000), (false, (253402407000000, 253402417800000)), (true, (253402407000000, 253402417800000)), (true, (253402417800000, 253402428600000))⟩⟩),
  (cbtY 660, ⟨253402599600000, ⟨(false, 253402524000000), (false, (253402498800000, 253402509600000)), (false, (253402498800000, 253402509600000)), (false, (253402509600000, 253402520400000))⟩⟩),
  (cbtY 720, ⟨253402689600000, ⟨(false, 253402614000000), (false, (253402588800000, 253402599600000)), (false, (253402588800000, 253402599600000)), (false, (253402599600000, 253402610400000))⟩⟩),
  (cbtY 720, ⟨253402776000000, ⟨(false, 253402704000000), (false, (253402678800000, 253402689600000)), (false, (253402678800000, 253402689600000)), (false, (253402689600000, 253402700400000))⟩⟩),
  (cbtY 720, ⟨253402862400000, ⟨(false, 253402790400000), (false, (253402765200000, 253402776000000)), (false, (253402765200000, 253402776000000)), (false, (253402776000000, 253402786800000))⟩⟩)]

theorem loop_Y_11 :
    convergenceLoop ctxY 14 (cbtY 720) 253402862400000 2 =
      some (cbtY 720, loopOutY.drop 11) := by
  refine convergenceLoop_stop _ 13 _ _ _ ?_
  norm_num [cbtY, CBTmin.signedDifference, hoursFromMinutes, subtractTimes,
    mod, jsRem, qtrunc, EPSILON, canon, absQ_ite]

set_option maxHeartbeats 1000000 in
theorem loop_Y_10 :
    convergenceLoop ctxY 15 (cbtY 720) 253402776000000 1 =
      some (cbtY 720, loopOutY.drop 10) := by
  refine convergenceLoop_cons _ 14 _ _ _ 2 (cbtY 720)
    ⟨253402862400000, ⟨(false, 253402790400000), (false, (253402765200000, 253402776000000)), (false, (253402765200000, 253402776000000)), (false, (253402776000000, 253402786800000))⟩⟩ (cbtY 720, loopOutY.drop 11) ?_ ?_ ?_ loop_Y_11
  · norm_num [cbtY, CBTmin.signedDifference, hoursFromMinutes, subtractTimes,
      mod, jsRem, qtrunc, EPSILON, absQ_ite]
  · norm_num [cbtY, CBTmin.signedDifference, hoursFromMinutes, subtractTimes,
      mod, jsRem, qtrunc, EPSILON, absQ_ite]
  · norm_num +decide [cbtY, ctxY, CBTmin.nextCbtmin, CBTmin.naiveNext, CBTmin.optimalSchedule, CBTmin.suppressedFlags, CBTmin.loopDelta, CBTmin.deltaCbtmin, CBTmin.signedDifference, CBTmin.optimalMelatoninTime, CBTmin.optimalExerciseWindow, CBTmin.optimalLightWindow, CBTmin.optimalDarkWindow, PRESETS_default, hoursFromMinutes, subtractTimes, sumTimeDelta, normalizeMinutes, mod, jsRem, qtrunc, addHours, addDays, midnightForDatetime, combineDateMinutes, intersectionHours, isInsideInterval, EPSILON, MS_HOUR, MS_MINUTE, MS_DAY, loopOptions, isPreconditionFor, absQ_ite]

set_option maxHeartbeats 1000000 in
theorem loop_Y_9 :
    convergenceLoop ctxY 16 (cbtY 720) 253402689600000 0 =
      some (cbtY 720, loopOutY.drop 9) := by
  refine convergenceLoop_cons _ 15 _ _ _ 1 (cbtY 720)
    ⟨253402776000000, ⟨(false, 253402704000000), (false, (253402678800000, 253402689600000)), (false, (253402678800000, 253402689600000)), (false, (253402689600000, 253402700400000))⟩⟩ (cbtY 720, loopOutY.drop 10) ?_ ?_ ?_ loop_Y_10
  · norm_num [cbtY, CBTmin.signedDifference, hoursFromMinutes, subtractTimes,
      mod, jsRem, qtrunc, EPSILON, absQ_ite]
  · norm_num [cbtY, CBTmin.signedDifference, hoursFromMinutes, subtractTimes,
      mod, jsRem, qtrunc, EPSILON, absQ_ite]
  · norm_num +decide [cbtY, ctxY, CBTmin.nextCbtmin, CBTmin.naiveNext, CBTmin.optimalSchedule, CBTmin.suppressedFlags, CBTmin.loopDelta, CBTmin.deltaCbtmin, CBTmin.signedDifference, CBTmin.optimalMelatoninTime, CBTmin.optimalExerciseWindow, CBTmin.optimalLightWindow, CBTmin.optimalDarkWindow, PRESETS_default, hoursFromMinutes, subtractTimes, sumTimeDelta, normalizeMinutes, mod, jsRem, qtrunc, addHours, addDays, midnightForDatetime, combineDateMinutes, intersectionHours, isInsideInterval, EPSILON, MS_HOUR, MS_MINUTE, MS_DAY, loopOptions, isPreconditionFor, absQ_ite]

set_option maxHeartbeats 1000000 in
theorem loop_Y_8 :
    convergenceLoop ctxY 17 (cbtY 660) 253402599600000 0 =
      some (cbtY 720, loopOutY.drop 8) := by
  refine convergenceLoop_cons _ 16 _ _ _ 0 (cbtY 720)
    ⟨253402689600000, ⟨(false, 253402614000000), (false, (253402588800000, 253402599600000)), (false, (253402588800000, 253402599600000)), (false, (253402599600000, 253402610400000))⟩⟩ (cbtY 720, loopOutY.drop 9) ?_ ?_ ?_ loop_Y_9
  · norm_num [cbtY, CBTmin.signedDifference, hoursFromMinutes, subtractTimes,
      mod, jsRem, qtrunc, EPSILON, absQ_ite]
  · norm_num [cbtY, CBTmin.signedDifference, hoursFromMinutes, subtractTimes,
      mod, jsRem, qtrunc, EPSILON, absQ_ite]
  · norm_num +decide [cbtY, ctxY, CBTmin.nextCbtmin, CBTmin.naiveNext, CBTmin.optimalSchedule, CBTmin.suppressedFlags, CBTmin.loopDelta, CBTmin.deltaCbtmin, CBTmin.signedDifference, CBTmin.optimalMelatoninTime, CBTmin.optimalExerciseWindow, CBTmin.optimalLightWindow, CBTmin.optimalDarkWindow, PRESETS_default, hoursFromMinutes, subtractTimes, sumTimeDelta, normalizeMinutes, mod, jsRem, qtrunc, addHours, addDays, midnightForDatetime, combineDateMinutes, intersectionHours, isInsideInterval, EPSILON, MS_HOUR, MS_MINUTE, MS_DAY, loopOptions, isPreconditionFor, absQ_ite]

set_option maxHeartbeats 1000000 in
theorem loop_Y_7 :
    convergenceLoop ctxY 18 (cbtY 600) 253402509600000 0 =
      some (cbtY 720, loopOutY.drop 7) := by
  refine convergenceLoop_cons _ 17 _ _ _ 0 (cbtY 660)
    ⟨253402599600000, ⟨(false, 253402524000000), (false, (253402498800000, 253402509600000)), (false, (253402498800000, 253402509600000)), (false, (253402509600000, 253402520400000))⟩⟩ (cbtY 720, loopOutY.drop 8) ?_ ?_ ?_ loop_Y_8
  · norm_num [cbtY, CBTmin.signedDifference, hoursFromMinutes, subtractTimes,
      mod, jsRem, qtrunc, EPSILON, absQ_ite]
  · norm_num [cbtY, CBTmin.signedDifference, hoursFromMinutes, subtractTimes,
      mod, jsRem, qtrunc, EPSILON, absQ_ite]
  · norm_num +decide [cbtY, ctxY, CBTmin.nextCbtmin, CBTmin.naiveNext, CBTmin.optimalSchedule, CBTmin.suppressedFlags, CBTmin.loopDelta, CBTmin.deltaCbtmin, CBTmin.signedDifference, CBTmin.optimalMelatoninTime, CBTmin.optimalExerciseWindow, CBTmin.optimalLightWindow, CBTmin.optimalDarkWindow, PRESETS_default, hoursFromMinutes, subtractTimes, sumTimeDelta, normalizeMinutes, mod, jsRem, qtrunc, addHours, addDays, midnightForDatetime, combineDateMinutes, intersectionHours, isInsideInterval, EPSILON, MS_HOUR, MS_MINUTE, MS_DAY, loopOptions, isPreconditionFor, absQ_ite]

set_option maxHeartbeats 1000000 in
theorem loop_Y_6 :
    convergenceLoop ctxY 19 (cbtY 510) 253402417800000 0 =
      some (cbtY 720, loopOutY.drop 6) := by
  refine convergenceLoop_cons _ 18 _ _ _ 0 (cbtY 600)
    ⟨253402509600000, ⟨(false, 253402432200000), (false, (253402407000000, 253402417800000)), (true, (253402407000000, 253402417800000)), (true, (253402417800000, 253402428600000))⟩⟩ (cbtY 720, loopOutY.drop 7) ?_ ?_ ?_ loop_Y_7
  · norm_num [cbtY, CBTmin.signedDifference, hoursFromMinutes, subtractTimes,
      mod, jsRem, qtrunc, EPSILON, absQ_ite]
  · norm_num [cbtY, CBTmin.signedDifference, hoursFromMinutes, subtractTimes,
      mod, jsRem, qtrunc, EPSILON, absQ_ite]
  · norm_num +decide [cbtY, ctxY, CBTmin.nextCbtmin, CBTmin.naiveNext, CBTmin.optimalSchedule, CBTmin.suppressedFlags, CBTmin.loopDelta, CBTmin.deltaCbtmin, CBTmin.signedDifference, CBTmin.optimalMelatoninTime, CBTmin.optimalExerciseWindow, CBTmin.optimalLightWindow, CBTmin.optimalDarkWindow, PRESETS_default, hoursFromMinutes, subtractTimes, sumTimeDelta, normalizeMinutes, mod, jsRem, qtrunc, addHours, addDays, midnightForDatetime, combineDateMinutes, intersectionHours, isInsideInterval, EPSILON, MS_HOUR, MS_MINUTE, MS_DAY, loopOptions, isPreconditionFor, absQ_ite]

set_option maxHeartbeats 1000000 in
theorem loop_Y_5 :
    convergenceLoop ctxY 20 (cbtY 420) 253402326000000 0 =
      some (cbtY 720, loopOutY.drop 5) := by
  refine convergenceLoop_cons _ 19 _ _ _ 0 (cbtY 510)
    ⟨253402417800000, ⟨(false, 253402340400000), (false, (253402315200000, 253402326000000)), (true, (253402315200000, 253402326000000)), (true, (253402326000000, 253402336800000))⟩⟩ (cbtY 720, loopOutY.drop 6) ?_ ?_ ?_ loop_Y_6
  · norm_num [cbtY, CBTmin.signedDifference, hoursFromMinutes, subtractTimes,
      mod, jsRem, qtrunc, EPSILON, absQ_ite]
  · norm_num [cbtY, CBTmin.signedDifference, hoursFromMinutes, subtractTimes,
      mod, jsRem, qtrunc, EPSILON, absQ_ite]
  · norm_num +decide [cbtY, ctxY, CBTmin.nextCbtmin, CBTmin.naiveNext, CBTmin.optimalSchedule, CBTmin.suppressedFlags, CBTmin.loopDelta, CBTmin.deltaCbtmin, CBTmin.signedDifference, CBTmin.optimalMelatoninTime, CBTmin.optimalExerciseWindow, CBTmin.optimalLightWindow, CBTmin.optimalDarkWindow, PRESETS_default, hoursFromMinutes, subtractTimes, sumTimeDelta, normalizeMinutes, mod, jsRem, qtrunc, addHours, addDays, midnightForDatetime, combineDateMinutes, intersectionHours, isInsideInterval, EPSILON, MS_HOUR, MS_MINUTE, MS_DAY, loopOptions, isPreconditionFor, absQ_ite]

set_option maxHeartbeats 1000000 in
theorem loop_Y_4 :
    convergenceLoop ctxY 21 (cbtY 330) 253402234200000 0 =
      some (cbtY 720, loopOutY.drop 4) := by
  refine convergenceLoop_cons _ 20 _ _ _ 0 (cbtY 420)
    ⟨253402326000000, ⟨(false, 253402248600000), (false, (253402223400000, 253402234200000)), (true, (253402223400000, 253402234200000)), (true, (253402234200000, 253402245000000))⟩⟩ (cbtY 720, loopOutY.drop 5) ?_ ?_ ?_ loop_Y_5
  · norm_num [cbtY, CBTmin.signedDifference, hoursFromMinutes, subtractTimes,
      mod, jsRem, qtrunc, EPSILON, absQ_ite]
  · norm_num [cbtY, CBTmin.signedDifference, hoursFromMinutes, subtractTimes,
      mod, jsRem, qtrunc, EPSILON, absQ_ite]
  · norm_num +decide [cbtY, ctxY, CBTmin.nextCbtmin, CBTmin.naiveNext, CBTmin.optimalSchedule, CBTmin.suppressedFlags, CBTmin.loopDelta, CBTmin.deltaCbtmin, CBTmin.signedDifference, CBTmin.optimalMelatoninTime, CBTmin.optimalExerciseWindow, CBTmin.optimalLightWindow, CBTmin.optimalDarkWindow, PRESETS_default, hoursFromMinutes, subtractTimes, sumTimeDelta, normalizeMinutes, mod, jsRem, qtrunc, addHours, addDays, midnightForDatetime, combineDateMinutes, intersectionHours, isInsideInterval, EPSILON, MS_HOUR, MS_MINUTE, MS_DAY, loopOptions, isPreconditionFor, absQ_ite]

set_option maxHeartbeats 1000000 in
theorem loop_Y_3 :
    convergenceLoop ctxY 22 (cbtY 240) 253402142400000 0 =
      some (cbtY 720, loopOutY.drop 3) := by
  refine convergenceLoop_cons _ 21 _ _ _ 0 (cbtY 330)
    ⟨253402234200000, ⟨(false, 253402156800000), (false, (253402131600000, 253402142400000)), (true, (253402131600000, 253402142400000)), (true, (253402142400000, 253402153200000))⟩⟩ (cbtY 720, loopOutY.drop 4) ?_ ?_ ?_ loop_Y_4
  · norm_num [cbtY, CBTmin.signedDifference, hoursFromMinutes, subtractTimes,
      mod, jsRem, qtrunc, EPSILON, absQ_ite]
  · norm_num [cbtY, CBTmin.signedDifference, hoursFromMinutes, subtractTimes,
      mod, jsRem, qtrunc, EPSILON, absQ_ite]
  · norm_num +decide [cbtY, ctxY, CBTmin.nextCbtmin, CBTmin.naiveNext, CBTmin.optimalSchedule, CBTmin.suppressedFlags, CBTmin.loopDelta, CBTmin.deltaCbtmin, CBTmin.signedDifference, CBTmin.optimalMelatoninTime, CBTmin.optimalExerciseWindow, CBTmin.optimalLightWindow, CBTmin.optimalDarkWindow, PRESETS_default, hoursFromMinutes, subtractTimes, sumTimeDelta, normalizeMinutes, mod, jsRem, qtrunc, addHours, addDays, midnightForDatetime, combineDateMinutes, intersectionHours, isInsideInterval, EPSILON, MS_HOUR, MS_MINUTE, MS_DAY, loopOptions, isPreconditionFor, absQ_ite]

set_option maxHeartbeats 1000000 in
theorem loop_Y_2 :
    convergenceLoop ctxY 23 (cbtY 240) 253402056000000 0 =
      some (cbtY 720, loopOutY.drop 2) := by
  refine convergenceLoop_cons _ 22 _ _ _ 0 (cbtY 240)
    ⟨253402142400000, ⟨(false, 253402070400000), (false, (253402045200000, 253402056000000)), (false, (253402045200000, 253402056000000)), (false, (253402056000000, 253402066800000))⟩⟩ (cbtY 720, loopOutY.drop 3) ?_ ?_ ?_ loop_Y_3
  · norm_num [cbtY, CBTmin.signedDifference, hoursFromMinutes, subtractTimes,
      mod, jsRem, qtrunc, EPSILON, absQ_ite]
  · norm_num [cbtY, CBTmin.signedDifference, hoursFromMinutes, subtractTimes,
      mod, jsRem, qtrunc, EPSILON, absQ_ite]
  · norm_num +decide [cbtY, ctxY, CBTmin.nextCbtmin, CBTmin.naiveNext, CBTmin.optimalSchedule, CBTmin.suppressedFlags, CBTmin.loopDelta, CBTmin.deltaCbtmin, CBTmin.signedDifference, CBTmin.optimalMelatoninTime, CBTmin.optimalExerciseWindow, CBTmin.optimalLightWindow, CBTmin.optimalDarkWindow, PRESETS_default, hoursFromMinutes, subtractTimes, sumTimeDelta, normalizeMinutes, mod, jsRem, qtrunc, addHours, addDays, midnightForDatetime, combineDateMinutes, intersectionHours, isInsideInterval, EPSILON, MS_HOUR, MS_MINUTE, MS_DAY, loopOptions, isPreconditionFor, absQ_ite]

set_option maxHeartbeats 1000000 in
theorem loop_Y_1 :
    convergenceLoop ctxY 24 (cbtY 240) 253401969600000 0 =
      some (cbtY 720, loopOutY.drop 1) := by
  refine convergenceLoop_cons _ 23 _ _ _ 0 (cbtY 240)
    ⟨253402056000000, ⟨(false, 253401984000000), (false, (253401958800000, 253401969600000)), (false, (253401958800000, 253401969600000)), (false, (253401969600000, 253401980400000))⟩⟩ (cbtY 720, loopOutY.drop 2) ?_ ?_ ?_ loop_Y_2
  · norm_num [cbtY, CBTmin.signedDifference, hoursFromMinutes, subtractTimes,
      mod, jsRem, qtrunc, EPSILON, absQ_ite]
  · norm_num [cbtY, CBTmin.signedDifference, hoursFromMinutes, subtractTimes,
      mod, jsRem, qtrunc, EPSILON, absQ_ite]
  · norm_num +decide [cbtY, ctxY, CBTmin.nextCbtmin, CBTmin.naiveNext, CBTmin.optimalSchedule, CBTmin.suppressedFlags, CBTmin.loopDelta, CBTmin.deltaCbtmin, CBTmin.signedDifference, CBTmin.optimalMelatoninTime, CBTmin.optimalExerciseWindow, CBTmin.optimalLightWindow, CBTmin.optimalDarkWindow, PRESETS_default, hoursFromMinutes, subtractTimes, sumTimeDelta, normalizeMinutes, mod, jsRem, qtrunc, addHours, addDays, midnightForDatetime, combineDateMinutes, intersectionHours, isInsideInterval, EPSILON, MS_HOUR, MS_MINUTE, MS_DAY, loopOptions, isPreconditionFor, absQ_ite]

set_option maxHeartbeats 1000000 in
theorem loop_Y_0 :
    convergenceLoop ctxY 25 (cbtY 240) 253401883200000 0 =
      some (cbtY 720, loopOutY.drop 0) := by
  refine convergenceLoop_cons _ 24 _ _ _ 0 (cbtY 240)
    ⟨253401969600000, ⟨(false, 253401897600000), (false, (253401872400000, 253401883200000)), (false, (253401872400000, 253401883200000)), (false, (253401883200000, 253401894000000))⟩⟩ (cbtY 720, loopOutY.drop 1) ?_ ?_ ?_ loop_Y_1
  · norm_num [cbtY, CBTmin.signedDifference, hoursFromMinutes, subtractTimes,
      mod, jsRem, qtrunc, EPSILON, absQ_ite]
  · norm_num [cbtY, CBTmin.signedDifference, hoursFromMinutes, subtractTimes,
      mod, jsRem, qtrunc, EPSILON, absQ_ite]
  · norm_num +decide [cbtY, ctxY, CBTmin.nextCbtmin, CBTmin.naiveNext, CBTmin.optimalSchedule, CBTmin.suppressedFlags, CBTmin.loopDelta, CBTmin.deltaCbtmin, CBTmin.signedDifference, CBTmin.optimalMelatoninTime, CBTmin.optimalExerciseWindow, CBTmin.optimalLightWindow, CBTmin.optimalDarkWindow, PRESETS_default, hoursFromMinutes, subtractTimes, sumTimeDelta, normalizeMinutes, mod, jsRem, qtrunc, addHours, addDays, midnightForDatetime, combineDateMinutes, intersectionHours, isInsideInterval, EPSILON, MS_HOUR, MS_MINUTE, MS_DAY, loopOptions, isPreconditionFor, absQ_ite]

/-- The sleep windows of the `inpY` run. -/
def sleepOutY : List Interval := [
  (253401951600000, 253401980400000),
  (253402038000000, 253402066800000),
  (253402239600000, 253402268400000),
  (253402326000000, 253402354800000),
  (253402412400000, 253402441200000),
  (253402498800000, 253402527600000),
  (253402585200000, 253402614000000),
  (253402671600000, 253402700400000),
  (253402758000000, 253402786800000),
  (253402844400000, 253402873200000),
  (253402930800000, 253402959600000)]

theorem sleep_Y_13 :
    sleepLoop (1380, 420) (420, 900) (253402106400000, 253402185600000) 253402905600000 21 253402959600000 true = some (sleepOutY.drop 11) := by
  refine sleepLoop_stop _ _ _ _ 20 _ _ ?_
  norm_num

set_option maxHeartbeats 1000000 in
theorem sleep_Y_12 :
    sleepLoop (1380, 420) (420, 900) (253402106400000, 253402185600000) 253402905600000 22 253402873200000 true = some (sleepOutY.drop 10) := by
  refine sleepLoop_push _ _ _ _ 21 _ 253402959600000 _ true
    (253402930800000, 253402959600000) (sleepOutY.drop 11) ?_ ?_ sleep_Y_13
  · norm_num
  · norm_num +decide [sleepStep, nextInterval, combineDateMinutes, midnightForDatetime,
      addDays, intersectionHours, MS_HOUR, MS_MINUTE, MS_DAY]

set_option maxHeartbeats 1000000 in
theorem sleep_Y_11 :
    sleepLoop (1380, 420) (420, 900) (253402106400000, 253402185600000) 253402905600000 23 253402786800000 true = some (sleepOutY.drop 9) := by
  refine sleepLoop_push _ _ _ _ 22 _ 253402873200000 _ true
    (253402844400000, 253402873200000) (sleepOutY.drop 10) ?_ ?_ sleep_Y_12
  · norm_num
  · norm_num +decide [sleepStep, nextInterval, combineDateMinutes, midnightForDatetime,
      addDays, intersectionHours, MS_HOUR, MS_MINUTE, MS_DAY]

set_option maxHeartbeats 1000000 in
theorem sleep_Y_10 :
    sleepLoop (1380, 420) (420, 900) (253402106400000, 253402185600000) 253402905600000 24 253402700400000 true = some (sleepOutY.drop 8) := by
  refine sleepLoop_push _ _ _ _ 23 _ 253402786800000 _ true
    (253402758000000, 253402786800000) (sleepOutY.drop 9) ?_ ?_ sleep_Y_11
  · norm_num
  · norm_num +decide [sleepStep, nextInterval, combineDateMinutes, midnightForDatetime,
      addDays, intersectionHours, MS_HOUR, MS_MINUTE, MS_DAY]

set_option maxHeartbeats 1000000 in
theorem sleep_Y_9 :
    sleepLoop (1380, 420) (420, 900) (253402106400000, 253402185600000) 253402905600000 25 253402614000000 true = some (sleepOutY.drop 7) := by
  refine sleepLoop_push _ _ _ _ 24 _ 253402700400000 _ true
    (253402671600000, 253402700400000) (sleepOutY.drop 8) ?_ ?_ sleep_Y_10
  · norm_num
  · norm_num +decide [sleepStep, nextInterval, combineDateMinutes, midnightForDatetime,
      addDays, intersectionHours, MS_HOUR, MS_MINUTE, MS_DAY]

set_option maxHeartbeats 1000000 in
theorem sleep_Y_8 :
    sleepLoop (1380, 420) (420, 900) (253402106400000, 253402185600000) 253402905600000 26 253402527600000 true = some (sleepOutY.drop 6) := by
  refine sleepLoop_push _ _ _ _ 25 _ 253402614000000 _ true
    (253402585200000, 253402614000000) (sleepOutY.drop 7) ?_ ?_ sleep_Y_9
  · norm_num
  · norm_num +decide [sleepStep, nextInterval, combineDateMinutes, midnightForDatetime,
      addDays, intersectionHours, MS_HOUR, MS_MINUTE, MS_DAY]

set_option maxHeartbeats 1000000 in
theorem sleep_Y_7 :
    sleepLoop (1380, 420) (420, 900) (253402106400000, 253402185600000) 253402905600000 27 253402441200000 true = some (sleepOutY.drop 5) := by
  refine sleepLoop_push _ _ _ _ 26 _ 253402527600000 _ true
    (253402498800000, 253402527600000) (sleepOutY.drop 6) ?_ ?_ sleep_Y_8
  · norm_num
  · norm_num +decide [sleepStep, nextInterval, combineDateMinutes, midnightForDatetime,
      addDays, intersectionHours, MS_HOUR, MS_MINUTE, MS_DAY]

set_option maxHeartbeats 1000000 in
theorem sleep_Y_6 :
    sleepLoop (1380, 420) (420, 900) (253402106400000, 253402185600000) 253402905600000 28 253402354800000 true = some (sleepOutY.drop 4) := by
  refine sleepLoop_push _ _ _ _ 27 _ 253402441200000 _ true
    (253402412400000, 253402441200000) (sleepOutY.drop 5) ?_ ?_ sleep_Y_7
  · norm_num
  · norm_num +decide [sleepStep, nextInterval, combineDateMinutes, midnightForDatetime,
      addDays, intersectionHours, MS_HOUR, MS_MINUTE, MS_DAY]

set_option maxHeartbeats 1000000 in
theorem sleep_Y_5 :
    sleepLoop (1380, 420) (420, 900) (253402106400000, 253402185600000) 253402905600000 29 253402268400000 true = some (sleepOutY.drop 3) := by
  refine sleepLoop_push _ _ _ _ 28 _ 253402354800000 _ true
    (253402326000000, 253402354800000) (sleepOutY.drop 4) ?_ ?_ sleep_Y_6
  · norm_num
  · norm_num +decide [sleepStep, nextInterval, combineDateMinutes, midnightForDatetime,
      addDays, intersectionHours, MS_HOUR, MS_MINUTE, MS_DAY]

set_option maxHeartbeats 1000000 in
theorem sleep_Y_4 :
    sleepLoop (1380, 420) (420, 900) (253402106400000, 253402185600000) 253402905600000 30 253402239600000 true = some (sleepOutY.drop 2) := by
  refine sleepLoop_push _ _ _ _ 29 _ 253402268400000 _ true
    (253402239600000, 253402268400000) (sleepOutY.drop 3) ?_ ?_ sleep_Y_5
  · norm_num
  · norm_num +decide [sleepStep, nextInterval, combineDateMinutes, midnightForDatetime,
      addDays, intersectionHours, MS_HOUR, MS_MINUTE, MS_DAY]

set_option maxHeartbeats 1000000 in
theorem sleep_Y_3 :
    sleepLoop (1380, 420) (420, 900) (253402106400000, 253402185600000) 253402905600000 31 253402153200000 false = some (sleepOutY.drop 2) := by
  refine Eq.trans (sleepLoop_skip _ _ _ _ 30 _ 253402239600000 _ true ?_ ?_) sleep_Y_4
  · norm_num
  · norm_num +decide [sleepStep, nextInterval, combineDateMinutes, midnightForDatetime,
      addDays, intersectionHours, MS_HOUR, MS_MINUTE, MS_DAY]

set_option maxHeartbeats 1000000 in
theorem sleep_Y_2 :
    sleepLoop (1380, 420) (420, 900) (253402106400000, 253402185600000) 253402905600000 32 253402066800000 false = some (sleepOutY.drop 2) := by
  refine Eq.trans (sleepLoop_skip _ _ _ _ 31 _ 253402153200000 _ false ?_ ?_) sleep_Y_3
  · norm_num
  · norm_num +decide [sleepStep, nextInterval, combineDateMinutes, midnightForDatetime,
      addDays, intersectionHours, MS_HOUR, MS_MINUTE, MS_DAY]

set_option maxHeartbeats 1000000 in
theorem sleep_Y_1 :
    sleepLoop (1380, 420) (420, 900) (253402106400000, 253402185600000) 253402905600000 33 253401980400000 false = some (sleepOutY.drop 1) := by
  refine sleepLoop_push _ _ _ _ 32 _ 253402066800000 _ false
    (253402038000000, 253402066800000) (sleepOutY.drop 2) ?_ ?_ sleep_Y_2
  · norm_num
  · norm_num +decide [sleepStep, nextInterval, combineDateMinutes, midnightForDatetime,
      addDays, intersectionHours, MS_HOUR, MS_MINUTE, MS_DAY]

set_option maxHeartbeats 1000000 in
theorem sleep_Y_0 :
    sleepLoop (1380, 420) (420, 900) (253402106400000, 253402185600000) 253402905600000 34 253401868800000 false = some (sleepOutY.drop 0) := by
  refine sleepLoop_push _ _ _ _ 33 _ 253401980400000 _ false
    (253401951600000, 253401980400000) (sleepOutY.drop 1) ?_ ?_ sleep_Y_1
  · norm_num
  · norm_num +decide [sleepStep, nextInterval, combineDateMinutes, midnightForDatetime,
      addDays, intersectionHours, MS_HOUR, MS_MINUTE, MS_DAY]

theorem stY_cbt : stY.cbt = cbtY 240 := rfl
theorem stY_p1 : stY.originSleepStartUtc = 1380 := rfl
theorem stY_p2 : stY.originSleepEndUtc = 420 := rfl
theorem stY_p3 : stY.destinationSleepStartUtc = 420 := rfl
theorem stY_p4 : stY.destinationSleepEndUtc = 900 := rfl
theorem stY_p5 : stY.travelStartUtc = 253402106400000 := rfl
theorem stY_p6 : stY.travelEndUtc = 253402185600000 := rfl
theorem stY_p7 : stY.midnightStartOfCalculations = 253401868800000 := rfl
theorem stY_p8 : sleepFuelOf stY 253402905600000 = 34 := by
  norm_num [sleepFuelOf, stY, spanFuel, MS_DAY, MS_HOUR, MS_MINUTE]
  decide

theorem fuel_Y : loopFuelOf stY 253401883200000 = 25 := by
  norm_num [loopFuelOf, stY, shiftHorizon, spanFuel, addHours, MS_HOUR, MS_MINUTE, MS_DAY]
  decide

theorem sd_Y : (cbtY 720).signedDifference = 0 := by
  norm_num [cbtY, CBTmin.signedDifference, hoursFromMinutes, subtractTimes, mod, jsRem, qtrunc]

/-- The full event list `createJetLagTimetable` returns for `inpY`. -/
def eventsY : List JetLagEvent := [
  { baseEvent "light" 253402315200000 (some 253402326000000) .delay 0 with is_light := true },
  { baseEvent "sleep" 253402326000000 (some 253402354800000) .delay 0 with is_sleep := true },
  { baseEvent "cbtmin" 253402326000000 none .delay 0 with is_cbtmin := true },
  { baseEvent "dark" 253402326000000 (some 253402336800000) .delay 0 with is_dark := true },
  { baseEvent "light" 253402407000000 (some 253402417800000) .delay 0 with is_light := true },
  { baseEvent "sleep" 253402412400000 (some 253402441200000) .delay 0 with is_sleep := true },
  { baseEvent "cbtmin" 253402417800000 none .delay 0 with is_cbtmin := true },
  { baseEvent "dark" 253402417800000 (some 253402428600000) .delay 0 with is_dark := true },
  { baseEvent "sleep" 253402498800000 (some 253402527600000) .delay 0 with is_sleep := true },
  { baseEvent "cbtmin" 253402509600000 none .delay 0 with is_cbtmin := true },
  { baseEvent "sleep" 253402585200000 (some 253402614000000) .delay 0 with is_sleep := true },
  { baseEvent "cbtmin" 253402599600000 none .delay 0 with is_cbtmin := true },
  { baseEvent "sleep" 253402671600000 (some 253402700400000) .delay 0 with is_sleep := true },
  { baseEvent "cbtmin" 253402689600000 none .delay 0 with is_cbtmin := true },
  { baseEvent "sleep" 253402758000000 (some 253402786800000) .delay 0 with is_sleep := true },
  { baseEvent "cbtmin" 253402776000000 none .delay 0 with is_cbtmin := true },
  { baseEvent "sleep" 253402844400000 (some 253402873200000) .delay 0 with is_sleep := true },
  { baseEvent "cbtmin" 253402862400000 none .delay 0 with is_cbtmin := true },
  { baseEvent "sleep" 253402930800000 (some 253402959600000) .delay 0 with is_sleep := true },
  { baseEvent "cbtmin" 253401883200000 none .delay 0 with is_cbtmin := true },
  { baseEvent "sleep" 253401951600000 (some 253401980400000) .delay 0 with is_sleep := true },
  { baseEvent "cbtmin" 253401969600000 none .delay 0 with is_cbtmin := true },
  { baseEvent "sleep" 253402038000000 (some 253402066800000) .delay 0 with is_sleep := true },
  { baseEvent "cbtmin" 253402056000000 none .delay 0 with is_cbtmin := true },
  { baseEvent "travel" 253402106400000 (some 253402185600000) .delay 0 with is_travel := true },
  { baseEvent "light" 253402131600000 (some 253402142400000) .delay 0 with is_light := true },
  { baseEvent "cbtmin" 253402142400000 none .delay 0 with is_cbtmin := true },
  { baseEvent "dark" 253402142400000 (some 253402153200000) .delay 0 with is_dark := true },
  { baseEvent "light" 253402223400000 (some 253402234200000) .delay 0 with is_light := true },
  { baseEvent "cbtmin" 253402234200000 none .delay 0 with is_cbtmin := true },
  { baseEvent "dark" 253402234200000 (some 253402245000000) .delay 0 with is_dark := true },
  { baseEvent "sleep" 253402239600000 (some 253402268400000) .delay 0 with is_sleep := true }]

set_option maxHeartbeats 4000000 in
theorem create_Y : createJetLagTimetable inpY = .ok eventsY := by
  norm_num +decide [createJetLagTimetable, mkSetup_Y, first_Y, ctx_Y_eq, fuel_Y,
    stY_cbt, stY_p1, stY_p2, stY_p3, stY_p4, stY_p5, stY_p6, stY_p7, stY_p8,
    loop_Y_0, loopOutY, sd_Y, seedEntry, List.getLastD, midnightForDatetime,
    addDays, MS_DAY, MS_HOUR, MS_MINUTE, sleep_Y_0, sleepOutY,
    eventsOfEntry, baseEvent, List.mergeSort, List.merge, eventLe, eventsY]

end JetLag


namespace JetLag

/-- CLAIM C5 counterexample.  For travel dates at the end of year 9999 the
run crosses into year 10000; `toISOString` renders those instants in the
expanded `+010000-…` form, whose leading `+` (code point 43) sorts before
every digit, so the lexicographic sort puts every year-10000 event ahead of
the year-9999 ones and the returned list is not chronologically sorted. -/
theorem claim5_counterexample :
    createJetLagTimetable inpY = .ok eventsY ∧
      ¬ List.Chain' (fun a b : JetLagEvent => a.start ≤ b.start) eventsY := by
  refine ⟨create_Y, fun h => ?_⟩
  simp only [eventsY, List.chain'_cons] at h
  have hb := h.2.2.2.2.2.2.2.2.2.2.2.2.2.2.2.2.2.2.1
  norm_num [baseEvent] at hb

end JetLag
